import Mathlib

/-! # EDM fabric router: flow-control and forwarding model

A shallow embedding of `tt_metal/fabric/impl/kernels/edm_fabric/fabric_erisc_router.cpp`.
Compile-time constants (`constexpr` template arguments and `ct_args`) are fields of
`RouterConfig`; values read from hardware during one call (queue-busy flag, credits landing
from the peer, downstream free-space answers, transaction-flushed answers) are explicit inputs
of the step functions; side effects on the outside world are appended, in program order, to an
event log carried by the state.
-/

namespace EdmRouter

/-- Number of values of a `uint32_t`. -/
def U32 : Nat := 4294967296

/-- The enumeration `eth_chan_directions`: EAST = 0, WEST = 1, NORTH = 2, SOUTH = 3. -/
inductive eth_chan_directions where
  | EAST
  | WEST
  | NORTH
  | SOUTH
deriving DecidableEq, Repr, Fintype

/-- Numeric value of a direction. -/
def eth_chan_directions.toNat : eth_chan_directions → Nat
  | eth_chan_directions.EAST => 0
  | eth_chan_directions.WEST => 1
  | eth_chan_directions.NORTH => 2
  | eth_chan_directions.SOUTH => 3

/-- Compile-time configuration of one router build (the `constexpr` values the kernel is
specialised on).  The arrays indexed by sender channel are functions of the channel index.
`low_latency_routing_fields` tells which linear `ROUTING_FIELDS_TYPE` is in use
(`LowLatencyRoutingFields` or `RoutingFields`); the constants of those two types, declared in
`fabric_edm_packet_header.hpp`, are the last seven fields. -/
structure RouterConfig where
  enable_deadlock_avoidance : Bool
  ENABLE_FIRST_LEVEL_ACK : Bool
  ETH_TXQ_SPIN_WAIT_SEND_NEXT_DATA : Bool
  ETH_TXQ_SPIN_WAIT_RECEIVER_SEND_COMPLETION_ACK : Bool
  skip_src_ch_id_update : Bool
  UPDATE_PKT_HDR_ON_RX_CH : Bool
  fuse_receiver_flush_and_completion_ptr : Bool
  enable_trid_flush_check_on_noc_txn : Bool
  udm_mode : Bool
  BUBBLE_FLOW_CONTROL_INJECTION_SENDER_CHANNEL_MIN_FREE_SLOTS : Nat
  sender_channel_is_traffic_injection_channel : Nat → Bool
  sender_ch_live_check_skip : Nat → Bool
  is_sender_channel_serviced : Nat → Bool
  SENDER_NUM_BUFFERS_ARRAY : Nat → Nat
  NUM_SENDER_CHANNELS : Nat
  REMOTE_RECEIVER_NUM_BUFFERS : Nat
  RECEIVER_NUM_BUFFERS : Nat
  is_2d_fabric : Bool
  my_direction : eth_chan_directions
  receiver_channel : Nat
  low_latency_routing_fields : Bool
  LAST_MCAST_VAL : Nat
  HOP_DISTANCE_MASK : Nat
  LAST_HOP_DISTANCE_VAL : Nat
  FIELD_MASK : Nat
  WRITE_ONLY : Nat
  FORWARD_ONLY : Nat
  WRITE_AND_FORWARD : Nat

/-! ## Sender side -/

/-- Modelled from the spec: the class `SenderChannelFromReceiverCredits`
(`fabric_router_flow_control.hpp` is not under src/).  The receiver publishes two free-running
counters per sender channel (packets acked, packets completed); the sender keeps how many of
each it has processed and compares them by difference only. -/
structure SenderChannelFromReceiverCredits where
  to_sender_packets_completed : Nat
  to_sender_packets_acked : Nat
  num_processed_completions : Nat
  num_processed_acks : Nat
deriving DecidableEq, Repr

/-- Modelled from the spec: `get_num_unprocessed_completions_from_receiver`, the difference
between the published completion counter and the processed count. -/
def SenderChannelFromReceiverCredits.get_num_unprocessed_completions_from_receiver
    (c : SenderChannelFromReceiverCredits) : Nat :=
  c.to_sender_packets_completed - c.num_processed_completions

/-- Modelled from the spec: `increment_num_processed_completions`. -/
def SenderChannelFromReceiverCredits.increment_num_processed_completions
    (c : SenderChannelFromReceiverCredits) (n : Nat) : SenderChannelFromReceiverCredits :=
  { c with num_processed_completions := c.num_processed_completions + n }

/-- Modelled from the spec: `get_num_unprocessed_acks_from_receiver`. -/
def SenderChannelFromReceiverCredits.get_num_unprocessed_acks_from_receiver
    (c : SenderChannelFromReceiverCredits) : Nat :=
  c.to_sender_packets_acked - c.num_processed_acks

/-- Modelled from the spec: `increment_num_processed_acks`. -/
def SenderChannelFromReceiverCredits.increment_num_processed_acks
    (c : SenderChannelFromReceiverCredits) (n : Nat) : SenderChannelFromReceiverCredits :=
  { c with num_processed_acks := c.num_processed_acks + n }

/-- Modelled from the spec: the sender-channel worker interface
(`fabric_erisc_datamover_channels.hpp` is not under src/): a write counter advanced once per
packet sent over the link and a read counter advanced by the credits returned upstream. -/
structure WorkerInterface where
  local_write_counter : Nat
  local_read_counter : Nat
deriving DecidableEq, Repr

/-- Externally visible actions of a sender channel step, in program order. -/
inductive SenderEvent where
  | set_src_ch_id (slot : Nat) (sender_channel_index : Nat)
  | update_packet_header_before_eth_send (slot : Nat)
  | wait_txq_idle
  | eth_send_packet_bytes (src_slot : Nat) (dest_slot : Nat)
  | remote_update_pkts_sent (delta : Nat)
  | read_completions (n : Nat)
  | processed_completions (n : Nat)
  | read_acks (n : Nat)
  | processed_acks (n : Nat)
  | send_credits_to_upstream_workers (num_credits : Nat)
  | notify_persistent_connection_of_free_space (num_credits : Nat)
  | notify_worker_of_read_counter_update (read_counter : Nat)
  | copy_read_counter_to_worker_location_info (read_counter : Nat)
  | connection_established
  | connection_torn_down
deriving DecidableEq, Repr

/-- The objects `run_sender_channel_step_impl` receives by reference, the file-scope flag
`did_something`, the cumulative number of credits written to the peer's packets-sent register,
and the log of external actions. -/
structure SenderStepState where
  local_sender_channel : Nat
  local_sender_channel_worker_interface : WorkerInterface
  outbound_to_receiver_channel_pointers_num_free_slots : Nat
  remote_receiver_channel : Nat
  channel_connection_established : Bool
  sender_channel_free_slots_stream : Nat
  sender_channel_from_receiver_credits : SenderChannelFromReceiverCredits
  did_something : Bool
  pkts_sent_published : Nat
  log : List SenderEvent
deriving DecidableEq, Repr

/-- Values the hardware and the peers supply during one sender step: the transmit-queue busy
flag at the `can_send` test, the credits that land between the completion read and the ack
read, and the connection semaphore observations. -/
structure SenderStepInput where
  eth_txq_is_busy : Bool
  completions_landing_mid_step : Nat
  acks_landing_mid_step : Nat
  has_worker_teardown_request : Bool
  connect_is_requested : Bool
deriving DecidableEq, Repr

/-- The function `send_next_data` (lines 546-598).  The slot pointers are ring indices
(modelled from the spec: the write index modulo the number of slots selects the slot). -/
def send_next_data (cfg : RouterConfig) (sender_channel_index : Nat) (s : SenderStepState) :
    SenderStepState :=
  let src_addr := s.local_sender_channel
  let dest_addr := s.remote_receiver_channel
  let log1 := if cfg.skip_src_ch_id_update then s.log
    else s.log ++ [SenderEvent.set_src_ch_id src_addr sender_channel_index]
  let log2 := if cfg.ETH_TXQ_SPIN_WAIT_SEND_NEXT_DATA then log1 ++ [SenderEvent.wait_txq_idle]
    else log1
  let log3 := log2 ++ [SenderEvent.eth_send_packet_bytes src_addr dest_addr]
  let wi := { s.local_sender_channel_worker_interface with
    local_write_counter := s.local_sender_channel_worker_interface.local_write_counter + 1 }
  let log4 := log3 ++ [SenderEvent.wait_txq_idle, SenderEvent.remote_update_pkts_sent 1]
  { s with
    local_sender_channel_worker_interface := wi
    remote_receiver_channel := (s.remote_receiver_channel + 1) % cfg.REMOTE_RECEIVER_NUM_BUFFERS
    local_sender_channel :=
      (s.local_sender_channel + 1) % cfg.SENDER_NUM_BUFFERS_ARRAY sender_channel_index
    outbound_to_receiver_channel_pointers_num_free_slots :=
      (s.outbound_to_receiver_channel_pointers_num_free_slots + (U32 - 1)) % U32
    pkts_sent_published := s.pkts_sent_published + 1
    log := log4 }

/-- The function `send_credits_to_upstream_workers` (lines 1412-1435).  The call itself is
logged with its `num_credits`, followed by the notification it performs. -/
def send_credits_to_upstream_workers (SKIP_CONNECTION_LIVENESS_CHECK : Bool) (num_credits : Nat)
    (s : SenderStepState) : SenderStepState :=
  let log1 := s.log ++ [SenderEvent.send_credits_to_upstream_workers num_credits]
  if SKIP_CONNECTION_LIVENESS_CHECK then
    { s with log := log1 ++ [SenderEvent.notify_persistent_connection_of_free_space num_credits] }
  else
    let wi := { s.local_sender_channel_worker_interface with
      local_read_counter := s.local_sender_channel_worker_interface.local_read_counter + num_credits }
    if s.channel_connection_established then
      { s with
        local_sender_channel_worker_interface := wi
        log := log1 ++ [SenderEvent.notify_worker_of_read_counter_update wi.local_read_counter] }
    else
      { s with
        local_sender_channel_worker_interface := wi
        log := log1 ++ [SenderEvent.copy_read_counter_to_worker_location_info wi.local_read_counter] }

/-- Modelled from the spec: `check_worker_connections` (`fabric_router_flow_control.hpp` is not
under src/).  A connection is created when the producer has signalled its liveness semaphore
and destroyed when an established producer has requested teardown. -/
def check_worker_connections (inp : SenderStepInput) (s : SenderStepState) : SenderStepState :=
  if !s.channel_connection_established then
    if inp.connect_is_requested then
      { s with
        channel_connection_established := true
        log := s.log ++ [SenderEvent.connection_established] }
    else s
  else if inp.has_worker_teardown_request then
    { s with
      channel_connection_established := false
      log := s.log ++ [SenderEvent.connection_torn_down] }
  else s

/-- The test `can_send` of `run_sender_channel_step_impl` (lines 1503-1524). -/
def sender_can_send (cfg : RouterConfig) (sender_channel_index : Nat) (inp : SenderStepInput)
    (s : SenderStepState) : Bool :=
  let use_bubble_flow_control :=
    cfg.sender_channel_is_traffic_injection_channel sender_channel_index &&
      cfg.enable_deadlock_avoidance
  let free_slots := s.sender_channel_free_slots_stream
  let receiver_has_space_for_packet :=
    if use_bubble_flow_control then
      decide (cfg.BUBBLE_FLOW_CONTROL_INJECTION_SENDER_CHANNEL_MIN_FREE_SLOTS ≤
        s.outbound_to_receiver_channel_pointers_num_free_slots)
    else decide (s.outbound_to_receiver_channel_pointers_num_free_slots ≠ 0)
  let has_unsent_packet := decide (free_slots < cfg.SENDER_NUM_BUFFERS_ARRAY sender_channel_index)
  let can_send := receiver_has_space_for_packet && has_unsent_packet
  if !cfg.ETH_TXQ_SPIN_WAIT_SEND_NEXT_DATA then can_send && !inp.eth_txq_is_busy else can_send

/-- Lines 1526-1552 of `run_sender_channel_step_impl`: the send, when `can_send` holds. -/
def sender_step_send (cfg : RouterConfig) (sender_channel_index : Nat) (inp : SenderStepInput)
    (s : SenderStepState) : SenderStepState :=
  if sender_can_send cfg sender_channel_index inp s then
    let a := { s with did_something := true }
    let b := if !cfg.UPDATE_PKT_HDR_ON_RX_CH then
        { a with log := a.log ++
            [SenderEvent.update_packet_header_before_eth_send a.local_sender_channel] }
      else a
    let c := send_next_data cfg sender_channel_index b
    { c with sender_channel_free_slots_stream := c.sender_channel_free_slots_stream + 1 }
  else s

/-- Lines 1554-1568 of `run_sender_channel_step_impl`: completions from the receiver. -/
def sender_step_completions (cfg : RouterConfig) (sender_channel_index : Nat)
    (s : SenderStepState) : SenderStepState :=
  let completions_since_last_check :=
    s.sender_channel_from_receiver_credits.get_num_unprocessed_completions_from_receiver
  let s1 := { s with log := s.log ++ [SenderEvent.read_completions completions_since_last_check] }
  if completions_since_last_check ≠ 0 then
    let a := { s1 with
      outbound_to_receiver_channel_pointers_num_free_slots :=
        (s1.outbound_to_receiver_channel_pointers_num_free_slots +
          completions_since_last_check) % U32
      sender_channel_from_receiver_credits :=
        s1.sender_channel_from_receiver_credits.increment_num_processed_completions
          completions_since_last_check
      log := s1.log ++ [SenderEvent.processed_completions completions_since_last_check] }
    if !cfg.ENABLE_FIRST_LEVEL_ACK then
      send_credits_to_upstream_workers (cfg.sender_ch_live_check_skip sender_channel_index)
        completions_since_last_check a
    else a
  else s1

/-- Credits the receiver publishes while the step is between its two credit reads. -/
def sender_step_credits_landing (inp : SenderStepInput) (s : SenderStepState) : SenderStepState :=
  { s with sender_channel_from_receiver_credits :=
    { s.sender_channel_from_receiver_credits with
      to_sender_packets_completed :=
        s.sender_channel_from_receiver_credits.to_sender_packets_completed +
          inp.completions_landing_mid_step
      to_sender_packets_acked :=
        s.sender_channel_from_receiver_credits.to_sender_packets_acked +
          inp.acks_landing_mid_step } }

/-- Lines 1570-1580 of `run_sender_channel_step_impl`: acks from the receiver. -/
def sender_step_acks (cfg : RouterConfig) (sender_channel_index : Nat) (s : SenderStepState) :
    SenderStepState :=
  if cfg.ENABLE_FIRST_LEVEL_ACK then
    let acks_since_last_check :=
      s.sender_channel_from_receiver_credits.get_num_unprocessed_acks_from_receiver
    let s1 := { s with log := s.log ++ [SenderEvent.read_acks acks_since_last_check] }
    if acks_since_last_check ≠ 0 then
      let a := { s1 with
        sender_channel_from_receiver_credits :=
          s1.sender_channel_from_receiver_credits.increment_num_processed_acks
            acks_since_last_check
        log := s1.log ++ [SenderEvent.processed_acks acks_since_last_check] }
      send_credits_to_upstream_workers (cfg.sender_ch_live_check_skip sender_channel_index)
        acks_since_last_check a
    else s1
  else s

/-- Lines 1582-1591 of `run_sender_channel_step_impl`: lazy connection liveness check. -/
def sender_step_connection (cfg : RouterConfig) (sender_channel_index : Nat)
    (inp : SenderStepInput) (s : SenderStepState) : SenderStepState :=
  if !cfg.sender_ch_live_check_skip sender_channel_index then
    let check_connection_status :=
      !s.channel_connection_established || inp.has_worker_teardown_request
    if check_connection_status then check_worker_connections inp s else s
  else s

/-- The function `run_sender_channel_step_impl` (lines 1488-1593): send at most one packet,
then drain completions, then acks, then recheck the connection.  The value it returns is the
field `did_something` of the resulting state. -/
def run_sender_channel_step_impl (cfg : RouterConfig) (sender_channel_index : Nat)
    (inp : SenderStepInput) (s : SenderStepState) : SenderStepState :=
  sender_step_connection cfg sender_channel_index inp
    (sender_step_acks cfg sender_channel_index
      (sender_step_credits_landing inp
        (sender_step_completions cfg sender_channel_index
          (sender_step_send cfg sender_channel_index inp s))))

/-- The value `run_sender_channel_step_impl` returns: the file-scope flag `did_something`. -/
def run_sender_channel_step_impl_result (cfg : RouterConfig) (sender_channel_index : Nat)
    (inp : SenderStepInput) (s : SenderStepState) : Bool :=
  (run_sender_channel_step_impl cfg sender_channel_index inp s).did_something

/-- The per-channel objects of the sender side (one entry of each of the arrays and tuples
that `run_sender_channel_step` indexes with `sender_channel_index`). -/
structure SenderChannelLocal where
  local_sender_channel : Nat
  local_sender_channel_worker_interface : WorkerInterface
  channel_connection_established : Bool
  sender_channel_free_slots_stream : Nat
  sender_channel_from_receiver_credits : SenderChannelFromReceiverCredits
deriving DecidableEq, Repr

/-- The sender side of one router: the free-slot count and the remote receiver channel that
all sender channels share, and the per-channel objects. -/
structure SenderSide where
  outbound_to_receiver_channel_pointers_num_free_slots : Nat
  remote_receiver_channel : Nat
  did_something : Bool
  pkts_sent_published : Nat
  log : List SenderEvent
  channels : Nat → SenderChannelLocal

/-- The arguments `run_sender_channel_step` passes for channel `sender_channel_index`. -/
def SenderSide.select (r : SenderSide) (sender_channel_index : Nat) : SenderStepState :=
  let c := r.channels sender_channel_index
  { local_sender_channel := c.local_sender_channel
    local_sender_channel_worker_interface := c.local_sender_channel_worker_interface
    outbound_to_receiver_channel_pointers_num_free_slots :=
      r.outbound_to_receiver_channel_pointers_num_free_slots
    remote_receiver_channel := r.remote_receiver_channel
    channel_connection_established := c.channel_connection_established
    sender_channel_free_slots_stream := c.sender_channel_free_slots_stream
    sender_channel_from_receiver_credits := c.sender_channel_from_receiver_credits
    did_something := r.did_something
    pkts_sent_published := r.pkts_sent_published
    log := r.log }

/-- Writes the objects a step received by reference back into the router state. -/
def SenderSide.store (r : SenderSide) (sender_channel_index : Nat) (s : SenderStepState) :
    SenderSide :=
  { outbound_to_receiver_channel_pointers_num_free_slots :=
      s.outbound_to_receiver_channel_pointers_num_free_slots
    remote_receiver_channel := s.remote_receiver_channel
    did_something := s.did_something
    pkts_sent_published := s.pkts_sent_published
    log := s.log
    channels := Function.update r.channels sender_channel_index
      { local_sender_channel := s.local_sender_channel
        local_sender_channel_worker_interface := s.local_sender_channel_worker_interface
        channel_connection_established := s.channel_connection_established
        sender_channel_free_slots_stream := s.sender_channel_free_slots_stream
        sender_channel_from_receiver_credits := s.sender_channel_from_receiver_credits } }

/-- The function `run_sender_channel_step` (lines 1595-1632): a channel this core does not
service is skipped. -/
def run_sender_channel_step (cfg : RouterConfig) (sender_channel_index : Nat)
    (inp : SenderStepInput) (r : SenderSide) : SenderSide :=
  if cfg.is_sender_channel_serviced sender_channel_index then
    r.store sender_channel_index
      (run_sender_channel_step_impl cfg sender_channel_index inp (r.select sender_channel_index))
  else r

/-- Sender side at router start (`run_fabric_edm_main_loop` and `kernel_main`): the tracked
remote free-slot count is the remote receiver depth, every free-slots register holds the
channel's number of buffers, every counter is zero. -/
def SenderSide.init (cfg : RouterConfig) : SenderSide :=
  { outbound_to_receiver_channel_pointers_num_free_slots := cfg.REMOTE_RECEIVER_NUM_BUFFERS
    remote_receiver_channel := 0
    did_something := false
    pkts_sent_published := 0
    log := []
    channels := fun i =>
      { local_sender_channel := 0
        local_sender_channel_worker_interface := { local_write_counter := 0, local_read_counter := 0 }
        channel_connection_established := false
        sender_channel_free_slots_stream := cfg.SENDER_NUM_BUFFERS_ARRAY i
        sender_channel_from_receiver_credits :=
          { to_sender_packets_completed := 0
            to_sender_packets_acked := 0
            num_processed_completions := 0
            num_processed_acks := 0 } } }

/-- What can happen to the sender side of a router: the upstream producer of a channel takes
one of its free slots (pushes a packet), the remote receiver publishes an ack or a completion
credit to a channel, or the main loop runs one step of a channel. -/
inductive SenderSideEvent where
  | producer_push (ch : Nat)
  | receiver_ack (ch : Nat)
  | receiver_completion (ch : Nat)
  | sender_step (ch : Nat) (inp : SenderStepInput)
deriving DecidableEq, Repr

/-- Replaces the per-channel objects of channel `ch`. -/
def SenderSide.set_channel (r : SenderSide) (ch : Nat) (c : SenderChannelLocal) : SenderSide :=
  { r with channels := Function.update r.channels ch c }

/-- The producer of a channel takes one free slot of its free-slots register. -/
def SenderChannelLocal.producer_push (c : SenderChannelLocal) : SenderChannelLocal :=
  { c with sender_channel_free_slots_stream := c.sender_channel_free_slots_stream - 1 }

/-- The receiver adds one to the packets-acked counter of a channel. -/
def SenderChannelLocal.receiver_ack (c : SenderChannelLocal) : SenderChannelLocal :=
  { c with sender_channel_from_receiver_credits :=
    { c.sender_channel_from_receiver_credits with
      to_sender_packets_acked := c.sender_channel_from_receiver_credits.to_sender_packets_acked + 1 } }

/-- The receiver adds one to the packets-completed counter of a channel. -/
def SenderChannelLocal.receiver_completion (c : SenderChannelLocal) : SenderChannelLocal :=
  { c with sender_channel_from_receiver_credits :=
    { c.sender_channel_from_receiver_credits with
      to_sender_packets_completed :=
        c.sender_channel_from_receiver_credits.to_sender_packets_completed + 1 } }

/-- Effect of one event on the sender side. -/
def SenderSide.apply (cfg : RouterConfig) (r : SenderSide) : SenderSideEvent → SenderSide
  | SenderSideEvent.producer_push ch => r.set_channel ch (r.channels ch).producer_push
  | SenderSideEvent.receiver_ack ch => r.set_channel ch (r.channels ch).receiver_ack
  | SenderSideEvent.receiver_completion ch => r.set_channel ch (r.channels ch).receiver_completion
  | SenderSideEvent.sender_step ch inp => run_sender_channel_step cfg ch inp r

/-- Total number of completion credits the receiver has published, over the sender channels. -/
def SenderSide.completions_published (cfg : RouterConfig) (r : SenderSide) : Nat :=
  ∑ i in Finset.range cfg.NUM_SENDER_CHANNELS,
    (r.channels i).sender_channel_from_receiver_credits.to_sender_packets_completed

/-- Total number of completion credits the sender channels have processed. -/
def SenderSide.completions_processed (cfg : RouterConfig) (r : SenderSide) : Nat :=
  ∑ i in Finset.range cfg.NUM_SENDER_CHANNELS,
    (r.channels i).sender_channel_from_receiver_credits.num_processed_completions

/-- Events only touch channels that exist. -/
def SenderSideEvent.channel : SenderSideEvent → Nat
  | SenderSideEvent.producer_push ch => ch
  | SenderSideEvent.receiver_ack ch => ch
  | SenderSideEvent.receiver_completion ch => ch
  | SenderSideEvent.sender_step ch _ => ch

/-- States reachable from the initial state by events on existing channels, every state on
the way satisfying the environment assumption `Good`. -/
inductive SenderSide.Reachable (cfg : RouterConfig) (Good : SenderSide → Prop) :
    SenderSide → Prop where
  | init : Good (SenderSide.init cfg) → SenderSide.Reachable cfg Good (SenderSide.init cfg)
  | next (r : SenderSide) (e : SenderSideEvent) :
      SenderSide.Reachable cfg Good r → e.channel < cfg.NUM_SENDER_CHANNELS →
      Good (r.apply cfg e) → SenderSide.Reachable cfg Good (r.apply cfg e)

/-- Environment assumption of the occupancy invariant: the receiver has not reported more
completions than packets were sent to it. -/
def SenderSide.ReceiverHonest (cfg : RouterConfig) (r : SenderSide) : Prop :=
  r.completions_published cfg ≤ r.pkts_sent_published

/-- Environment assumption of the credit ordering: on every channel the receiver has acked
at least as many packets as it has completed. -/
def SenderSide.AcksLeadCompletions (cfg : RouterConfig) (r : SenderSide) : Prop :=
  ∀ ch, ch < cfg.NUM_SENDER_CHANNELS →
    (r.channels ch).sender_channel_from_receiver_credits.to_sender_packets_completed ≤
      (r.channels ch).sender_channel_from_receiver_credits.to_sender_packets_acked

/-! ## Mesh directions and tables -/

/-- The function `is_spine_direction` (lines 349-354): bit 1 of the direction is set. -/
def is_spine_direction (direction : eth_chan_directions) : Bool :=
  (direction.toNat &&& 2) != 0

/-- The table `edm_index_to_edm_direction` (lines 378-383). -/
def edm_index_to_edm_direction (my_direction : eth_chan_directions) (compact_index : Nat) :
    eth_chan_directions :=
  match my_direction, compact_index with
  | eth_chan_directions.EAST, 0 => eth_chan_directions.WEST
  | eth_chan_directions.EAST, 1 => eth_chan_directions.NORTH
  | eth_chan_directions.EAST, _ => eth_chan_directions.SOUTH
  | eth_chan_directions.WEST, 0 => eth_chan_directions.EAST
  | eth_chan_directions.WEST, 1 => eth_chan_directions.NORTH
  | eth_chan_directions.WEST, _ => eth_chan_directions.SOUTH
  | eth_chan_directions.NORTH, 0 => eth_chan_directions.EAST
  | eth_chan_directions.NORTH, 1 => eth_chan_directions.WEST
  | eth_chan_directions.NORTH, _ => eth_chan_directions.SOUTH
  | eth_chan_directions.SOUTH, 0 => eth_chan_directions.EAST
  | eth_chan_directions.SOUTH, 1 => eth_chan_directions.WEST
  | eth_chan_directions.SOUTH, _ => eth_chan_directions.NORTH

/-- The table `direction_to_compact_index_map` (lines 474-479). -/
def direction_to_compact_index_map (my_direction downstream_direction : eth_chan_directions) :
    Nat :=
  match my_direction, downstream_direction with
  | eth_chan_directions.EAST, eth_chan_directions.EAST => 0
  | eth_chan_directions.EAST, eth_chan_directions.WEST => 0
  | eth_chan_directions.EAST, eth_chan_directions.NORTH => 1
  | eth_chan_directions.EAST, eth_chan_directions.SOUTH => 2
  | eth_chan_directions.WEST, eth_chan_directions.EAST => 0
  | eth_chan_directions.WEST, eth_chan_directions.WEST => 0
  | eth_chan_directions.WEST, eth_chan_directions.NORTH => 1
  | eth_chan_directions.WEST, eth_chan_directions.SOUTH => 2
  | eth_chan_directions.NORTH, eth_chan_directions.EAST => 0
  | eth_chan_directions.NORTH, eth_chan_directions.WEST => 1
  | eth_chan_directions.NORTH, eth_chan_directions.NORTH => 0
  | eth_chan_directions.NORTH, eth_chan_directions.SOUTH => 2
  | eth_chan_directions.SOUTH, eth_chan_directions.EAST => 0
  | eth_chan_directions.SOUTH, eth_chan_directions.WEST => 1
  | eth_chan_directions.SOUTH, eth_chan_directions.NORTH => 2
  | eth_chan_directions.SOUTH, eth_chan_directions.SOUTH => 0

/-- The function `get_downstream_edm_interface_index` (lines 620-631), through
`map_downstream_direction_to_compact_index` (lines 481-488). -/
def get_downstream_edm_interface_index (my_direction downstream_direction : eth_chan_directions) :
    Nat :=
  direction_to_compact_index_map my_direction downstream_direction

namespace LowLatencyMeshRoutingFields

/-- Modelled from the spec: the hop-command constants of `LowLatencyMeshRoutingFields`
(`fabric_edm_packet_header.hpp` is not under src/).  A command is a 4-bit set of directions:
bit 0 East, bit 1 West, bit 2 North, bit 3 South; `NOOP` is the empty set. -/
def NOOP : Nat := 0

/-- Modelled from the spec: hop command with the East bit only. -/
def FORWARD_EAST : Nat := 1

/-- Modelled from the spec: hop command with the West bit only. -/
def FORWARD_WEST : Nat := 2

/-- Modelled from the spec: hop command with the East and West bits. -/
def WRITE_AND_FORWARD_EW : Nat := 3

/-- Modelled from the spec: hop command with the North bit only. -/
def FORWARD_NORTH : Nat := 4

/-- Modelled from the spec: hop command with the North and East bits. -/
def WRITE_AND_FORWARD_NE : Nat := 5

/-- Modelled from the spec: hop command with the North and West bits. -/
def WRITE_AND_FORWARD_NW : Nat := 6

/-- Modelled from the spec: hop command with the North, East and West bits. -/
def WRITE_AND_FORWARD_NEW : Nat := 7

/-- Modelled from the spec: hop command with the South bit only. -/
def FORWARD_SOUTH : Nat := 8

/-- Modelled from the spec: hop command with the South and East bits. -/
def WRITE_AND_FORWARD_SE : Nat := 9

/-- Modelled from the spec: hop command with the South and West bits. -/
def WRITE_AND_FORWARD_SW : Nat := 10

/-- Modelled from the spec: hop command with the South, East and West bits. -/
def WRITE_AND_FORWARD_SEW : Nat := 11

/-- Modelled from the spec: hop command with the North and South bits. -/
def WRITE_AND_FORWARD_NS : Nat := 12

/-- Modelled from the spec: hop command with the North, South and East bits. -/
def WRITE_AND_FORWARD_NSE : Nat := 13

/-- Modelled from the spec: hop command with the North, South and West bits. -/
def WRITE_AND_FORWARD_NSW : Nat := 14

/-- Modelled from the spec: hop command with all four bits. -/
def WRITE_AND_FORWARD_NSEW : Nat := 15

end LowLatencyMeshRoutingFields

/-- The set of directions a hop command denotes: direction `x` is in it when bit `x` of the
command is set. -/
def hop_cmd_has_direction (hop_cmd : Nat) (x : eth_chan_directions) : Bool :=
  decide ((hop_cmd >>> x.toNat) % 2 = 1)

/-! ## Receiver side: admission and forwarding -/

/-- What `receiver_forward_packet` does with the packet of one slot: hand a copy to the
downstream sender channel behind the interface with the given compact index
(`forward_payload_to_downstream_edm`), or deliver it to the local destination
(`forward_to_local_destination`, in linear mode `execute_chip_unicast_to_local_chip`). -/
inductive ForwardAction where
  | forward_payload_to_downstream_edm (edm_index : Nat)
  | forward_to_local_destination
deriving DecidableEq, Repr

/-- The function `check_downstream_has_space` with a local relay (lines 644-658).
`downstream_has_space i` is the answer of `edm_has_space_for_packet` on
`downstream_edm_interfaces_vc0[i]`, `local_relay_has_space` that of the local relay. -/
def check_downstream_has_space (udm_mode : Bool) (my_direction DIRECTION : eth_chan_directions)
    (downstream_has_space : Nat → Bool) (local_relay_has_space : Bool) : Bool :=
  if DIRECTION = my_direction then
    if udm_mode then local_relay_has_space else true
  else
    downstream_has_space (get_downstream_edm_interface_index my_direction DIRECTION)

/-- The mesh `can_forward_packet_completely` (lines 669-767); each case is the fold
`downstreams_have_space<DIRECTIONS...>` (lines 660-667) written out.  A command outside the
sixteen cases is `__builtin_unreachable()` in the source and yields `false` here. -/
def can_forward_packet_completely_2d (udm_mode : Bool) (my_direction : eth_chan_directions)
    (hop_cmd : Nat) (downstream_has_space : Nat → Bool) (local_relay_has_space : Bool) : Bool :=
  let has_space := fun DIRECTION =>
    check_downstream_has_space udm_mode my_direction DIRECTION downstream_has_space
      local_relay_has_space
  if hop_cmd = LowLatencyMeshRoutingFields.NOOP then false
  else if hop_cmd = LowLatencyMeshRoutingFields.FORWARD_EAST then
    (has_space eth_chan_directions.EAST)
  else if hop_cmd = LowLatencyMeshRoutingFields.FORWARD_WEST then
    (has_space eth_chan_directions.WEST)
  else if hop_cmd = LowLatencyMeshRoutingFields.WRITE_AND_FORWARD_EW then
    (has_space eth_chan_directions.EAST && has_space eth_chan_directions.WEST)
  else if hop_cmd = LowLatencyMeshRoutingFields.FORWARD_NORTH then
    (has_space eth_chan_directions.NORTH)
  else if hop_cmd = LowLatencyMeshRoutingFields.FORWARD_SOUTH then
    (has_space eth_chan_directions.SOUTH)
  else if hop_cmd = LowLatencyMeshRoutingFields.WRITE_AND_FORWARD_NS then
    (has_space eth_chan_directions.NORTH && has_space eth_chan_directions.SOUTH)
  else if hop_cmd = LowLatencyMeshRoutingFields.WRITE_AND_FORWARD_NSEW then
    (has_space eth_chan_directions.EAST && has_space eth_chan_directions.WEST && has_space eth_chan_directions.NORTH && has_space eth_chan_directions.SOUTH)
  else if hop_cmd = LowLatencyMeshRoutingFields.WRITE_AND_FORWARD_NSE then
    (has_space eth_chan_directions.EAST && has_space eth_chan_directions.NORTH && has_space eth_chan_directions.SOUTH)
  else if hop_cmd = LowLatencyMeshRoutingFields.WRITE_AND_FORWARD_NSW then
    (has_space eth_chan_directions.WEST && has_space eth_chan_directions.NORTH && has_space eth_chan_directions.SOUTH)
  else if hop_cmd = LowLatencyMeshRoutingFields.WRITE_AND_FORWARD_SEW then
    (has_space eth_chan_directions.EAST && has_space eth_chan_directions.WEST && has_space eth_chan_directions.SOUTH)
  else if hop_cmd = LowLatencyMeshRoutingFields.WRITE_AND_FORWARD_NEW then
    (has_space eth_chan_directions.EAST && has_space eth_chan_directions.WEST && has_space eth_chan_directions.NORTH)
  else if hop_cmd = LowLatencyMeshRoutingFields.WRITE_AND_FORWARD_SE then
    (has_space eth_chan_directions.EAST && has_space eth_chan_directions.SOUTH)
  else if hop_cmd = LowLatencyMeshRoutingFields.WRITE_AND_FORWARD_SW then
    (has_space eth_chan_directions.WEST && has_space eth_chan_directions.SOUTH)
  else if hop_cmd = LowLatencyMeshRoutingFields.WRITE_AND_FORWARD_NE then
    (has_space eth_chan_directions.EAST && has_space eth_chan_directions.NORTH)
  else if hop_cmd = LowLatencyMeshRoutingFields.WRITE_AND_FORWARD_NW then
    (has_space eth_chan_directions.WEST && has_space eth_chan_directions.NORTH)
  else false

/-- The mesh `receiver_forward_packet` (lines 847-1282): the forwards and the local delivery
it issues, in program order.  The rewriting of `cached_routing_fields` under
`UPDATE_PKT_HDR_ON_RX_CH` only changes the header copy handed to a forward and is left out.
A command outside the sixteen cases is `__builtin_unreachable()` in the source and yields no
action here. -/
def receiver_forward_packet_2d (my_direction : eth_chan_directions) (hop_cmd : Nat) :
    List ForwardAction :=
  let forward := fun DIRECTION =>
    ForwardAction.forward_payload_to_downstream_edm
      (get_downstream_edm_interface_index my_direction DIRECTION)
  let local_destination := ForwardAction.forward_to_local_destination
  if hop_cmd = LowLatencyMeshRoutingFields.NOOP then []
  else if hop_cmd = LowLatencyMeshRoutingFields.FORWARD_EAST then
    if my_direction = eth_chan_directions.EAST then [local_destination]
    else [forward (eth_chan_directions.EAST)]
  else if hop_cmd = LowLatencyMeshRoutingFields.FORWARD_WEST then
    if my_direction = eth_chan_directions.WEST then [local_destination]
    else [forward (eth_chan_directions.WEST)]
  else if hop_cmd = LowLatencyMeshRoutingFields.WRITE_AND_FORWARD_EW then
    (if my_direction = eth_chan_directions.WEST then [forward (eth_chan_directions.EAST)]
      else [forward (eth_chan_directions.WEST)])
      ++ [local_destination]
  else if hop_cmd = LowLatencyMeshRoutingFields.FORWARD_NORTH then
    if my_direction = eth_chan_directions.NORTH then [local_destination]
    else [forward (eth_chan_directions.NORTH)]
  else if hop_cmd = LowLatencyMeshRoutingFields.FORWARD_SOUTH then
    if my_direction = eth_chan_directions.SOUTH then [local_destination]
    else [forward (eth_chan_directions.SOUTH)]
  else if hop_cmd = LowLatencyMeshRoutingFields.WRITE_AND_FORWARD_NS then
    (if my_direction = eth_chan_directions.SOUTH then [forward (eth_chan_directions.NORTH)]
      else [forward (eth_chan_directions.SOUTH)])
      ++ [local_destination]
  else if hop_cmd = LowLatencyMeshRoutingFields.WRITE_AND_FORWARD_NSEW then
    (if my_direction = eth_chan_directions.SOUTH then [forward (eth_chan_directions.NORTH)]
      else [forward (eth_chan_directions.SOUTH)])
      ++ [forward (eth_chan_directions.EAST)]
      ++ [forward (eth_chan_directions.WEST)]
      ++ [local_destination]
  else if hop_cmd = LowLatencyMeshRoutingFields.WRITE_AND_FORWARD_NSE then
    (if my_direction = eth_chan_directions.SOUTH then [forward (eth_chan_directions.NORTH)]
      else [forward (eth_chan_directions.SOUTH)])
      ++ [forward (eth_chan_directions.EAST)]
      ++ [local_destination]
  else if hop_cmd = LowLatencyMeshRoutingFields.WRITE_AND_FORWARD_NSW then
    (if my_direction = eth_chan_directions.SOUTH then [forward (eth_chan_directions.NORTH)]
      else [forward (eth_chan_directions.SOUTH)])
      ++ [forward (eth_chan_directions.WEST)]
      ++ [local_destination]
  else if hop_cmd = LowLatencyMeshRoutingFields.WRITE_AND_FORWARD_NEW then
    (if my_direction = eth_chan_directions.SOUTH then [forward (eth_chan_directions.NORTH)]
      else [local_destination])
      ++ [forward (eth_chan_directions.EAST)]
      ++ [forward (eth_chan_directions.WEST)]
  else if hop_cmd = LowLatencyMeshRoutingFields.WRITE_AND_FORWARD_SEW then
    (if my_direction = eth_chan_directions.NORTH then [forward (eth_chan_directions.SOUTH)]
      else [local_destination])
      ++ [forward (eth_chan_directions.EAST)]
      ++ [forward (eth_chan_directions.WEST)]
  else if hop_cmd = LowLatencyMeshRoutingFields.WRITE_AND_FORWARD_NE then
    (if my_direction = eth_chan_directions.SOUTH then [forward (eth_chan_directions.NORTH)]
      else [local_destination])
      ++ [forward (eth_chan_directions.EAST)]
  else if hop_cmd = LowLatencyMeshRoutingFields.WRITE_AND_FORWARD_NW then
    (if my_direction = eth_chan_directions.SOUTH then [forward (eth_chan_directions.NORTH)]
      else [local_destination])
      ++ [forward (eth_chan_directions.WEST)]
  else if hop_cmd = LowLatencyMeshRoutingFields.WRITE_AND_FORWARD_SE then
    (if my_direction = eth_chan_directions.NORTH then [forward (eth_chan_directions.SOUTH)]
      else [local_destination])
      ++ [forward (eth_chan_directions.EAST)]
  else if hop_cmd = LowLatencyMeshRoutingFields.WRITE_AND_FORWARD_SW then
    (if my_direction = eth_chan_directions.NORTH then [forward (eth_chan_directions.SOUTH)]
      else [local_destination])
      ++ [forward (eth_chan_directions.WEST)]
  else []

/-- The linear `can_forward_packet_completely` (lines 605-618). -/
def can_forward_packet_completely (cfg : RouterConfig) (cached_routing_fields_value : Nat)
    (downstream_edm_interface_has_space : Bool) : Bool :=
  let deliver_locally_only :=
    if cfg.low_latency_routing_fields then
      decide ((cached_routing_fields_value &&& cfg.FIELD_MASK) = cfg.WRITE_ONLY)
    else decide (cached_routing_fields_value = cfg.LAST_MCAST_VAL)
  deliver_locally_only || downstream_edm_interface_has_space

/-- The linear `receiver_forward_packet` (lines 771-824); the downstream interface it is given
is `downstream_edm_interfaces_vc0[0]`.  The `default` case of the low-latency switch is
`ASSERT(false)` and issues nothing. -/
def receiver_forward_packet (cfg : RouterConfig) (cached_routing_fields_value : Nat) :
    List ForwardAction :=
  if cfg.low_latency_routing_fields then
    let routing := (cached_routing_fields_value % U32) &&& cfg.FIELD_MASK
    if routing = cfg.WRITE_ONLY then [ForwardAction.forward_to_local_destination]
    else if routing = cfg.FORWARD_ONLY then [ForwardAction.forward_payload_to_downstream_edm 0]
    else if routing = cfg.WRITE_AND_FORWARD then
      [ForwardAction.forward_payload_to_downstream_edm 0, ForwardAction.forward_to_local_destination]
    else []
  else
    let start_distance_is_terminal_value :=
      decide ((cached_routing_fields_value &&& cfg.HOP_DISTANCE_MASK) = cfg.LAST_HOP_DISTANCE_VAL)
    let not_last_destination_device := decide (cached_routing_fields_value ≠ cfg.LAST_MCAST_VAL)
    (if not_last_destination_device then [ForwardAction.forward_payload_to_downstream_edm 0]
      else []) ++
    (if start_distance_is_terminal_value then [ForwardAction.forward_to_local_destination]
      else [])

/-! ## Receiver channel step -/

/-- Modelled from the spec: the class `ChannelCounter` (`fabric_erisc_datamover_channels.hpp`
is not under src/): a free-running counter together with the ring index of its slot.  The
model keeps the cumulative value of the counter. -/
structure ChannelCounter where
  counter : Nat
  index : Nat
deriving DecidableEq, Repr

/-- Modelled from the spec: `ChannelCounter::increment`, one step forward on the ring. -/
def ChannelCounter.increment (num_buffers : Nat) (c : ChannelCounter) : ChannelCounter :=
  { counter := c.counter + 1, index := (c.index + 1) % num_buffers }

/-- Modelled from the spec: `ChannelCounter::get_buffer_index`. -/
def ChannelCounter.get_buffer_index (c : ChannelCounter) : Nat := c.index

/-- Modelled from the spec: `ChannelCounter::is_caught_up_to`, the two counters are equal. -/
def ChannelCounter.is_caught_up_to (c other : ChannelCounter) : Bool :=
  decide (c.counter = other.counter)

/-- Modelled from the spec: the class `ReceiverChannelPointers`
(`fabric_erisc_datamover_channels.hpp` is not under src/): the four receiver counters and
the source-channel id recorded for every buffer slot. -/
structure ReceiverChannelPointers where
  wr_sent_counter : ChannelCounter
  wr_flush_counter : ChannelCounter
  ack_counter : ChannelCounter
  completion_counter : ChannelCounter
  src_chan_ids : Nat → Nat

/-- Modelled from the spec: `ReceiverChannelPointers::set_src_chan_id`. -/
def ReceiverChannelPointers.set_src_chan_id (p : ReceiverChannelPointers) (buffer_index : Nat)
    (src_chan_id : Nat) : ReceiverChannelPointers :=
  { p with src_chan_ids := Function.update p.src_chan_ids buffer_index src_chan_id }

/-- Modelled from the spec: `ReceiverChannelPointers::get_src_chan_id` with a buffer index. -/
def ReceiverChannelPointers.get_src_chan_id (p : ReceiverChannelPointers) (buffer_index : Nat) :
    Nat :=
  p.src_chan_ids buffer_index

/-- Modelled from the spec: `ReceiverChannelPointers::get_src_chan_id` without an argument,
used when there is a single sender channel; the main loop records that channel at index 0. -/
def ReceiverChannelPointers.get_src_chan_id_single (p : ReceiverChannelPointers) : Nat :=
  p.src_chan_ids 0

/-- Externally visible actions of a receiver channel step, in program order. -/
inductive ReceiverEvent where
  | receiver_send_received_ack (src_ch_id : Nat)
  | update_buffer_slot_to_next_trid_and_advance_trid_counter (slot : Nat)
  | receiver_forward_packet (slot : Nat) (action : ForwardAction)
  | clear_trid_at_buffer_slot (slot : Nat)
  | receiver_send_completion_ack (src_ch_id : Nat)
deriving DecidableEq, Repr

/-- The objects `run_receiver_channel_step_impl` works on: the receiver pointers, the value of
the packets-sent stream register `to_receiver_pkts_sent_id`, the file-scope flag
`did_something`, and the log of external actions. -/
structure ReceiverStepState where
  receiver_channel_pointers : ReceiverChannelPointers
  to_receiver_pkts_sent : Nat
  did_something : Bool
  log : List ReceiverEvent

/-- Values the hardware and the neighbours supply during one receiver step: the busy flag of
the receiver transmit queue at the ack test and at the completion test, the source-channel id
in the header of the packet in each slot, the hop command (mesh) or routing-field value
(linear) of the packet at the write-sent slot, the free-space answers of the downstream
interfaces and of the local relay, and the answers of the transaction tracker at the admission
test and at the flush test. -/
structure ReceiverStepInput where
  eth_txq_is_busy_at_ack : Bool
  eth_txq_is_busy_at_completion : Bool
  packet_header_src_ch_id : Nat → Nat
  hop_cmd : Nat
  cached_routing_fields_value : Nat
  downstream_has_space : Nat → Bool
  local_relay_has_space : Bool
  trid_flushed : Bool
  next_trid_flushed : Bool

/-- Lines 1657-1688 of `run_receiver_channel_step_impl`: the first-level ack. -/
def receiver_step_ack (cfg : RouterConfig) (inp : ReceiverStepInput) (s : ReceiverStepState) :
    ReceiverStepState :=
  if cfg.ENABLE_FIRST_LEVEL_ACK then
    let pkts_received := decide (0 < s.to_receiver_pkts_sent)
    let can_send_ack :=
      if !cfg.ETH_TXQ_SPIN_WAIT_RECEIVER_SEND_COMPLETION_ACK then
        pkts_received && !inp.eth_txq_is_busy_at_ack
      else pkts_received
    if can_send_ack then
      let receiver_buffer_index := s.receiver_channel_pointers.ack_counter.get_buffer_index
      let p1 :=
        if cfg.skip_src_ch_id_update then s.receiver_channel_pointers
        else s.receiver_channel_pointers.set_src_chan_id receiver_buffer_index
          (inp.packet_header_src_ch_id receiver_buffer_index)
      let src_ch_id :=
        if cfg.skip_src_ch_id_update then p1.get_src_chan_id_single
        else p1.get_src_chan_id receiver_buffer_index
      { s with
        to_receiver_pkts_sent := s.to_receiver_pkts_sent - 1
        receiver_channel_pointers :=
          { p1 with ack_counter := p1.ack_counter.increment cfg.RECEIVER_NUM_BUFFERS }
        log := s.log ++ [ReceiverEvent.receiver_send_received_ack src_ch_id] }
    else s
  else s

/-- The flag `unwritten_packets` (lines 1687 and 1690); `pkts_received_since_last_check` is the
register value read at the head of the step, `s` the state after the ack stage. -/
def receiver_unwritten_packets (cfg : RouterConfig) (pkts_received_since_last_check : Nat)
    (s : ReceiverStepState) : Bool :=
  if cfg.ENABLE_FIRST_LEVEL_ACK then
    !s.receiver_channel_pointers.wr_sent_counter.is_caught_up_to
      s.receiver_channel_pointers.ack_counter
  else decide (pkts_received_since_last_check ≠ 0)

/-- The value `can_forward_packet_completely` returns in the step (lines 1716-1742): the mesh
test on the hop command, or the linear test on the routing fields and the downstream
interface `downstream_edm_interfaces_vc0[receiver_channel]`. -/
def can_forward_packet_completely_result (cfg : RouterConfig) (inp : ReceiverStepInput) : Bool :=
  if cfg.is_2d_fabric then
    can_forward_packet_completely_2d cfg.udm_mode cfg.my_direction inp.hop_cmd
      inp.downstream_has_space inp.local_relay_has_space
  else
    can_forward_packet_completely cfg inp.cached_routing_fields_value
      (inp.downstream_has_space cfg.receiver_channel)

/-- The flag `can_send_to_all_local_chip_receivers` (lines 1715-1746). -/
def can_send_to_all_local_chip_receivers (cfg : RouterConfig) (inp : ReceiverStepInput) : Bool :=
  let can_forward := can_forward_packet_completely_result cfg inp
  if cfg.enable_trid_flush_check_on_noc_txn then can_forward && inp.trid_flushed else can_forward

/-- The forwards and local delivery issued for an admitted packet (lines 1759-1774). -/
def receiver_forward_actions (cfg : RouterConfig) (inp : ReceiverStepInput) : List ForwardAction :=
  if cfg.is_2d_fabric then receiver_forward_packet_2d cfg.my_direction inp.hop_cmd
  else receiver_forward_packet cfg inp.cached_routing_fields_value

/-- Lines 1698-1781 of `run_receiver_channel_step_impl`: admission and forwarding of the
packet at the write-sent slot. -/
def receiver_step_forward (cfg : RouterConfig) (inp : ReceiverStepInput)
    (unwritten_packets : Bool) (s : ReceiverStepState) : ReceiverStepState :=
  if unwritten_packets then
    let receiver_buffer_index := s.receiver_channel_pointers.wr_sent_counter.get_buffer_index
    let p1 :=
      if !cfg.skip_src_ch_id_update && !cfg.ENABLE_FIRST_LEVEL_ACK then
        s.receiver_channel_pointers.set_src_chan_id receiver_buffer_index
          (inp.packet_header_src_ch_id receiver_buffer_index)
      else s.receiver_channel_pointers
    if can_send_to_all_local_chip_receivers cfg inp then
      { receiver_channel_pointers :=
          { p1 with wr_sent_counter := p1.wr_sent_counter.increment cfg.RECEIVER_NUM_BUFFERS }
        to_receiver_pkts_sent :=
          if !cfg.ENABLE_FIRST_LEVEL_ACK then s.to_receiver_pkts_sent - 1
          else s.to_receiver_pkts_sent
        did_something := true
        log := s.log ++
          [ReceiverEvent.update_buffer_slot_to_next_trid_and_advance_trid_counter
            receiver_buffer_index] ++
          (receiver_forward_actions cfg inp).map
            (ReceiverEvent.receiver_forward_packet receiver_buffer_index) }
    else { s with receiver_channel_pointers := p1 }
  else s

/-- Modelled from the spec: the two-argument `is_caught_up_to` the completion test calls
(`completion_counter.is_caught_up_to(completion_counter, wr_flush_counter)`, line 1799): the
two counters passed are equal. -/
def ChannelCounter.is_caught_up_to_pair (a b : ChannelCounter) : Bool :=
  decide (a.counter = b.counter)

/-- Lines 1787-1796 of `run_receiver_channel_step_impl`: the write-flush pointer. -/
def receiver_step_flush (cfg : RouterConfig) (inp : ReceiverStepInput) (s : ReceiverStepState) :
    ReceiverStepState :=
  let p := s.receiver_channel_pointers
  let unflushed_writes := !p.wr_flush_counter.is_caught_up_to p.wr_sent_counter
  if unflushed_writes then
    let receiver_buffer_index := p.wr_flush_counter.get_buffer_index
    if inp.next_trid_flushed then
      { s with
        receiver_channel_pointers :=
          { p with wr_flush_counter := p.wr_flush_counter.increment cfg.RECEIVER_NUM_BUFFERS }
        log := s.log ++ [ReceiverEvent.clear_trid_at_buffer_slot receiver_buffer_index] }
    else s
  else s

/-- Lines 1798-1810 of `run_receiver_channel_step_impl`: the completion credit when flush and
completion are separate pointers. -/
def receiver_step_completion (cfg : RouterConfig) (inp : ReceiverStepInput)
    (s : ReceiverStepState) : ReceiverStepState :=
  let p := s.receiver_channel_pointers
  let unsent_completions :=
    if !cfg.ETH_TXQ_SPIN_WAIT_RECEIVER_SEND_COMPLETION_ACK then
      !ChannelCounter.is_caught_up_to_pair p.completion_counter p.wr_flush_counter &&
        !inp.eth_txq_is_busy_at_completion
    else !ChannelCounter.is_caught_up_to_pair p.completion_counter p.wr_flush_counter
  if unsent_completions then
    let receiver_buffer_index := p.wr_flush_counter.get_buffer_index
    { s with
      receiver_channel_pointers :=
        { p with completion_counter := p.completion_counter.increment cfg.RECEIVER_NUM_BUFFERS }
      log := s.log ++
        [ReceiverEvent.receiver_send_completion_ack (p.get_src_chan_id receiver_buffer_index)] }
  else s

/-- Lines 1811-1835 of `run_receiver_channel_step_impl`: flush and completion fused into the
completion pointer. -/
def receiver_step_fused_completion (cfg : RouterConfig) (inp : ReceiverStepInput)
    (s : ReceiverStepState) : ReceiverStepState :=
  let p := s.receiver_channel_pointers
  let unflushed_writes := !p.completion_counter.is_caught_up_to p.wr_sent_counter
  let receiver_buffer_index := p.completion_counter.get_buffer_index
  let next_trid_flushed := inp.next_trid_flushed
  let can_send_completion :=
    if !cfg.ETH_TXQ_SPIN_WAIT_RECEIVER_SEND_COMPLETION_ACK then
      unflushed_writes && next_trid_flushed && !inp.eth_txq_is_busy_at_completion
    else unflushed_writes && next_trid_flushed
  if can_send_completion then
    let src_ch_id :=
      if cfg.skip_src_ch_id_update then p.get_src_chan_id_single
      else p.get_src_chan_id receiver_buffer_index
    { s with
      receiver_channel_pointers :=
        { p with completion_counter := p.completion_counter.increment cfg.RECEIVER_NUM_BUFFERS }
      log := s.log ++
        [ReceiverEvent.receiver_send_completion_ack src_ch_id,
          ReceiverEvent.clear_trid_at_buffer_slot receiver_buffer_index] }
  else s

/-- The function `run_receiver_channel_step_impl` (lines 1634-1837): first-level ack, then
admission and forwarding of the packet at the write-sent slot, then flush and completion.
The value it returns is the field `did_something` of the resulting state. -/
def run_receiver_channel_step_impl (cfg : RouterConfig) (inp : ReceiverStepInput)
    (s : ReceiverStepState) : ReceiverStepState :=
  let pkts_received_since_last_check := s.to_receiver_pkts_sent
  let s1 := receiver_step_ack cfg inp s
  let unwritten_packets := receiver_unwritten_packets cfg pkts_received_since_last_check s1
  let s2 := receiver_step_forward cfg inp unwritten_packets s1
  if !cfg.fuse_receiver_flush_and_completion_ptr then
    receiver_step_completion cfg inp (receiver_step_flush cfg inp s2)
  else receiver_step_fused_completion cfg inp s2

/-- The value `run_receiver_channel_step_impl` returns: the file-scope flag `did_something`. -/
def run_receiver_channel_step_impl_result (cfg : RouterConfig) (inp : ReceiverStepInput)
    (s : ReceiverStepState) : Bool :=
  (run_receiver_channel_step_impl cfg inp s).did_something

/-- Receiver channel after `receiver_channel_pointers_ch0.reset()` and
`init_ptr_val<to_receiver_packets_sent_streams[0]>(0)`: every counter is zero.  The recorded
source-channel ids start as `src_chan_ids`. -/
def ReceiverStepState.reset (src_chan_ids : Nat → Nat) : ReceiverStepState :=
  { receiver_channel_pointers :=
      { wr_sent_counter := { counter := 0, index := 0 }
        wr_flush_counter := { counter := 0, index := 0 }
        ack_counter := { counter := 0, index := 0 }
        completion_counter := { counter := 0, index := 0 }
        src_chan_ids := src_chan_ids }
    to_receiver_pkts_sent := 0
    did_something := false
    log := [] }

/-- The remote sender publishes `n` packets-sent credits to the receiver. -/
def ReceiverStepState.packets_sent_arrive (s : ReceiverStepState) (n : Nat) : ReceiverStepState :=
  { s with to_receiver_pkts_sent := s.to_receiver_pkts_sent + n }

/-- States of a receiver channel reachable from reset by packets-sent credit arrivals and
calls of `run_receiver_channel_step_impl` with arbitrary inputs. -/
inductive ReceiverStepState.Reachable (cfg : RouterConfig) : ReceiverStepState → Prop where
  | reset (src_chan_ids : Nat → Nat) :
      ReceiverStepState.Reachable cfg (ReceiverStepState.reset src_chan_ids)
  | arrive (s : ReceiverStepState) (n : Nat) :
      ReceiverStepState.Reachable cfg s → ReceiverStepState.Reachable cfg (s.packets_sent_arrive n)
  | step (s : ReceiverStepState) (inp : ReceiverStepInput) :
      ReceiverStepState.Reachable cfg s →
      ReceiverStepState.Reachable cfg (run_receiver_channel_step_impl cfg inp s)

/-- Result of polling a receiver channel `n` times in a row with the same inputs. -/
def receiver_poll (cfg : RouterConfig) (inp : ReceiverStepInput) :
    Nat → ReceiverStepState → ReceiverStepState
  | 0, s => s
  | n + 1, s => receiver_poll cfg inp n (run_receiver_channel_step_impl cfg inp s)

/-! ## Predicates and sample configurations used by the theorems -/

/-- Invariant behind the occupancy bound: free slots plus packets sent equals the receiver
depth plus completions processed, and no channel has processed more completions than the
receiver published to it. -/
def SenderSide.OccupancyInv (cfg : RouterConfig) (r : SenderSide) : Prop :=
  r.outbound_to_receiver_channel_pointers_num_free_slots + r.pkts_sent_published =
      cfg.REMOTE_RECEIVER_NUM_BUFFERS + r.completions_processed cfg ∧
  ∀ ch, (r.channels ch).sender_channel_from_receiver_credits.num_processed_completions ≤
      (r.channels ch).sender_channel_from_receiver_credits.to_sender_packets_completed

/-- The events `send_next_data` and the header update before it produce. -/
def SenderEvent.is_send_event : SenderEvent → Bool
  | SenderEvent.set_src_ch_id _ _ => true
  | SenderEvent.update_packet_header_before_eth_send _ => true
  | SenderEvent.wait_txq_idle => true
  | SenderEvent.eth_send_packet_bytes _ _ => true
  | SenderEvent.remote_update_pkts_sent _ => true
  | _ => false

/-- The `num_credits` of a logged call of `send_credits_to_upstream_workers`. -/
def SenderEvent.upstream_credits : SenderEvent → Option Nat
  | SenderEvent.send_credits_to_upstream_workers n => some n
  | _ => none

/-- The credit reads and the credit bookkeeping among the logged events. -/
def SenderEvent.is_drain_event : SenderEvent → Bool
  | SenderEvent.read_completions _ => true
  | SenderEvent.processed_completions _ => true
  | SenderEvent.read_acks _ => true
  | SenderEvent.processed_acks _ => true
  | _ => false

/-- The events one transmission appends to the log, in program order: the header update
(unless it is done on the receiver side), the source-channel id (unless skipped), the optional
spin wait, the payload send, the wait for the queue, and the packets-sent credit. -/
def sender_send_events (cfg : RouterConfig) (sender_channel_index : Nat) (s : SenderStepState) :
    List SenderEvent :=
  (if !cfg.UPDATE_PKT_HDR_ON_RX_CH then
      [SenderEvent.update_packet_header_before_eth_send s.local_sender_channel] else []) ++
  (if cfg.skip_src_ch_id_update then []
    else [SenderEvent.set_src_ch_id s.local_sender_channel sender_channel_index]) ++
  (if cfg.ETH_TXQ_SPIN_WAIT_SEND_NEXT_DATA then [SenderEvent.wait_txq_idle] else []) ++
  [SenderEvent.eth_send_packet_bytes s.local_sender_channel s.remote_receiver_channel,
    SenderEvent.wait_txq_idle, SenderEvent.remote_update_pkts_sent 1]

/-- Number of completion credits a step starting in `s` finds unprocessed. -/
def SenderStepState.new_completions (s : SenderStepState) : Nat :=
  s.sender_channel_from_receiver_credits.to_sender_packets_completed -
    s.sender_channel_from_receiver_credits.num_processed_completions

/-- Number of ack credits a step starting in `s` finds unprocessed at its ack read, the acks
landing mid-step included. -/
def SenderStepState.new_acks (inp : SenderStepInput) (s : SenderStepState) : Nat :=
  s.sender_channel_from_receiver_credits.to_sender_packets_acked + inp.acks_landing_mid_step -
    s.sender_channel_from_receiver_credits.num_processed_acks

/-- The fields only a transmission writes agree in the two states. -/
def SenderStepState.SendFieldsEq (u t : SenderStepState) : Prop :=
  t.local_sender_channel = u.local_sender_channel ∧
  t.remote_receiver_channel = u.remote_receiver_channel ∧
  t.sender_channel_free_slots_stream = u.sender_channel_free_slots_stream ∧
  t.pkts_sent_published = u.pkts_sent_published ∧
  t.did_something = u.did_something ∧
  t.local_sender_channel_worker_interface.local_write_counter =
    u.local_sender_channel_worker_interface.local_write_counter

/-- The log of `t` extends that of `u` by `rest`, with the send events, upstream-credit calls
and credit-drain events of `rest` as given. -/
def SenderStepState.LogExtends (u t : SenderStepState) (credit_calls : List Nat)
    (drain : List SenderEvent) : Prop :=
  ∃ rest, t.log = u.log ++ rest ∧ rest.filter SenderEvent.is_send_event = [] ∧
    rest.filterMap SenderEvent.upstream_credits = credit_calls ∧
    rest.filter SenderEvent.is_drain_event = drain

/-- A mesh build: four sender channels of four buffers, a remote receiver of four buffers,
first-level ack and deadlock avoidance on, channel 0 the worker (injection) channel. -/
def RouterConfig.sample_mesh : RouterConfig :=
  { enable_deadlock_avoidance := true
    ENABLE_FIRST_LEVEL_ACK := true
    ETH_TXQ_SPIN_WAIT_SEND_NEXT_DATA := false
    ETH_TXQ_SPIN_WAIT_RECEIVER_SEND_COMPLETION_ACK := false
    skip_src_ch_id_update := false
    UPDATE_PKT_HDR_ON_RX_CH := false
    fuse_receiver_flush_and_completion_ptr := false
    enable_trid_flush_check_on_noc_txn := true
    udm_mode := false
    BUBBLE_FLOW_CONTROL_INJECTION_SENDER_CHANNEL_MIN_FREE_SLOTS := 2
    sender_channel_is_traffic_injection_channel := fun i => decide (i = 0)
    sender_ch_live_check_skip := fun i => decide (i ≠ 0)
    is_sender_channel_serviced := fun _ => true
    SENDER_NUM_BUFFERS_ARRAY := fun _ => 4
    NUM_SENDER_CHANNELS := 4
    REMOTE_RECEIVER_NUM_BUFFERS := 4
    RECEIVER_NUM_BUFFERS := 4
    is_2d_fabric := true
    my_direction := eth_chan_directions.EAST
    receiver_channel := 0
    low_latency_routing_fields := true
    LAST_MCAST_VAL := 17
    HOP_DISTANCE_MASK := 15
    LAST_HOP_DISTANCE_VAL := 1
    FIELD_MASK := 3
    WRITE_ONLY := 1
    FORWARD_ONLY := 2
    WRITE_AND_FORWARD := 3 }

/-- A linear build: two sender channels, no first-level ack, no deadlock avoidance. -/
def RouterConfig.sample_linear : RouterConfig :=
  { RouterConfig.sample_mesh with
    enable_deadlock_avoidance := false
    ENABLE_FIRST_LEVEL_ACK := false
    NUM_SENDER_CHANNELS := 2
    is_2d_fabric := false }

/-- A sender step input with an idle transmit queue and nothing landing mid-step. -/
def SenderStepInput.quiet : SenderStepInput :=
  { eth_txq_is_busy := false
    completions_landing_mid_step := 0
    acks_landing_mid_step := 0
    has_worker_teardown_request := false
    connect_is_requested := false }

/-- Sender side of the sample mesh build after the producer of channel 1 pushed one packet
and channel 1 ran one step with an idle transmit queue. -/
def SenderSide.sample_after_one_send : SenderSide :=
  ((SenderSide.init RouterConfig.sample_mesh).apply RouterConfig.sample_mesh
    (SenderSideEvent.producer_push 1)).apply RouterConfig.sample_mesh
    (SenderSideEvent.sender_step 1 SenderStepInput.quiet)

/-- A sender step state of channel 1 with one queued packet and all four receiver slots free. -/
def SenderStepState.sample : SenderStepState :=
  { local_sender_channel := 0
    local_sender_channel_worker_interface := { local_write_counter := 0, local_read_counter := 0 }
    outbound_to_receiver_channel_pointers_num_free_slots := 4
    remote_receiver_channel := 0
    channel_connection_established := true
    sender_channel_free_slots_stream := 3
    sender_channel_from_receiver_credits :=
      { to_sender_packets_completed := 0
        to_sender_packets_acked := 0
        num_processed_completions := 0
        num_processed_acks := 0 }
    did_something := false
    pkts_sent_published := 0
    log := [] }

/-- The payload sends among the logged events. -/
def SenderEvent.is_payload_send : SenderEvent → Bool
  | SenderEvent.eth_send_packet_bytes _ _ => true
  | _ => false

/-- The packets-sent credit a logged event publishes to the remote receiver. -/
def SenderEvent.pkts_sent_delta : SenderEvent → Option Nat
  | SenderEvent.remote_update_pkts_sent delta => some delta
  | _ => none

/-- The source-channel id writes among the logged events. -/
def SenderEvent.is_src_ch_id_write : SenderEvent → Bool
  | SenderEvent.set_src_ch_id _ _ => true
  | _ => false

/-- The sample linear build with a single sender channel whose id is not written into headers. -/
def RouterConfig.sample_single_sender : RouterConfig :=
  { RouterConfig.sample_linear with skip_src_ch_id_update := true }

/-- A channel state with one queued packet, three free receiver slots and one completion
credit published by the receiver but not yet processed. -/
def SenderStepState.sample_pending_completion : SenderStepState :=
  { SenderStepState.sample with
    outbound_to_receiver_channel_pointers_num_free_slots := 3
    pkts_sent_published := 1
    sender_channel_from_receiver_credits :=
      { to_sender_packets_completed := 1
        to_sender_packets_acked := 1
        num_processed_completions := 0
        num_processed_acks := 1 } }

/-- The sample mesh run in which channel 1 sends one packet, the receiver acks it, and
channel 1 runs a second step: one ack observed, no completion yet. -/
def SenderSide.sample_after_one_ack : SenderSide :=
  (SenderSide.sample_after_one_send.apply RouterConfig.sample_mesh
    (SenderSideEvent.receiver_ack 1)).apply RouterConfig.sample_mesh
    (SenderSideEvent.sender_step 1 SenderStepInput.quiet)

/-- Invariant behind the credit ordering: with first-level ack a channel has processed at
least as many acks as completions, without it a channel processes no ack at all. -/
def SenderSide.CreditOrderInv (cfg : RouterConfig) (r : SenderSide) : Prop :=
  ∀ ch,
    (cfg.ENABLE_FIRST_LEVEL_ACK = true →
      (r.channels ch).sender_channel_from_receiver_credits.num_processed_completions ≤
        (r.channels ch).sender_channel_from_receiver_credits.num_processed_acks) ∧
    (cfg.ENABLE_FIRST_LEVEL_ACK = false →
      (r.channels ch).sender_channel_from_receiver_credits.num_processed_acks = 0)

/-- The forwards and local deliveries among the logged receiver events. -/
def ReceiverEvent.is_forward_event : ReceiverEvent → Bool
  | ReceiverEvent.receiver_forward_packet _ _ => true
  | _ => false

/-- The pointer chain of a receiver channel: write-flush and completion trail write-sent,
completion trails write-flush when the two are separate pointers, and write-sent trails the
ack pointer when first-level ack is enabled. -/
def ReceiverStepState.ChainInv (cfg : RouterConfig) (s : ReceiverStepState) : Prop :=
  s.receiver_channel_pointers.wr_flush_counter.counter ≤
      s.receiver_channel_pointers.wr_sent_counter.counter ∧
  s.receiver_channel_pointers.completion_counter.counter ≤
      s.receiver_channel_pointers.wr_sent_counter.counter ∧
  (cfg.fuse_receiver_flush_and_completion_ptr = false →
    s.receiver_channel_pointers.completion_counter.counter ≤
      s.receiver_channel_pointers.wr_flush_counter.counter) ∧
  (cfg.ENABLE_FIRST_LEVEL_ACK = true →
    s.receiver_channel_pointers.wr_sent_counter.counter ≤
      s.receiver_channel_pointers.ack_counter.counter)

/-- The packet at the write-sent slot requires a forward to a downstream target that reports
no free slot: in mesh mode some direction of its hop command other than the router's own has
no space behind its interface; in linear mode the packet is not deliver-locally-only and the
downstream interface has no space. -/
def DownstreamBlocked (cfg : RouterConfig) (inp : ReceiverStepInput) : Prop :=
  if cfg.is_2d_fabric then
    inp.hop_cmd < 16 ∧
    ∃ x : eth_chan_directions, x ≠ cfg.my_direction ∧ hop_cmd_has_direction inp.hop_cmd x = true ∧
      inp.downstream_has_space (get_downstream_edm_interface_index cfg.my_direction x) = false
  else
    (if cfg.low_latency_routing_fields then
        (inp.cached_routing_fields_value &&& cfg.FIELD_MASK) ≠ cfg.WRITE_ONLY
      else inp.cached_routing_fields_value ≠ cfg.LAST_MCAST_VAL) ∧
    inp.downstream_has_space cfg.receiver_channel = false

/-- No earlier packet of the receiver channel awaits its flush or its completion credit. -/
def ReceiverStepState.CaughtUp (cfg : RouterConfig) (s : ReceiverStepState) : Prop :=
  s.receiver_channel_pointers.completion_counter.counter =
      s.receiver_channel_pointers.wr_sent_counter.counter ∧
  (cfg.fuse_receiver_flush_and_completion_ptr = false →
    s.receiver_channel_pointers.wr_flush_counter.counter =
      s.receiver_channel_pointers.wr_sent_counter.counter)

/-- Receiver step inputs for a packet that came from sender channel 1 and is to be forwarded
west (mesh) or forwarded only (linear), with every downstream target reporting free space, an
idle transmit queue and every transaction flushed. -/
def ReceiverStepInput.sample_open : ReceiverStepInput :=
  { eth_txq_is_busy_at_ack := false
    eth_txq_is_busy_at_completion := false
    packet_header_src_ch_id := fun _ => 1
    hop_cmd := LowLatencyMeshRoutingFields.FORWARD_WEST
    cached_routing_fields_value := 2
    downstream_has_space := fun _ => true
    local_relay_has_space := true
    trid_flushed := true
    next_trid_flushed := true }

/-- The same inputs with every downstream target reporting no free slot. -/
def ReceiverStepInput.sample_blocked : ReceiverStepInput :=
  { ReceiverStepInput.sample_open with downstream_has_space := fun _ => false }

/-- A receiver channel that was reset and then received two packets-sent credits. -/
def ReceiverStepState.sample_two_arrived : ReceiverStepState :=
  (ReceiverStepState.reset (fun _ => 0)).packets_sent_arrive 2

/-- The sample linear receiver after two arrivals and one step that admitted the first
packet while its forwarding write was not yet flushed. -/
def ReceiverStepState.sample_one_unflushed : ReceiverStepState :=
  run_receiver_channel_step_impl RouterConfig.sample_linear
    { ReceiverStepInput.sample_open with next_trid_flushed := false }
    ReceiverStepState.sample_two_arrived

/-- The hop-command decode the mesh forwarding is specified to implement, for router
direction `d`: the packet is delivered locally exactly when `d` is in the command, and a copy
is forwarded to the interface of every other direction `x` exactly when `x` is in the
command. -/
def hop_cmd_decode_matches (d : eth_chan_directions) (hop_cmd : Nat) : Prop :=
  (ForwardAction.forward_to_local_destination ∈ receiver_forward_packet_2d d hop_cmd ↔
    hop_cmd_has_direction hop_cmd d = true) ∧
  ∀ x : eth_chan_directions, x ≠ d →
    (ForwardAction.forward_payload_to_downstream_edm (get_downstream_edm_interface_index d x) ∈
        receiver_forward_packet_2d d hop_cmd ↔
      hop_cmd_has_direction hop_cmd x = true)

/-- Decidability of the decode check, by evaluation. -/
instance (d : eth_chan_directions) (hop_cmd : Nat) : Decidable (hop_cmd_decode_matches d hop_cmd) := by
  unfold hop_cmd_decode_matches
  infer_instance

/-- A hop command names a single direction (`FORWARD_x`). -/
def hop_cmd_is_single_direction (hop_cmd : Nat) : Bool :=
  decide (hop_cmd = LowLatencyMeshRoutingFields.FORWARD_EAST) ||
  decide (hop_cmd = LowLatencyMeshRoutingFields.FORWARD_WEST) ||
  decide (hop_cmd = LowLatencyMeshRoutingFields.FORWARD_NORTH) ||
  decide (hop_cmd = LowLatencyMeshRoutingFields.FORWARD_SOUTH)

/-- The downstream forwards among the actions of `receiver_forward_packet`. -/
def ForwardAction.is_downstream_forward : ForwardAction → Bool
  | ForwardAction.forward_payload_to_downstream_edm _ => true
  | ForwardAction.forward_to_local_destination => false

/-- The actions of a forwarding call issue the local delivery after every downstream forward:
no forward follows a local delivery in program order. -/
def local_delivery_after_every_forward : List ForwardAction → Bool
  | [] => true
  | ForwardAction.forward_to_local_destination :: rest =>
      !rest.any ForwardAction.is_downstream_forward && local_delivery_after_every_forward rest
  | ForwardAction.forward_payload_to_downstream_edm _ :: rest =>
      local_delivery_after_every_forward rest

/-- The actions of a forwarding call issue the local delivery before every downstream
forward: no local delivery follows a forward in program order. -/
def local_delivery_before_every_forward : List ForwardAction → Bool
  | [] => true
  | ForwardAction.forward_payload_to_downstream_edm _ :: rest =>
      !rest.contains ForwardAction.forward_to_local_destination &&
        local_delivery_before_every_forward rest
  | ForwardAction.forward_to_local_destination :: rest =>
      local_delivery_before_every_forward rest

/-- The hop commands of a multicast whose North-South trunk ends at this router while it
branches East and/or West: exactly one of the North and South bits, and an East or West bit
(`WRITE_AND_FORWARD_NE`, `_NW`, `_NEW`, `_SE`, `_SW`, `_SEW`). -/
def hop_cmd_is_trunk_end (hop_cmd : Nat) : Bool :=
  (hop_cmd_has_direction hop_cmd eth_chan_directions.NORTH !=
      hop_cmd_has_direction hop_cmd eth_chan_directions.SOUTH) &&
    (hop_cmd_has_direction hop_cmd eth_chan_directions.EAST ||
      hop_cmd_has_direction hop_cmd eth_chan_directions.WEST)

/-- A build without first-level ack and with separate flush and completion pointers, in which
source-channel ids are read from the packet headers. -/
def RouterConfig.sample_unfused : RouterConfig :=
  { RouterConfig.sample_linear with fuse_receiver_flush_and_completion_ptr := false }

/-- Receiver inputs for two packets from two sender channels: the packet in slot 0 came from
sender channel 1 and the packet in slot 1 from sender channel 2; every downstream target
reports free space and the transmit queue is idle. -/
def ReceiverStepInput.sample_two_senders (next_trid_flushed : Bool) : ReceiverStepInput :=
  { eth_txq_is_busy_at_ack := false
    eth_txq_is_busy_at_completion := false
    packet_header_src_ch_id := fun slot => slot + 1
    hop_cmd := LowLatencyMeshRoutingFields.FORWARD_WEST
    cached_routing_fields_value := 2
    downstream_has_space := fun _ => true
    local_relay_has_space := true
    trid_flushed := true
    next_trid_flushed := next_trid_flushed }

/-- The receiver of the build `sample_unfused` after both packets of `sample_two_senders`
arrived and one step admitted the packet of slot 0 while its write was not yet flushed. -/
def ReceiverStepState.sample_first_admitted : ReceiverStepState :=
  run_receiver_channel_step_impl RouterConfig.sample_unfused
    (ReceiverStepInput.sample_two_senders false) ReceiverStepState.sample_two_arrived

/-- The completion credits among the logged receiver events, with their addressee. -/
def ReceiverEvent.completion_ack_target : ReceiverEvent → Option Nat
  | ReceiverEvent.receiver_send_completion_ack src_ch_id => some src_ch_id
  | _ => none

/-- The test `can_send_ack` of the first-level ack stage (lines 1659-1664): a packets-sent
credit is pending and, when not spin-waiting, the receiver transmit queue is idle. -/
def receiver_can_send_ack (cfg : RouterConfig) (inp : ReceiverStepInput) (s : ReceiverStepState) :
    Bool :=
  decide (0 < s.to_receiver_pkts_sent) &&
    (cfg.ETH_TXQ_SPIN_WAIT_RECEIVER_SEND_COMPLETION_ACK || !inp.eth_txq_is_busy_at_ack)

/-- The first-level acks among the logged receiver events, with their addressee. -/
def ReceiverEvent.received_ack_target : ReceiverEvent → Option Nat
  | ReceiverEvent.receiver_send_received_ack src_ch_id => some src_ch_id
  | _ => none

/-- The sample mesh build with a single sender channel whose id is not read from headers. -/
def RouterConfig.sample_mesh_single_sender : RouterConfig :=
  { RouterConfig.sample_mesh with skip_src_ch_id_update := true }

/-- Result of polling a sender channel `n` times in a row with the same inputs. -/
def sender_poll (cfg : RouterConfig) (sender_channel_index : Nat) (inp : SenderStepInput) :
    Nat → SenderStepState → SenderStepState
  | 0, s => s
  | n + 1, s =>
      sender_poll cfg sender_channel_index inp n
        (run_sender_channel_step_impl cfg sender_channel_index inp s)

/-- The state `s` with its log of external actions replaced. -/
def SenderStepState.with_log (s : SenderStepState) (log : List SenderEvent) : SenderStepState :=
  { s with log := log }

/-- The credit reads that find nothing new. -/
def SenderEvent.is_empty_read : SenderEvent → Bool
  | SenderEvent.read_completions n => decide (n = 0)
  | SenderEvent.read_acks n => decide (n = 0)
  | _ => false

/-- A channel state with no queued packet and no unprocessed credit. -/
def SenderStepState.sample_idle : SenderStepState :=
  { SenderStepState.sample with sender_channel_free_slots_stream := 4 }

/-- The round trip of one packet on sender channel 0: from the initial state the producer
pushes one packet, the channel runs a step, the receiver acks and completes the packet, and
the channel runs its next step. -/
def SenderSide.round_trip (cfg : RouterConfig) (inp1 inp2 : SenderStepInput) : SenderSide :=
  (((((SenderSide.init cfg).apply cfg (SenderSideEvent.producer_push 0)).apply cfg
    (SenderSideEvent.sender_step 0 inp1)).apply cfg (SenderSideEvent.receiver_ack 0)).apply cfg
    (SenderSideEvent.receiver_completion 0)).apply cfg (SenderSideEvent.sender_step 0 inp2)

/-! ## Main loop and teardown -/

/-- Compile-time configuration of the kernel around the channel steps: the constants of
`RouterConfig`, which receiver channels this core services, the number of sub-iterations of
one batch, the context-switch constants, and the position of this core among the cores of
the router. -/
structure KernelConfig extends RouterConfig where
  is_receiver_channel_serviced : Nat → Bool
  iterations_between_ctx_switch_and_teardown_checks : Nat
  enable_context_switch : Bool
  IDLE_CONTEXT_SWITCHING : Bool
  SWITCH_INTERVAL : Nat
  NUM_ACTIVE_ERISCS : Nat
  MY_ERISC_ID : Nat
  wait_for_host_signal : Bool
  is_local_handshake_master : Bool

/-- Modelled from the spec: the enumeration `TerminationSignal` (`fabric_edm_types.hpp` is not
under src/): the value `KEEP_RUNNING`, which the main loop writes when it starts, and the
values with which the orchestrator requests shutdown, told apart by a code. -/
inductive TerminationSignal where
  | KEEP_RUNNING
  | terminate (code : Nat)
deriving DecidableEq, Repr

/-- Actions of the main loop, in program order: the poll of the termination signal with the
value read and the answer of `got_immediate_termination_signal`, the channel step calls with
the value they return, and the yield to the background routine. -/
inductive MainLoopEvent where
  | set_termination_signal (signal : TerminationSignal)
  | got_immediate_termination_signal (signal : TerminationSignal) (result : Bool)
  | run_sender_channel_step (sender_channel_index : Nat) (result : Bool)
  | run_receiver_channel_step (receiver_channel : Nat) (result : Bool)
  | run_routing_without_noc_sync
deriving DecidableEq, Repr

/-- What the neighbours of the router do between two channel steps: the producer of a sender
channel pushes a packet, the remote receiver publishes an ack or a completion credit to a
sender channel, the remote sender publishes packets-sent credits to the receiver channel. -/
inductive EnvironmentEvent where
  | producer_push (ch : Nat)
  | receiver_ack (ch : Nat)
  | receiver_completion (ch : Nat)
  | packets_sent_arrive (n : Nat)
deriving DecidableEq, Repr

/-- The objects of `run_fabric_edm_main_loop`: the sender side, receiver channel 0, the
file-scope flag `did_something`, the locals `tx_progress`, `rx_progress` and
`did_nothing_count`, and the trace of the loop's actions. -/
structure MainLoopState where
  sender_side : SenderSide
  receiver_channel_0 : ReceiverStepState
  did_something : Bool
  tx_progress : Bool
  rx_progress : Bool
  did_nothing_count : Nat
  trace : List MainLoopEvent

/-- The sender side seen by a step: the file-scope flag `did_something` has its current
value. -/
def SenderSide.with_did_something (r : SenderSide) (did_something : Bool) : SenderSide :=
  { r with did_something := did_something }

/-- The receiver channel seen by a step: the file-scope flag `did_something` has its current
value. -/
def ReceiverStepState.with_did_something (s : ReceiverStepState) (did_something : Bool) :
    ReceiverStepState :=
  { s with did_something := did_something }

/-- The constants of the build as `run_receiver_channel_step_impl<receiver_channel, ...>` is
instantiated. -/
def KernelConfig.for_receiver_channel (cfg : KernelConfig) (receiver_channel : Nat) :
    RouterConfig :=
  { cfg.toRouterConfig with receiver_channel := receiver_channel }

/-- The function `run_receiver_channel_step` (lines 1839-1870): a receiver channel this core
does not service is skipped. -/
def run_receiver_channel_step (cfg : KernelConfig) (receiver_channel : Nat)
    (inp : ReceiverStepInput) (s : ReceiverStepState) : ReceiverStepState :=
  if cfg.is_receiver_channel_serviced receiver_channel then
    run_receiver_channel_step_impl (cfg.for_receiver_channel receiver_channel) inp s
  else s

/-- Effect of an environment event on the objects of the main loop. -/
def MainLoopState.environment (st : MainLoopState) : EnvironmentEvent → MainLoopState
  | EnvironmentEvent.producer_push ch =>
      { st with sender_side :=
        st.sender_side.set_channel ch (st.sender_side.channels ch).producer_push }
  | EnvironmentEvent.receiver_ack ch =>
      { st with sender_side :=
        st.sender_side.set_channel ch (st.sender_side.channels ch).receiver_ack }
  | EnvironmentEvent.receiver_completion ch =>
      { st with sender_side :=
        st.sender_side.set_channel ch (st.sender_side.channels ch).receiver_completion }
  | EnvironmentEvent.packets_sent_arrive n =>
      { st with receiver_channel_0 := st.receiver_channel_0.packets_sent_arrive n }

/-- Effect of a list of environment events, in order. -/
def MainLoopState.environment_events (st : MainLoopState) (events : List EnvironmentEvent) :
    MainLoopState :=
  events.foldl MainLoopState.environment st

/-- One statement `tx_progress |= run_sender_channel_step<VC0_RECEIVER_CHANNEL, i>(...)` of
the main loop (lines 1984-2031, with `run_sender_channel_step`, lines 1603-1632): a serviced
channel runs its step on the shared objects and returns the flag `did_something`, a channel
not serviced returns false. -/
def MainLoopState.run_sender_channel_step (cfg : KernelConfig) (sender_channel_index : Nat)
    (inp : SenderStepInput) (st : MainLoopState) : MainLoopState :=
  if cfg.is_sender_channel_serviced sender_channel_index then
    let r := EdmRouter.run_sender_channel_step cfg.toRouterConfig sender_channel_index inp
      (st.sender_side.with_did_something st.did_something)
    { st with
      sender_side := r
      did_something := r.did_something
      tx_progress := st.tx_progress || r.did_something
      trace := st.trace ++
        [MainLoopEvent.run_sender_channel_step sender_channel_index r.did_something] }
  else
    { st with
      tx_progress := st.tx_progress || false
      trace := st.trace ++ [MainLoopEvent.run_sender_channel_step sender_channel_index false] }

/-- The statement `rx_progress |= run_receiver_channel_step<0, ...>(...)` of the main loop
(lines 1994-2002, with `run_receiver_channel_step`, lines 1839-1870). -/
def MainLoopState.run_receiver_channel_step (cfg : KernelConfig) (receiver_channel : Nat)
    (inp : ReceiverStepInput) (st : MainLoopState) : MainLoopState :=
  if cfg.is_receiver_channel_serviced receiver_channel then
    let s := EdmRouter.run_receiver_channel_step cfg receiver_channel inp
      (st.receiver_channel_0.with_did_something st.did_something)
    { st with
      receiver_channel_0 := s
      did_something := s.did_something
      rx_progress := st.rx_progress || s.did_something
      trace := st.trace ++
        [MainLoopEvent.run_receiver_channel_step receiver_channel s.did_something] }
  else
    { st with
      rx_progress := st.rx_progress || false
      trace := st.trace ++ [MainLoopEvent.run_receiver_channel_step receiver_channel false] }

/-- What the hardware, the neighbours and the compiled code supply during one sub-iteration of
the batch: the inputs of the step of each sender channel and of receiver channel 0, the
environment events that occur just before the `k`-th channel step of the sub-iteration, and
whether this pass evaluates the right operand of `|` in the mesh statement (the step of sender
channel 3) before the left one (the step of sender channel 2), an order C++ leaves
unspecified. -/
structure SubIterationInput where
  sender : Nat → SenderStepInput
  receiver : ReceiverStepInput
  environment : Nat → List EnvironmentEvent
  operands_right_to_left : Bool

/-- The body of the `for` loop of `run_fabric_edm_main_loop` (lines 1978-2032): sender channel
0, receiver channel 0, sender channel 1 and, in mesh mode, sender channels 2 and 3.  The steps
of sender channels 2 and 3 are the two operands of one `|` expression
(`tx_progress = tx_progress | run_sender_channel_step<..., 2U>(...) |
run_sender_channel_step<..., 3U>(...)`): the two calls run one after the other, in the order
the pass evaluates the operands, and both values are or-ed into `tx_progress`.  The macro
`FABRIC_2D` is defined in the builds with `is_2d_fabric`. -/
def main_loop_sub_iteration (cfg : KernelConfig) (inp : SubIterationInput) (st : MainLoopState) :
    MainLoopState :=
  let st1 := (st.environment_events (inp.environment 0)).run_sender_channel_step cfg 0
    (inp.sender 0)
  let st2 := (st1.environment_events (inp.environment 1)).run_receiver_channel_step cfg 0
    inp.receiver
  let st3 := (st2.environment_events (inp.environment 2)).run_sender_channel_step cfg 1
    (inp.sender 1)
  if cfg.is_2d_fabric then
    if inp.operands_right_to_left then
      let st4 := (st3.environment_events (inp.environment 3)).run_sender_channel_step cfg 3
        (inp.sender 3)
      (st4.environment_events (inp.environment 4)).run_sender_channel_step cfg 2 (inp.sender 2)
    else
      let st4 := (st3.environment_events (inp.environment 3)).run_sender_channel_step cfg 2
        (inp.sender 2)
      (st4.environment_events (inp.environment 4)).run_sender_channel_step cfg 3 (inp.sender 3)
  else st3

/-- The first `n` passes of the `for` loop, pass `i` with the inputs `inputs i`. -/
def main_loop_batch (cfg : KernelConfig) (inputs : Nat → SubIterationInput) :
    Nat → MainLoopState → MainLoopState
  | 0, st => st
  | n + 1, st => main_loop_sub_iteration cfg (inputs n) (main_loop_batch cfg inputs n st)

/-- The context-switch bookkeeping after a batch (lines 2049-2067): with idle context
switching a batch that did something resets `did_nothing_count`; otherwise the count is
compared with `SWITCH_INTERVAL` and then incremented, and when it was above the interval it
is reset and the core yields to `run_routing_without_noc_sync`. -/
def main_loop_context_switch (cfg : KernelConfig) (st : MainLoopState) : MainLoopState :=
  if cfg.enable_context_switch then
    if cfg.IDLE_CONTEXT_SWITCHING && st.did_something then { st with did_nothing_count := 0 }
    else if cfg.SWITCH_INTERVAL < st.did_nothing_count then
      { st with
        did_nothing_count := 0
        trace := st.trace ++ [MainLoopEvent.run_routing_without_noc_sync] }
    else { st with did_nothing_count := st.did_nothing_count + 1 }
  else st

/-- The body of the `while` loop of `run_fabric_edm_main_loop` (lines 1966-2083): the flag
`did_something` and the progress words are cleared, the batch of
`iterations_between_ctx_switch_and_teardown_checks` sub-iterations runs, then the
context-switch bookkeeping.  Telemetry and performance recording do not touch the channels
and are left out. -/
def main_loop_outer_iteration (cfg : KernelConfig) (inputs : Nat → SubIterationInput)
    (st : MainLoopState) : MainLoopState :=
  main_loop_context_switch cfg
    (main_loop_batch cfg inputs cfg.iterations_between_ctx_switch_and_teardown_checks
      { st with did_something := false, tx_progress := false, rx_progress := false })

/-- What one outer iteration reads: the termination signal at its head and the inputs of the
sub-iterations of its batch. -/
structure OuterIterationInput where
  termination_signal : TerminationSignal
  sub_iterations : Nat → SubIterationInput

/-- The `while` loop of `run_fabric_edm_main_loop` (line 1965) over the inputs of successive
outer iterations; `got_immediate_termination_signal` is the helper of that name, declared
outside src/ and taken as a parameter.  The result is the state reached and whether the loop
has been left; with the inputs used up the loop is still running. -/
def main_loop_while (cfg : KernelConfig)
    (got_immediate_termination_signal : TerminationSignal → Bool) :
    List OuterIterationInput → MainLoopState → MainLoopState × Bool
  | [], st => (st, false)
  | inp :: rest, st =>
      let polled := { st with trace := st.trace ++
        [MainLoopEvent.got_immediate_termination_signal inp.termination_signal
          (got_immediate_termination_signal inp.termination_signal)] }
      if got_immediate_termination_signal inp.termination_signal then (polled, true)
      else
        main_loop_while cfg got_immediate_termination_signal rest
          (main_loop_outer_iteration cfg inp.sub_iterations polled)

/-- The objects of the main loop as `run_fabric_edm_main_loop` sets them up (lines 1904-1960):
the sender side in its initial state, receiver channel 0 reset with the source-channel ids
`src_chan_ids` recorded, idle counters cleared. -/
def MainLoopState.init (cfg : KernelConfig) (src_chan_ids : Nat → Nat) : MainLoopState :=
  { sender_side := SenderSide.init cfg.toRouterConfig
    receiver_channel_0 := ReceiverStepState.reset src_chan_ids
    did_something := false
    tx_progress := false
    rx_progress := false
    did_nothing_count := 0
    trace := [MainLoopEvent.set_termination_signal TerminationSignal.KEEP_RUNNING] }

/-- The function `run_fabric_edm_main_loop` (lines 1894-2084): it writes `KEEP_RUNNING` to the
termination signal, sets up its objects and runs the `while` loop. -/
def run_fabric_edm_main_loop (cfg : KernelConfig)
    (got_immediate_termination_signal : TerminationSignal → Bool) (src_chan_ids : Nat → Nat)
    (inputs : List OuterIterationInput) : MainLoopState × Bool :=
  main_loop_while cfg got_immediate_termination_signal inputs
    (MainLoopState.init cfg src_chan_ids)

/-- Actions of `teardown` on one core, in program order. -/
inductive TeardownEvent where
  | wait_for_other_local_erisc
  | all_buffer_slot_transactions_acked
  | ncrisc_noc_counters_init
  | notify_subordinate_routers
  | noc_async_write_barrier
  | noc_async_atomic_barrier
  | set_edm_status_terminated
deriving DecidableEq, Repr

/-- The function `IS_TEARDOWN_MASTER` (line 2211). -/
def IS_TEARDOWN_MASTER (cfg : KernelConfig) : Bool := decide (cfg.MY_ERISC_ID = 0)

/-- The function `teardown` (lines 2232-2282): the actions of one core, each blocking call
taken to return. -/
def teardown (cfg : KernelConfig) : List TeardownEvent :=
  (if 1 < cfg.NUM_ACTIVE_ERISCS then [TeardownEvent.wait_for_other_local_erisc] else []) ++
  (if cfg.is_receiver_channel_serviced 0 then [TeardownEvent.all_buffer_slot_transactions_acked]
    else []) ++
  [TeardownEvent.ncrisc_noc_counters_init] ++
  (if 1 < cfg.NUM_ACTIVE_ERISCS then [TeardownEvent.wait_for_other_local_erisc] else []) ++
  (if cfg.wait_for_host_signal then
    (if cfg.is_local_handshake_master then [TeardownEvent.notify_subordinate_routers] else [])
    else []) ++
  [TeardownEvent.noc_async_write_barrier, TeardownEvent.noc_async_atomic_barrier] ++
  (if 1 < cfg.NUM_ACTIVE_ERISCS then [TeardownEvent.wait_for_other_local_erisc] else []) ++
  (if IS_TEARDOWN_MASTER cfg then [TeardownEvent.set_edm_status_terminated] else [])

/-- The actions of a core's teardown, each with the number of rendezvous
(`wait_for_other_local_erisc`) the core has passed before it. -/
def teardown_phases : Nat → List TeardownEvent → List (Nat × TeardownEvent)
  | _, [] => []
  | k, TeardownEvent.wait_for_other_local_erisc :: rest =>
      (k, TeardownEvent.wait_for_other_local_erisc) :: teardown_phases (k + 1) rest
  | k, e :: rest => (k, e) :: teardown_phases k rest

/-- A channel step of the schedule: sender channel `i` or receiver channel `i`. -/
inductive ChannelStep where
  | sender (sender_channel_index : Nat)
  | receiver (receiver_channel : Nat)
deriving DecidableEq, Repr

/-- The channel a step call of the trace is for. -/
def MainLoopEvent.channel_step : MainLoopEvent → Option ChannelStep
  | MainLoopEvent.run_sender_channel_step i _ => some (ChannelStep.sender i)
  | MainLoopEvent.run_receiver_channel_step i _ => some (ChannelStep.receiver i)
  | _ => none

/-- The signal a poll of the trace read. -/
def MainLoopEvent.polled_signal : MainLoopEvent → Option TerminationSignal
  | MainLoopEvent.got_immediate_termination_signal signal _ => some signal
  | _ => none

/-- The order of the channel steps of one sub-iteration, as the schedule is worded: sender 0,
receiver 0, sender 1 and, in mesh mode, senders 2 and 3 in the order in which the operands of
their `|` expression are evaluated. -/
def sub_iteration_schedule (is_2d_fabric : Bool) (operands_right_to_left : Bool) :
    List ChannelStep :=
  [ChannelStep.sender 0, ChannelStep.receiver 0, ChannelStep.sender 1] ++
    (if is_2d_fabric then
      (if operands_right_to_left then [ChannelStep.sender 3, ChannelStep.sender 2]
        else [ChannelStep.sender 2, ChannelStep.sender 3])
    else [])

/-- The channel steps of one batch: the schedules of its
`iterations_between_ctx_switch_and_teardown_checks` sub-iterations, one after the other. -/
def batch_schedule (cfg : KernelConfig) (inputs : Nat → SubIterationInput) : List ChannelStep :=
  ((List.range cfg.iterations_between_ctx_switch_and_teardown_checks).map fun k =>
    sub_iteration_schedule cfg.is_2d_fabric (inputs k).operands_right_to_left).flatten

/-- One call statement of the schedule on the objects of the main loop, with the inputs of
the sub-iteration. -/
def MainLoopState.channel_step (cfg : KernelConfig) (inp : SubIterationInput)
    (st : MainLoopState) : ChannelStep → MainLoopState
  | ChannelStep.sender sender_channel_index =>
      st.run_sender_channel_step cfg sender_channel_index (inp.sender sender_channel_index)
  | ChannelStep.receiver receiver_channel =>
      st.run_receiver_channel_step cfg receiver_channel inp.receiver

/-- A list of channel steps performed in order; `k` counts the channel steps of the
sub-iteration performed so far, and the environment events due before the `k`-th step occur
just before it. -/
def MainLoopState.run_schedule (cfg : KernelConfig) (inp : SubIterationInput) :
    Nat → List ChannelStep → MainLoopState → MainLoopState
  | _, [], st => st
  | k, step :: rest, st =>
      MainLoopState.run_schedule cfg inp (k + 1) rest
        ((st.environment_events (inp.environment k)).channel_step cfg inp step)

/-- The objects of the main loop at the head of a batch (lines 1966-1969): the flag
`did_something` and the progress words are cleared. -/
def MainLoopState.begin_outer_iteration (st : MainLoopState) : MainLoopState :=
  { st with did_something := false, tx_progress := false, rx_progress := false }

/-- A kernel build on the sample mesh constants: one core servicing every channel, batches of
two sub-iterations. -/
def KernelConfig.sample : KernelConfig :=
  { RouterConfig.sample_mesh with
    is_receiver_channel_serviced := fun _ => true
    iterations_between_ctx_switch_and_teardown_checks := 2
    enable_context_switch := true
    IDLE_CONTEXT_SWITCHING := true
    SWITCH_INTERVAL := 4
    NUM_ACTIVE_ERISCS := 1
    MY_ERISC_ID := 0
    wait_for_host_signal := false
    is_local_handshake_master := false }

/-- Sub-iteration inputs with idle queues and nothing arriving. -/
def SubIterationInput.quiet : SubIterationInput :=
  { sender := fun _ => SenderStepInput.quiet
    receiver := ReceiverStepInput.sample_open
    environment := fun _ => []
    operands_right_to_left := false }

/-- The quiet sub-iteration inputs on a pass that evaluates the operands of the mesh
statement right to left. -/
def SubIterationInput.quiet_right_to_left : SubIterationInput :=
  { SubIterationInput.quiet with operands_right_to_left := true }

/-- Modelled from the spec: an instance of the helper `got_immediate_termination_signal`
(declared outside src/): the signal is no longer `KEEP_RUNNING`. -/
def got_immediate_termination_signal (signal : TerminationSignal) : Bool :=
  decide (signal ≠ TerminationSignal.KEEP_RUNNING)

/-- The outer iterations the `while` loop performs on the given inputs: those before the
first input at whose head the helper reports the termination signal. -/
def outer_iterations_run (got_immediate_termination_signal : TerminationSignal → Bool)
    (inputs : List OuterIterationInput) : List OuterIterationInput :=
  inputs.takeWhile (fun inp => !got_immediate_termination_signal inp.termination_signal)

/-- The poll at which the `while` loop is left, when the inputs hold one. -/
def final_poll (got_immediate_termination_signal : TerminationSignal → Bool)
    (inputs : List OuterIterationInput) : List MainLoopEvent :=
  match inputs.dropWhile
      (fun inp => !got_immediate_termination_signal inp.termination_signal) with
  | [] => []
  | inp :: _ => [MainLoopEvent.got_immediate_termination_signal inp.termination_signal true]

/-- The events of one performed outer iteration: its poll, answered false, and then the
events `batch` of its body. -/
def outer_iteration_events (inp : OuterIterationInput) (batch : List MainLoopEvent) :
    List MainLoopEvent :=
  MainLoopEvent.got_immediate_termination_signal inp.termination_signal false :: batch

/-- Outer-iteration inputs with the given signal at the head and quiet sub-iterations. -/
def OuterIterationInput.quiet (signal : TerminationSignal) : OuterIterationInput :=
  { termination_signal := signal, sub_iterations := fun _ => SubIterationInput.quiet }

/-! ## Stream ids, direction tests and word counts -/

/-- The table `sender_channel_free_slots_stream_ids` (lines 356-373); its static assertions
fix the entries of the channels 0 to 7 to the stream ids 21 to 28. -/
def sender_channel_free_slots_stream_ids (sender_channel : Nat) : Nat := 21 + sender_channel

/-- The function `get_vc0_downstream_sender_channel_free_slots_stream_id` (lines 411-422). -/
def get_vc0_downstream_sender_channel_free_slots_stream_id (my_direction : eth_chan_directions)
    (compact_index : Nat) : Nat :=
  let ds_edm_direction := edm_index_to_edm_direction my_direction compact_index
  if ds_edm_direction.toNat < my_direction.toNat then
    sender_channel_free_slots_stream_ids my_direction.toNat
  else sender_channel_free_slots_stream_ids (1 + my_direction.toNat)

/-- The test `is_spine_direction` as its specification words it: the direction is NORTH or
SOUTH. -/
def is_spine_direction_spec (direction : eth_chan_directions) : Bool :=
  decide (direction = eth_chan_directions.NORTH ∨ direction = eth_chan_directions.SOUTH)

/-- The macro `ETH_WORD_SIZE_BYTES` of `tt_eth_api.h`. -/
def ETH_WORD_SIZE_BYTES : Nat := 16

/-- The macro `BYTES_TO_ETH_WORD_SHIFT` of `tt_eth_api.h`. -/
def BYTES_TO_ETH_WORD_SHIFT : Nat := 4

/-- The function `bytes_to_eth_words_truncated` of `tt_eth_api.h` on a 32-bit `num_bytes`. -/
def bytes_to_eth_words_truncated (num_bytes : Nat) : Nat :=
  (num_bytes % U32) >>> BYTES_TO_ETH_WORD_SHIFT

/-- The function `bytes_to_eth_words` of `tt_eth_api.h` on a 32-bit `num_bytes`; the sum is
a `uint32_t`. -/
def bytes_to_eth_words (num_bytes : Nat) : Nat :=
  ((num_bytes % U32 + (ETH_WORD_SIZE_BYTES - 1)) % U32) >>> BYTES_TO_ETH_WORD_SHIFT

/-- The router direction and the hop command lie on the axis the mesh forwarding is
specialised on: a single-direction `FORWARD_x` on any router, `WRITE_AND_FORWARD_EW` on an
EAST or WEST router, any other `WRITE_AND_FORWARD` command on a NORTH or SOUTH router. -/
def hop_cmd_on_axis (d : eth_chan_directions) (hop_cmd : Nat) : Bool :=
  hop_cmd_is_single_direction hop_cmd ||
    (decide (hop_cmd = LowLatencyMeshRoutingFields.WRITE_AND_FORWARD_EW) &&
      !is_spine_direction d) ||
    (!hop_cmd_is_single_direction hop_cmd &&
      decide (hop_cmd ≠ LowLatencyMeshRoutingFields.WRITE_AND_FORWARD_EW) &&
      is_spine_direction d)

/-- The downstream interfaces a call of the mesh `receiver_forward_packet` forwards to, in
program order. -/
def forwarded_interfaces (d : eth_chan_directions) (hop_cmd : Nat) : List Nat :=
  (receiver_forward_packet_2d d hop_cmd).filterMap fun a =>
    match a with
    | ForwardAction.forward_payload_to_downstream_edm edm_index => some edm_index
    | ForwardAction.forward_to_local_destination => none

/-- Free-space answers under which exactly the interfaces of the directions of the command
other than the router's own report space. -/
def space_on_commanded_interfaces (d : eth_chan_directions) (hop_cmd : Nat) (edm_index : Nat) :
    Bool :=
  decide (∃ x : eth_chan_directions, x ≠ d ∧ hop_cmd_has_direction hop_cmd x = true ∧
    get_downstream_edm_interface_index d x = edm_index)

/-! ## Kernel start-up: semaphores and downstream connections -/

/-- The loop `while (has_downstream_edm)` of `kernel_main` (lines 2837-2921 and 3099-3110):
the compact indices visited with bit 0 of `has_downstream_edm` set.  `fuel` bounds the number
of passes; a 32-bit word is zero after at most 32 shifts. -/
def downstream_edm_bits : Nat → Nat → Nat → List Nat
  | 0, _, _ => []
  | fuel + 1, has_downstream_edm, compact_index =>
      if has_downstream_edm = 0 then []
      else
        (if has_downstream_edm &&& 1 = 1 then [compact_index] else []) ++
          downstream_edm_bits fuel (has_downstream_edm >>> 1) (compact_index + 1)

/-- The downstream interfaces `kernel_main` constructs (lines 2833-2921), by compact index,
for the runtime argument `has_downstream_edm_vc0_buffer_connection`. -/
def constructed_downstream_interfaces (has_downstream_edm_vc0_buffer_connection : Nat) :
    List Nat :=
  if has_downstream_edm_vc0_buffer_connection % U32 ≠ 0 then
    downstream_edm_bits 32 ((has_downstream_edm_vc0_buffer_connection % U32) &&& 7) 0
  else []

/-- The downstream interfaces on which `kernel_main` calls `open` before the main loop
(lines 3096-3131), by compact index. -/
def opened_downstream_interfaces (cfg : KernelConfig)
    (has_downstream_edm_vc0_buffer_connection : Nat) : List Nat :=
  if cfg.is_2d_fabric then
    if cfg.is_receiver_channel_serviced 0 then
      downstream_edm_bits 32 ((has_downstream_edm_vc0_buffer_connection % U32) &&& 7) 0
    else []
  else
    if cfg.is_receiver_channel_serviced 0 then
      if has_downstream_edm_vc0_buffer_connection % U32 ≠ 0 then [0] else []
    else []

/-- The zero-initialisation of the sender worker semaphores in `kernel_main` (lines
2593-2660): for every sender channel it initialises, the channel and the address it writes
with 0.  `arg_idx` is the argument index at that point, the index of the first of the eight
sender-worker-semaphore arguments; `get_arg_val` gives the runtime arguments and `l1_read`
the word stored at an address. -/
def sender_worker_semaphore_init (cfg : KernelConfig) (get_arg_val : Nat → Nat)
    (l1_read : Nat → Nat) (arg_idx : Nat) : List (Nat × Nat) :=
  (if cfg.is_sender_channel_serviced 0 then [(0, get_arg_val (arg_idx + 1))] else []) ++
  (if cfg.is_sender_channel_serviced 1 then [(1, l1_read (get_arg_val (arg_idx + 2)))]
    else []) ++
  (if cfg.is_sender_channel_serviced 2 then [(2, l1_read (get_arg_val (arg_idx + 3)))]
    else []) ++
  (if cfg.is_2d_fabric then
    (if cfg.is_sender_channel_serviced 3 then [(3, l1_read (get_arg_val (arg_idx + 4)))]
      else []) ++
    (if cfg.is_sender_channel_serviced 4 then [(4, l1_read (get_arg_val (arg_idx + 5)))]
      else []) ++
    (if cfg.is_sender_channel_serviced 5 then [(5, l1_read (get_arg_val (arg_idx + 6)))]
      else []) ++
    (if cfg.is_sender_channel_serviced 6 then [(6, l1_read (get_arg_val (arg_idx + 7)))]
      else []) ++
    (if cfg.is_sender_channel_serviced 7 then [(7, l1_read (get_arg_val (arg_idx + 8)))]
      else [])
  else [])

/-- The argument index after the eight sender-worker-semaphore arguments (`arg_idx += 8U`,
line 2666). -/
def arg_idx_after_sender_worker_semaphores (arg_idx : Nat) : Nat := arg_idx + 8

/-- The sample kernel build in linear mode. -/
def KernelConfig.sample_linear : KernelConfig :=
  { KernelConfig.sample with is_2d_fabric := false }

/-- The set bits among the low three bits of a word, in ascending order. -/
def low_three_set_bits (w : Nat) : List Nat :=
  [0, 1, 2].filter fun i => w.testBit i

/-- Sub-iteration inputs with idle sender queues, during which the remote sender publishes one
packets-sent credit just before the step of receiver channel 0. -/
def SubIterationInput.sample_arrival : SubIterationInput :=
  { SubIterationInput.quiet with
    environment := fun k => if k = 1 then [EnvironmentEvent.packets_sent_arrive 1] else [] }

/-- Inputs of a batch whose first sub-iteration sees one packet arrive at the receiver and
whose other sub-iterations are quiet. -/
def SubIterationInput.sample_batch (n : Nat) : SubIterationInput :=
  if n = 0 then SubIterationInput.sample_arrival else SubIterationInput.quiet

/-! # Theorems -/

/-! ## Sender step: stage lemmas -/

section SenderLemmas

variable (cfg : RouterConfig) (i : Nat) (inp : SenderStepInput) (s : SenderStepState)

/-- Fields a call of `send_credits_to_upstream_workers` leaves alone, and what it logs. -/
theorem send_credits_frame (skip : Bool) (n : Nat) :
    (send_credits_to_upstream_workers skip n s).sender_channel_from_receiver_credits =
        s.sender_channel_from_receiver_credits ∧
    (send_credits_to_upstream_workers skip n s).outbound_to_receiver_channel_pointers_num_free_slots =
        s.outbound_to_receiver_channel_pointers_num_free_slots ∧
    (send_credits_to_upstream_workers skip n s).pkts_sent_published = s.pkts_sent_published ∧
    (send_credits_to_upstream_workers skip n s).local_sender_channel = s.local_sender_channel ∧
    (send_credits_to_upstream_workers skip n s).remote_receiver_channel =
        s.remote_receiver_channel ∧
    (send_credits_to_upstream_workers skip n s).sender_channel_free_slots_stream =
        s.sender_channel_free_slots_stream ∧
    (send_credits_to_upstream_workers skip n s).did_something = s.did_something ∧
    (send_credits_to_upstream_workers skip n
        s).local_sender_channel_worker_interface.local_write_counter =
        s.local_sender_channel_worker_interface.local_write_counter ∧
    ∃ e, (send_credits_to_upstream_workers skip n s).log =
        s.log ++ [SenderEvent.send_credits_to_upstream_workers n, e] ∧
      e.is_send_event = false ∧ e.upstream_credits = none ∧ e.is_drain_event = false := by
  unfold send_credits_to_upstream_workers
  simp only []
  split_ifs <;> simp [SenderEvent.is_send_event, SenderEvent.upstream_credits,
    SenderEvent.is_drain_event]

/-- Effect of the send stage on every field. -/
theorem sender_step_send_eq :
    sender_step_send cfg i inp s =
      if sender_can_send cfg i inp s then
        { s with
          local_sender_channel := (s.local_sender_channel + 1) % cfg.SENDER_NUM_BUFFERS_ARRAY i
          local_sender_channel_worker_interface :=
            { s.local_sender_channel_worker_interface with
              local_write_counter := s.local_sender_channel_worker_interface.local_write_counter + 1 }
          outbound_to_receiver_channel_pointers_num_free_slots :=
            (s.outbound_to_receiver_channel_pointers_num_free_slots + (U32 - 1)) % U32
          remote_receiver_channel := (s.remote_receiver_channel + 1) % cfg.REMOTE_RECEIVER_NUM_BUFFERS
          sender_channel_free_slots_stream := s.sender_channel_free_slots_stream + 1
          did_something := true
          pkts_sent_published := s.pkts_sent_published + 1
          log := s.log ++ sender_send_events cfg i s }
      else s := by
  unfold sender_step_send
  cases h : sender_can_send cfg i inp s
  · simp
  · cases h1 : cfg.UPDATE_PKT_HDR_ON_RX_CH <;> cases h2 : cfg.skip_src_ch_id_update <;>
      cases h3 : cfg.ETH_TXQ_SPIN_WAIT_SEND_NEXT_DATA <;>
      simp [send_next_data, sender_send_events, h1, h2, h3]

end SenderLemmas

section SenderStages

variable (cfg : RouterConfig) (i : Nat) (inp : SenderStepInput) (s : SenderStepState)

theorem log_extends_trans {u v t : SenderStepState} {c1 c2 : List Nat}
    {d1 d2 : List SenderEvent} (h1 : u.LogExtends v c1 d1) (h2 : v.LogExtends t c2 d2) :
    u.LogExtends t (c1 ++ c2) (d1 ++ d2) := by
  obtain ⟨r1, e1, a1, b1, g1⟩ := h1
  obtain ⟨r2, e2, a2, b2, g2⟩ := h2
  refine ⟨r1 ++ r2, ?_, ?_, ?_, ?_⟩
  · rw [e2, e1, List.append_assoc]
  · rw [List.filter_append, a1, a2]; rfl
  · rw [List.filterMap_append, b1, b2]
  · rw [List.filter_append, g1, g2]

theorem send_fields_eq_trans {u v t : SenderStepState}
    (h1 : u.SendFieldsEq v) (h2 : v.SendFieldsEq t) : u.SendFieldsEq t := by
  unfold SenderStepState.SendFieldsEq at *
  refine ⟨?_, ?_, ?_, ?_, ?_, ?_⟩
  · rw [h2.1, h1.1]
  · rw [h2.2.1, h1.2.1]
  · rw [h2.2.2.1, h1.2.2.1]
  · rw [h2.2.2.2.1, h1.2.2.2.1]
  · rw [h2.2.2.2.2.1, h1.2.2.2.2.1]
  · rw [h2.2.2.2.2.2, h1.2.2.2.2.2]

theorem send_credits_stage (skip : Bool) (n : Nat) :
    s.SendFieldsEq (send_credits_to_upstream_workers skip n s) ∧
    s.LogExtends (send_credits_to_upstream_workers skip n s) [n] [] := by
  obtain ⟨-, -, h3, h4, h5, h6, h7, h8, e, he, p1, p2, p3⟩ := send_credits_frame s skip n
  refine ⟨⟨h4, h5, h6, h3, h7, h8⟩, _, he, ?_, ?_, ?_⟩
  · have h0 : (SenderEvent.send_credits_to_upstream_workers n).is_send_event = false := rfl
    simp only [List.filter, h0, p1]
  · have h0 : (SenderEvent.send_credits_to_upstream_workers n).upstream_credits = some n := rfl
    simp only [List.filterMap, h0, p2]
  · have h0 : (SenderEvent.send_credits_to_upstream_workers n).is_drain_event = false := rfl
    simp only [List.filter, h0, p3]

/-- Effect of the completion stage. -/
theorem sender_step_completions_stage :
    (sender_step_completions cfg i s).sender_channel_from_receiver_credits =
        { s.sender_channel_from_receiver_credits with
          num_processed_completions :=
            s.sender_channel_from_receiver_credits.num_processed_completions +
              s.new_completions } ∧
    (sender_step_completions cfg i s).outbound_to_receiver_channel_pointers_num_free_slots =
        (if s.new_completions ≠ 0 then
          (s.outbound_to_receiver_channel_pointers_num_free_slots + s.new_completions) % U32
        else s.outbound_to_receiver_channel_pointers_num_free_slots) ∧
    s.SendFieldsEq (sender_step_completions cfg i s) ∧
    s.LogExtends (sender_step_completions cfg i s)
      (if cfg.ENABLE_FIRST_LEVEL_ACK then []
        else if s.new_completions ≠ 0 then [s.new_completions] else [])
      (SenderEvent.read_completions s.new_completions ::
        (if s.new_completions ≠ 0 then [SenderEvent.processed_completions s.new_completions]
          else [])) := by
  unfold sender_step_completions SenderStepState.new_completions
  simp only [SenderChannelFromReceiverCredits.get_num_unprocessed_completions_from_receiver,
    SenderChannelFromReceiverCredits.increment_num_processed_completions]
  generalize s.sender_channel_from_receiver_credits.to_sender_packets_completed -
    s.sender_channel_from_receiver_credits.num_processed_completions = c
  by_cases hz : c = 0
  · subst hz
    simp only [ne_eq, not_true_eq_false, if_false, Nat.add_zero]
    refine ⟨?_, ?_, ?_, [SenderEvent.read_completions 0], ?_, ?_, ?_, ?_⟩
    · trivial
    · trivial
    · exact ⟨rfl, rfl, rfl, rfl, rfl, rfl⟩
    · rfl
    · rfl
    · cases cfg.ENABLE_FIRST_LEVEL_ACK <;> rfl
    · rfl
  · simp only [ne_eq, hz, not_false_eq_true, if_true]
    cases hf : cfg.ENABLE_FIRST_LEVEL_ACK
    · simp only [Bool.not_false, if_true, Bool.false_eq_true, if_false]
      generalize hu : ({ s with
            outbound_to_receiver_channel_pointers_num_free_slots :=
              (s.outbound_to_receiver_channel_pointers_num_free_slots + c) % U32
            sender_channel_from_receiver_credits :=
              { s.sender_channel_from_receiver_credits with
                num_processed_completions :=
                  s.sender_channel_from_receiver_credits.num_processed_completions + c }
            log := s.log ++ [SenderEvent.read_completions c] ++
              [SenderEvent.processed_completions c] } : SenderStepState) = u
      obtain ⟨⟨f1, f2, f3, f4, f5, f6⟩, r, hr, q1, q2, q3⟩ :=
        send_credits_stage u (cfg.sender_ch_live_check_skip i) c
      obtain ⟨g1, g2, -⟩ := send_credits_frame u (cfg.sender_ch_live_check_skip i) c
      subst hu
      refine ⟨g1, g2, ⟨f1, f2, f3, f4, f5, f6⟩,
        [SenderEvent.read_completions c, SenderEvent.processed_completions c] ++ r,
        ?_, ?_, ?_, ?_⟩
      · rw [hr]; simp
      · rw [List.filter_append, q1]; rfl
      · rw [List.filterMap_append, q2]; rfl
      · rw [List.filter_append, q3]; rfl
    · simp only [Bool.not_true, Bool.false_eq_true, if_false, if_true]
      refine ⟨?_, ?_, ?_,
        [SenderEvent.read_completions c, SenderEvent.processed_completions c], ?_, ?_, ?_, ?_⟩
      · trivial
      · trivial
      · exact ⟨rfl, rfl, rfl, rfl, rfl, rfl⟩
      · simp
      · rfl
      · rfl
      · rfl

/-- Effect of the ack stage; `a` is the number of unprocessed acks it reads. -/
theorem sender_step_acks_stage :
    (sender_step_acks cfg i s).sender_channel_from_receiver_credits =
        { s.sender_channel_from_receiver_credits with
          num_processed_acks :=
            if cfg.ENABLE_FIRST_LEVEL_ACK then
              s.sender_channel_from_receiver_credits.num_processed_acks +
                (s.sender_channel_from_receiver_credits.to_sender_packets_acked -
                  s.sender_channel_from_receiver_credits.num_processed_acks)
            else s.sender_channel_from_receiver_credits.num_processed_acks } ∧
    (sender_step_acks cfg i s).outbound_to_receiver_channel_pointers_num_free_slots =
        s.outbound_to_receiver_channel_pointers_num_free_slots ∧
    s.SendFieldsEq (sender_step_acks cfg i s) ∧
    s.LogExtends (sender_step_acks cfg i s)
      (if cfg.ENABLE_FIRST_LEVEL_ACK then
        (if s.sender_channel_from_receiver_credits.to_sender_packets_acked -
            s.sender_channel_from_receiver_credits.num_processed_acks ≠ 0 then
          [s.sender_channel_from_receiver_credits.to_sender_packets_acked -
            s.sender_channel_from_receiver_credits.num_processed_acks] else [])
        else [])
      (if cfg.ENABLE_FIRST_LEVEL_ACK then
        SenderEvent.read_acks (s.sender_channel_from_receiver_credits.to_sender_packets_acked -
            s.sender_channel_from_receiver_credits.num_processed_acks) ::
          (if s.sender_channel_from_receiver_credits.to_sender_packets_acked -
              s.sender_channel_from_receiver_credits.num_processed_acks ≠ 0 then
            [SenderEvent.processed_acks
              (s.sender_channel_from_receiver_credits.to_sender_packets_acked -
                s.sender_channel_from_receiver_credits.num_processed_acks)] else [])
        else []) := by
  unfold sender_step_acks
  simp only [SenderChannelFromReceiverCredits.get_num_unprocessed_acks_from_receiver,
    SenderChannelFromReceiverCredits.increment_num_processed_acks]
  generalize s.sender_channel_from_receiver_credits.to_sender_packets_acked -
    s.sender_channel_from_receiver_credits.num_processed_acks = a
  cases hf : cfg.ENABLE_FIRST_LEVEL_ACK
  · simp only [Bool.false_eq_true, if_false]
    exact ⟨trivial, trivial, ⟨rfl, rfl, rfl, rfl, rfl, rfl⟩, [], by simp, rfl, rfl, rfl⟩
  · simp only [if_true]
    by_cases hz : a = 0
    · subst hz
      simp only [ne_eq, not_true_eq_false, if_false, Nat.add_zero]
      refine ⟨?_, ?_, ?_, [SenderEvent.read_acks 0], ?_, ?_, ?_, ?_⟩
      · trivial
      · trivial
      · exact ⟨rfl, rfl, rfl, rfl, rfl, rfl⟩
      · rfl
      · rfl
      · rfl
      · rfl
    · simp only [ne_eq, hz, not_false_eq_true, if_true]
      generalize hu : ({ s with
            sender_channel_from_receiver_credits :=
              { s.sender_channel_from_receiver_credits with
                num_processed_acks :=
                  s.sender_channel_from_receiver_credits.num_processed_acks + a }
            log := s.log ++ [SenderEvent.read_acks a] ++ [SenderEvent.processed_acks a] } :
            SenderStepState) = u
      obtain ⟨⟨f1, f2, f3, f4, f5, f6⟩, r, hr, q1, q2, q3⟩ :=
        send_credits_stage u (cfg.sender_ch_live_check_skip i) a
      obtain ⟨g1, g2, -⟩ := send_credits_frame u (cfg.sender_ch_live_check_skip i) a
      subst hu
      refine ⟨g1, g2, ⟨f1, f2, f3, f4, f5, f6⟩,
        [SenderEvent.read_acks a, SenderEvent.processed_acks a] ++ r, ?_, ?_, ?_, ?_⟩
      · rw [hr]; simp
      · rw [List.filter_append, q1]; rfl
      · rw [List.filterMap_append, q2]; rfl
      · rw [List.filter_append, q3]; rfl

/-- Effect of the connection stage. -/
theorem sender_step_connection_stage :
    (sender_step_connection cfg i inp s).sender_channel_from_receiver_credits =
        s.sender_channel_from_receiver_credits ∧
    (sender_step_connection cfg i inp s).outbound_to_receiver_channel_pointers_num_free_slots =
        s.outbound_to_receiver_channel_pointers_num_free_slots ∧
    s.SendFieldsEq (sender_step_connection cfg i inp s) ∧
    s.LogExtends (sender_step_connection cfg i inp s) [] [] := by
  have hnone : s.LogExtends s [] [] := ⟨[], by simp, rfl, rfl, rfl⟩
  have hcw : (check_worker_connections inp s).sender_channel_from_receiver_credits =
        s.sender_channel_from_receiver_credits ∧
      (check_worker_connections inp s).outbound_to_receiver_channel_pointers_num_free_slots =
        s.outbound_to_receiver_channel_pointers_num_free_slots ∧
      s.SendFieldsEq (check_worker_connections inp s) ∧
      s.LogExtends (check_worker_connections inp s) [] [] := by
    unfold check_worker_connections
    split_ifs
    · exact ⟨rfl, rfl, ⟨rfl, rfl, rfl, rfl, rfl, rfl⟩, [_], rfl, rfl, rfl, rfl⟩
    · exact ⟨rfl, rfl, ⟨rfl, rfl, rfl, rfl, rfl, rfl⟩, hnone⟩
    · exact ⟨rfl, rfl, ⟨rfl, rfl, rfl, rfl, rfl, rfl⟩, [_], rfl, rfl, rfl, rfl⟩
    · exact ⟨rfl, rfl, ⟨rfl, rfl, rfl, rfl, rfl, rfl⟩, hnone⟩
  unfold sender_step_connection
  simp only []
  split_ifs
  · exact hcw
  · exact ⟨rfl, rfl, ⟨rfl, rfl, rfl, rfl, rfl, rfl⟩, hnone⟩
  · exact ⟨rfl, rfl, ⟨rfl, rfl, rfl, rfl, rfl, rfl⟩, hnone⟩

/-- Effect of everything a sender step does after its send stage, on a state `u`. -/
theorem sender_step_after_send (u : SenderStepState) :
    let t := sender_step_connection cfg i inp (sender_step_acks cfg i
      (sender_step_credits_landing inp (sender_step_completions cfg i u)))
    t.sender_channel_from_receiver_credits =
        { to_sender_packets_completed :=
            u.sender_channel_from_receiver_credits.to_sender_packets_completed +
              inp.completions_landing_mid_step
          to_sender_packets_acked :=
            u.sender_channel_from_receiver_credits.to_sender_packets_acked +
              inp.acks_landing_mid_step
          num_processed_completions :=
            u.sender_channel_from_receiver_credits.num_processed_completions + u.new_completions
          num_processed_acks :=
            if cfg.ENABLE_FIRST_LEVEL_ACK then
              u.sender_channel_from_receiver_credits.num_processed_acks + u.new_acks inp
            else u.sender_channel_from_receiver_credits.num_processed_acks } ∧
    t.outbound_to_receiver_channel_pointers_num_free_slots =
        (if u.new_completions ≠ 0 then
          (u.outbound_to_receiver_channel_pointers_num_free_slots + u.new_completions) % U32
        else u.outbound_to_receiver_channel_pointers_num_free_slots) ∧
    u.SendFieldsEq t ∧
    u.LogExtends t
      (if cfg.ENABLE_FIRST_LEVEL_ACK then (if u.new_acks inp ≠ 0 then [u.new_acks inp] else [])
        else (if u.new_completions ≠ 0 then [u.new_completions] else []))
      (SenderEvent.read_completions u.new_completions ::
        (if u.new_completions ≠ 0 then [SenderEvent.processed_completions u.new_completions]
          else []) ++
        (if cfg.ENABLE_FIRST_LEVEL_ACK then
          SenderEvent.read_acks (u.new_acks inp) ::
            (if u.new_acks inp ≠ 0 then [SenderEvent.processed_acks (u.new_acks inp)] else [])
        else [])) := by
  intro t
  obtain ⟨c1, c2, c3, c4⟩ := sender_step_completions_stage cfg i u
  obtain ⟨a1, a2, a3, a4⟩ := sender_step_acks_stage cfg i
    (sender_step_credits_landing inp (sender_step_completions cfg i u))
  obtain ⟨k1, k2, k3, k4⟩ := sender_step_connection_stage cfg i inp (sender_step_acks cfg i
    (sender_step_credits_landing inp (sender_step_completions cfg i u)))
  have hl : (sender_step_completions cfg i u).SendFieldsEq
      (sender_step_credits_landing inp (sender_step_completions cfg i u)) :=
    ⟨rfl, rfl, rfl, rfl, rfl, rfl⟩
  have hll : (sender_step_completions cfg i u).LogExtends
      (sender_step_credits_landing inp (sender_step_completions cfg i u)) [] [] :=
    ⟨[], by simp [sender_step_credits_landing], rfl, rfl, rfl⟩
  have hacks : (sender_step_credits_landing inp
      (sender_step_completions cfg i u)).sender_channel_from_receiver_credits.to_sender_packets_acked -
      (sender_step_credits_landing inp
      (sender_step_completions cfg i u)).sender_channel_from_receiver_credits.num_processed_acks =
      u.new_acks inp := by
    simp [sender_step_credits_landing, c1, SenderStepState.new_acks]
  rw [hacks] at a1 a4
  refine ⟨?_, ?_, ?_, ?_⟩
  · simp only [t]
    rw [k1, a1]
    simp [sender_step_credits_landing, c1]
  · simp only [t]
    rw [k2, a2]
    simp only [sender_step_credits_landing]
    exact c2
  · exact send_fields_eq_trans (send_fields_eq_trans c3 hl) (send_fields_eq_trans a3 k3)
  · have h := log_extends_trans (log_extends_trans (log_extends_trans c4 hll) a4) k4
    cases hf : cfg.ENABLE_FIRST_LEVEL_ACK <;> simpa [hf] using h

end SenderStages

/-! ## Sender side: occupancy -/

section SenderSummary

variable (cfg : RouterConfig) (i : Nat) (inp : SenderStepInput) (s : SenderStepState)

/-- Credits, free-slot count and published packets after a whole sender step. -/
theorem step_summary :
    let t := run_sender_channel_step_impl cfg i inp s
    let c := s.sender_channel_from_receiver_credits
    let f1 := if sender_can_send cfg i inp s then
        (s.outbound_to_receiver_channel_pointers_num_free_slots + (U32 - 1)) % U32
      else s.outbound_to_receiver_channel_pointers_num_free_slots
    t.pkts_sent_published = s.pkts_sent_published + (if sender_can_send cfg i inp s then 1 else 0) ∧
    t.sender_channel_from_receiver_credits =
      { to_sender_packets_completed :=
          c.to_sender_packets_completed + inp.completions_landing_mid_step
        to_sender_packets_acked := c.to_sender_packets_acked + inp.acks_landing_mid_step
        num_processed_completions := c.num_processed_completions + s.new_completions
        num_processed_acks :=
          if cfg.ENABLE_FIRST_LEVEL_ACK then c.num_processed_acks + s.new_acks inp
          else c.num_processed_acks } ∧
    t.outbound_to_receiver_channel_pointers_num_free_slots =
      (if s.new_completions ≠ 0 then (f1 + s.new_completions) % U32 else f1) := by
  intro t c f1
  obtain ⟨h1, h2, ⟨-, -, -, h3, -, -⟩, -⟩ :=
    sender_step_after_send cfg i inp (sender_step_send cfg i inp s)
  have hs := sender_step_send_eq cfg i inp s
  have hc : (sender_step_send cfg i inp s).sender_channel_from_receiver_credits = c := by
    rw [hs]; split_ifs <;> rfl
  have hnc : (sender_step_send cfg i inp s).new_completions = s.new_completions := by
    simp only [SenderStepState.new_completions, hc]
  have hna : (sender_step_send cfg i inp s).new_acks inp = s.new_acks inp := by
    simp only [SenderStepState.new_acks, hc]
  have hf : (sender_step_send cfg i inp s).outbound_to_receiver_channel_pointers_num_free_slots
      = f1 := by
    rw [hs]; simp only [f1]; split_ifs <;> rfl
  have hp : (sender_step_send cfg i inp s).pkts_sent_published =
      s.pkts_sent_published + (if sender_can_send cfg i inp s then 1 else 0) := by
    rw [hs]; split_ifs <;> rfl
  rw [hc, hnc, hna] at h1
  rw [hnc, hf] at h2
  rw [hp] at h3
  exact ⟨h3, h1, h2⟩

end SenderSummary

section SenderSideLemmas

open Finset

theorem sum_update_channel (f : Nat → SenderChannelLocal) (g : SenderChannelLocal → Nat)
    (n ch : Nat) (c : SenderChannelLocal) (h : ch < n) :
    ∑ i in range n, g (Function.update f ch c i) + g (f ch) = ∑ i in range n, g (f i) + g c := by
  have hfun : (fun i => g (Function.update f ch c i)) = Function.update (fun i => g (f i)) ch (g c) := by
    funext i
    by_cases hi : i = ch
    · subst hi; simp
    · simp [Function.update, hi]
  have hmem : ch ∈ range n := mem_range.2 h
  rw [hfun, sum_update_of_mem hmem, sdiff_singleton_eq_erase]
  have := add_sum_erase (range n) (fun i => g (f i)) hmem
  simp only at this
  omega

theorem SenderSide.Reachable.good {cfg : RouterConfig} {Good : SenderSide → Prop} {r : SenderSide}
    (h : SenderSide.Reachable cfg Good r) : Good r := by
  cases h with
  | init h0 => exact h0
  | next r e _ _ hg => exact hg

theorem occupancy_inv_set_channel (cfg : RouterConfig) (r : SenderSide) (ch : Nat)
    (c : SenderChannelLocal) (hch : ch < cfg.NUM_SENDER_CHANNELS)
    (hinv : SenderSide.OccupancyInv cfg r)
    (hp : c.sender_channel_from_receiver_credits.num_processed_completions =
      (r.channels ch).sender_channel_from_receiver_credits.num_processed_completions)
    (hle : c.sender_channel_from_receiver_credits.num_processed_completions ≤
      c.sender_channel_from_receiver_credits.to_sender_packets_completed) :
    SenderSide.OccupancyInv cfg (r.set_channel ch c) := by
  obtain ⟨h1, h2⟩ := hinv
  refine ⟨?_, ?_⟩
  · have := sum_update_channel r.channels
      (fun c => c.sender_channel_from_receiver_credits.num_processed_completions)
      cfg.NUM_SENDER_CHANNELS ch c hch
    simp only [SenderSide.completions_processed, SenderSide.set_channel] at *
    omega
  · intro i
    by_cases hi : i = ch
    · subst hi; simpa [SenderSide.set_channel] using hle
    · simpa [SenderSide.set_channel, Function.update, hi] using h2 i

end SenderSideLemmas

section OccupancyProof

open Finset

theorem sender_can_send_free_pos (cfg : RouterConfig) (i : Nat) (inp : SenderStepInput)
    (s : SenderStepState)
    (hB : 0 < cfg.BUBBLE_FLOW_CONTROL_INJECTION_SENDER_CHANNEL_MIN_FREE_SLOTS)
    (h : sender_can_send cfg i inp s = true) :
    1 ≤ s.outbound_to_receiver_channel_pointers_num_free_slots := by
  unfold sender_can_send at h
  simp only [] at h
  split_ifs at h <;> simp at h <;> omega

theorem completions_processed_le_published (cfg : RouterConfig) (r : SenderSide)
    (hinv : SenderSide.OccupancyInv cfg r) :
    r.completions_processed cfg ≤ r.completions_published cfg :=
  sum_le_sum (fun i _ => hinv.2 i)

theorem occupancy_arith (N F S P P' proc pub : Nat) (cs : Bool) (hN : N < U32)
    (h1 : F + S = N + P) (hupd : P' + proc = P + (proc + (pub - proc))) (hP' : P' ≤ S)
    (hpos : cs = true → 1 ≤ F) :
    (if pub - proc ≠ 0 then
        ((if cs = true then (F + (U32 - 1)) % U32 else F) + (pub - proc)) % U32
      else (if cs = true then (F + (U32 - 1)) % U32 else F)) +
      (S + (if cs = true then 1 else 0)) = N + P' := by
  unfold U32 at *
  cases cs
  · simp only [Bool.false_eq_true, if_false]
    split_ifs <;> omega
  · have := hpos rfl
    simp only [if_true]
    split_ifs <;> omega

theorem occupancy_inv_step (cfg : RouterConfig) (hN : cfg.REMOTE_RECEIVER_NUM_BUFFERS < U32)
    (hB : 0 < cfg.BUBBLE_FLOW_CONTROL_INJECTION_SENDER_CHANNEL_MIN_FREE_SLOTS)
    (r : SenderSide) (ch : Nat) (inp : SenderStepInput) (hch : ch < cfg.NUM_SENDER_CHANNELS)
    (hinv : SenderSide.OccupancyInv cfg r) (hgood : SenderSide.ReceiverHonest cfg r) :
    SenderSide.OccupancyInv cfg (run_sender_channel_step cfg ch inp r) := by
  unfold run_sender_channel_step
  split_ifs with hs
  swap
  · exact hinv
  have hsum := step_summary cfg ch inp (r.select ch)
  simp only [] at hsum
  obtain ⟨e1, ec, e4⟩ := hsum
  have e2 := congrArg SenderChannelFromReceiverCredits.num_processed_completions ec
  have e3 := congrArg SenderChannelFromReceiverCredits.to_sender_packets_completed ec
  simp only [SenderStepState.new_completions] at e2 e3 e4
  clear ec
  have hpos := sender_can_send_free_pos cfg ch inp (r.select ch) hB
  obtain ⟨h1, h2⟩ := hinv
  generalize run_sender_channel_step_impl cfg ch inp (r.select ch) = t at e1 e2 e3 e4
  generalize sender_can_send cfg ch inp (r.select ch) = cs at e1 e4 hpos
  simp only [SenderSide.select] at e1 e2 e3 e4 hpos
  have hupd := sum_update_channel r.channels
      (fun c => c.sender_channel_from_receiver_credits.num_processed_completions)
      cfg.NUM_SENDER_CHANNELS ch ((r.store ch t).channels ch) hch
  have hbound : ∑ i in range cfg.NUM_SENDER_CHANNELS,
      (Function.update r.channels ch ((r.store ch t).channels ch)
          i).sender_channel_from_receiver_credits.num_processed_completions ≤
      r.completions_published cfg := by
    apply sum_le_sum
    intro i _
    by_cases hi : i = ch
    · rw [hi]
      simp only [SenderSide.store, Function.update_same, e2]
      have := h2 ch
      omega
    · simp only [Function.update, hi, dite_false]
      exact h2 i
  simp only [SenderSide.ReceiverHonest] at hgood
  simp only [SenderSide.store, Function.update_same, SenderSide.completions_processed]
    at hupd hbound h1
  rw [e2] at hupd
  refine ⟨?_, ?_⟩
  · simp only [SenderSide.store, SenderSide.completions_processed, e1, e4]
    exact occupancy_arith _ _ _ _ _ _ _ cs hN h1 hupd (le_trans hbound hgood) hpos
  · intro i
    by_cases hi : i = ch
    · rw [hi]
      simp only [SenderSide.store, Function.update_same, e2, e3]
      have := h2 ch
      omega
    · simp only [SenderSide.store, Function.update, hi, dite_false]
      exact h2 i

end OccupancyProof

section OccupancyMain

open Finset

theorem occupancy_inv_reachable (cfg : RouterConfig) (hN : cfg.REMOTE_RECEIVER_NUM_BUFFERS < U32)
    (hB : 0 < cfg.BUBBLE_FLOW_CONTROL_INJECTION_SENDER_CHANNEL_MIN_FREE_SLOTS)
    (r : SenderSide) (h : SenderSide.Reachable cfg (SenderSide.ReceiverHonest cfg) r) :
    SenderSide.OccupancyInv cfg r := by
  induction h with
  | init _ =>
    refine ⟨?_, fun ch => le_refl _⟩
    simp [SenderSide.init, SenderSide.completions_processed]
  | next r e hr hch _ ih =>
    cases e with
    | producer_push ch =>
      exact occupancy_inv_set_channel cfg r ch _ hch ih rfl (ih.2 ch)
    | receiver_ack ch =>
      exact occupancy_inv_set_channel cfg r ch _ hch ih rfl (ih.2 ch)
    | receiver_completion ch =>
      exact occupancy_inv_set_channel cfg r ch _ hch ih rfl (Nat.le_succ_of_le (ih.2 ch))
    | sender_step ch inp =>
      exact occupancy_inv_step cfg hN hB r ch inp hch ih hr.good

/-- C1. Sender-side occupancy invariant: in every state reachable from the initial state
(tracked free-slot count = N) by producer pushes, receiver credits and sender steps on any
channel, as long as the receiver never reports more completions than packets were sent, the
tracked free-slot count is at most N, the completions processed never exceed the packets sent,
the occupancy (packets sent minus completions processed) is at most N and equals N minus the
free-slot count, and a step that transmits finds the count at least 1, so the 32-bit decrement
never wraps.  N is below 2^32 and the bubble minimum is positive. -/
theorem sender_occupancy_invariant (cfg : RouterConfig)
    (hN : cfg.REMOTE_RECEIVER_NUM_BUFFERS < U32)
    (hB : 0 < cfg.BUBBLE_FLOW_CONTROL_INJECTION_SENDER_CHANNEL_MIN_FREE_SLOTS)
    (r : SenderSide) (h : SenderSide.Reachable cfg (SenderSide.ReceiverHonest cfg) r) :
    r.outbound_to_receiver_channel_pointers_num_free_slots ≤ cfg.REMOTE_RECEIVER_NUM_BUFFERS ∧
    r.completions_processed cfg ≤ r.pkts_sent_published ∧
    r.pkts_sent_published - r.completions_processed cfg ≤ cfg.REMOTE_RECEIVER_NUM_BUFFERS ∧
    r.outbound_to_receiver_channel_pointers_num_free_slots +
      (r.pkts_sent_published - r.completions_processed cfg) = cfg.REMOTE_RECEIVER_NUM_BUFFERS ∧
    ∀ ch inp, sender_can_send cfg ch inp (r.select ch) = true →
      1 ≤ r.outbound_to_receiver_channel_pointers_num_free_slots := by
  have hinv := occupancy_inv_reachable cfg hN hB r h
  have hle := completions_processed_le_published cfg r hinv
  have hg : r.completions_published cfg ≤ r.pkts_sent_published := h.good
  obtain ⟨h1, -⟩ := hinv
  refine ⟨by omega, by omega, by omega, by omega, ?_⟩
  intro ch inp hc
  exact sender_can_send_free_pos cfg ch inp (r.select ch) hB hc

/-- The sample state after one send is reachable with an honest receiver. -/
theorem sample_after_one_send_reachable :
    SenderSide.Reachable RouterConfig.sample_mesh
      (SenderSide.ReceiverHonest RouterConfig.sample_mesh) SenderSide.sample_after_one_send := by
  unfold SenderSide.sample_after_one_send
  apply SenderSide.Reachable.next
  · apply SenderSide.Reachable.next
    · apply SenderSide.Reachable.init
      unfold SenderSide.ReceiverHonest
      decide
    · decide
    · unfold SenderSide.ReceiverHonest
      decide
  · decide
  · unfold SenderSide.ReceiverHonest
    decide

/-- Witness of C1 on the sample mesh build (N = 4) after one packet was sent. -/
theorem sender_occupancy_invariant_witness :
    (RouterConfig.sample_mesh.REMOTE_RECEIVER_NUM_BUFFERS < U32 ∧
      0 < RouterConfig.sample_mesh.BUBBLE_FLOW_CONTROL_INJECTION_SENDER_CHANNEL_MIN_FREE_SLOTS ∧
      SenderSide.Reachable RouterConfig.sample_mesh
        (SenderSide.ReceiverHonest RouterConfig.sample_mesh) SenderSide.sample_after_one_send) ∧
    SenderSide.sample_after_one_send.outbound_to_receiver_channel_pointers_num_free_slots ≤ 4 ∧
    SenderSide.sample_after_one_send.pkts_sent_published -
      SenderSide.sample_after_one_send.completions_processed RouterConfig.sample_mesh ≤ 4 :=
  ⟨⟨by decide, by decide, sample_after_one_send_reachable⟩,
    (sender_occupancy_invariant RouterConfig.sample_mesh (by decide) (by decide)
      SenderSide.sample_after_one_send sample_after_one_send_reachable).1,
    (sender_occupancy_invariant RouterConfig.sample_mesh (by decide) (by decide)
      SenderSide.sample_after_one_send sample_after_one_send_reachable).2.2.1⟩

end OccupancyMain

/-! ## Sender step: send contract -/

section SendContract

variable (cfg : RouterConfig) (i : Nat) (inp : SenderStepInput) (s : SenderStepState)

theorem sender_can_send_iff :
    sender_can_send cfg i inp s = true ↔
      ((if (cfg.sender_channel_is_traffic_injection_channel i &&
              cfg.enable_deadlock_avoidance) = true then
          cfg.BUBBLE_FLOW_CONTROL_INJECTION_SENDER_CHANNEL_MIN_FREE_SLOTS ≤
            s.outbound_to_receiver_channel_pointers_num_free_slots
        else s.outbound_to_receiver_channel_pointers_num_free_slots ≠ 0) ∧
      s.sender_channel_free_slots_stream < cfg.SENDER_NUM_BUFFERS_ARRAY i ∧
      (cfg.ETH_TXQ_SPIN_WAIT_SEND_NEXT_DATA = false → inp.eth_txq_is_busy = false)) := by
  unfold sender_can_send
  simp only []
  cases cfg.ETH_TXQ_SPIN_WAIT_SEND_NEXT_DATA <;>
    cases (cfg.sender_channel_is_traffic_injection_channel i && cfg.enable_deadlock_avoidance) <;>
    simp [and_assoc]

theorem sender_send_events_are_send_events :
    (sender_send_events cfg i s).filter SenderEvent.is_send_event = sender_send_events cfg i s ∧
    (sender_send_events cfg i s).filterMap SenderEvent.upstream_credits = [] ∧
    (sender_send_events cfg i s).filter SenderEvent.is_drain_event = [] := by
  unfold sender_send_events
  cases cfg.UPDATE_PKT_HDR_ON_RX_CH <;> cases cfg.skip_src_ch_id_update <;>
    cases cfg.ETH_TXQ_SPIN_WAIT_SEND_NEXT_DATA <;> exact ⟨rfl, rfl, rfl⟩

/-- The log of a whole sender step: the events of one transmission when it sends, then
events that are no send events, with the upstream-credit calls and credit-drain events as
given. -/
theorem sender_step_log :
    ∃ rest, (run_sender_channel_step_impl cfg i inp s).log =
        s.log ++ (if sender_can_send cfg i inp s then sender_send_events cfg i s else []) ++ rest ∧
      rest.filter SenderEvent.is_send_event = [] ∧
      rest.filterMap SenderEvent.upstream_credits =
        (if cfg.ENABLE_FIRST_LEVEL_ACK then (if s.new_acks inp ≠ 0 then [s.new_acks inp] else [])
          else (if s.new_completions ≠ 0 then [s.new_completions] else [])) ∧
      rest.filter SenderEvent.is_drain_event =
        (SenderEvent.read_completions s.new_completions ::
          (if s.new_completions ≠ 0 then [SenderEvent.processed_completions s.new_completions]
            else []) ++
          (if cfg.ENABLE_FIRST_LEVEL_ACK then
            SenderEvent.read_acks (s.new_acks inp) ::
              (if s.new_acks inp ≠ 0 then [SenderEvent.processed_acks (s.new_acks inp)] else [])
          else [])) := by
  obtain ⟨-, -, -, rest, hlog, h1, h2, h3⟩ :=
    sender_step_after_send cfg i inp (sender_step_send cfg i inp s)
  have hs := sender_step_send_eq cfg i inp s
  have hc : (sender_step_send cfg i inp s).sender_channel_from_receiver_credits =
      s.sender_channel_from_receiver_credits := by
    rw [hs]; split_ifs <;> rfl
  have hnc : (sender_step_send cfg i inp s).new_completions = s.new_completions := by
    simp only [SenderStepState.new_completions, hc]
  have hna : (sender_step_send cfg i inp s).new_acks inp = s.new_acks inp := by
    simp only [SenderStepState.new_acks, hc]
  rw [hnc, hna] at h2 h3
  refine ⟨rest, ?_, h1, h2, h3⟩
  unfold run_sender_channel_step_impl
  rw [hlog, hs]
  rcases Bool.eq_false_or_eq_true (sender_can_send cfg i inp s) with h | h <;> simp [h]

/-- C3 (amended). Sender step send contract.  The step transmits (the test `can_send` holds)
if and only if the remote receiver has an available slot (tracked free-slot count != 0, or >=
the bubble minimum on an injection channel with deadlock avoidance), the channel has an unsent
packet (free-slots register < number of buffers) and, when not spin-waiting, the transmit
queue is idle.  The send events of the step are exactly those of one transmission when it
transmits and none otherwise: optional header update, the channel index written into the
header's source-channel id unless `skip_src_ch_id_update` is set, one payload send, then
exactly +1 published to the remote packets-sent credit.  When it transmits, the local sender
and remote receiver slot pointers advance by one on their rings, the free-slots register
grows by exactly 1, the write counter by 1, and the tracked free-slot count is decremented by
exactly 1 modulo 2^32 before the completions drained in the same step are added. -/
theorem sender_step_send_contract (cfg : RouterConfig) (i : Nat) (inp : SenderStepInput)
    (s : SenderStepState) :
    (sender_can_send cfg i inp s = true ↔
      ((if (cfg.sender_channel_is_traffic_injection_channel i &&
              cfg.enable_deadlock_avoidance) = true then
          cfg.BUBBLE_FLOW_CONTROL_INJECTION_SENDER_CHANNEL_MIN_FREE_SLOTS ≤
            s.outbound_to_receiver_channel_pointers_num_free_slots
        else s.outbound_to_receiver_channel_pointers_num_free_slots ≠ 0) ∧
      s.sender_channel_free_slots_stream < cfg.SENDER_NUM_BUFFERS_ARRAY i ∧
      (cfg.ETH_TXQ_SPIN_WAIT_SEND_NEXT_DATA = false → inp.eth_txq_is_busy = false))) ∧
    (∃ rest, (run_sender_channel_step_impl cfg i inp s).log = s.log ++
        (if sender_can_send cfg i inp s then
          (if !cfg.UPDATE_PKT_HDR_ON_RX_CH then
              [SenderEvent.update_packet_header_before_eth_send s.local_sender_channel]
            else []) ++
          (if cfg.skip_src_ch_id_update then []
            else [SenderEvent.set_src_ch_id s.local_sender_channel i]) ++
          (if cfg.ETH_TXQ_SPIN_WAIT_SEND_NEXT_DATA then [SenderEvent.wait_txq_idle] else []) ++
          [SenderEvent.eth_send_packet_bytes s.local_sender_channel s.remote_receiver_channel,
            SenderEvent.wait_txq_idle, SenderEvent.remote_update_pkts_sent 1]
        else []) ++ rest ∧
      rest.filter SenderEvent.is_send_event = []) ∧
    (run_sender_channel_step_impl cfg i inp s).local_sender_channel =
      (if sender_can_send cfg i inp s then
        (s.local_sender_channel + 1) % cfg.SENDER_NUM_BUFFERS_ARRAY i
      else s.local_sender_channel) ∧
    (run_sender_channel_step_impl cfg i inp s).remote_receiver_channel =
      (if sender_can_send cfg i inp s then
        (s.remote_receiver_channel + 1) % cfg.REMOTE_RECEIVER_NUM_BUFFERS
      else s.remote_receiver_channel) ∧
    (run_sender_channel_step_impl cfg i inp s).sender_channel_free_slots_stream =
      s.sender_channel_free_slots_stream + (if sender_can_send cfg i inp s then 1 else 0) ∧
    (run_sender_channel_step_impl cfg i
        inp s).local_sender_channel_worker_interface.local_write_counter =
      s.local_sender_channel_worker_interface.local_write_counter +
        (if sender_can_send cfg i inp s then 1 else 0) ∧
    (run_sender_channel_step_impl cfg i inp s).pkts_sent_published =
      s.pkts_sent_published + (if sender_can_send cfg i inp s then 1 else 0) ∧
    (run_sender_channel_step_impl cfg i inp s).outbound_to_receiver_channel_pointers_num_free_slots
      = (if s.new_completions ≠ 0 then
          ((if sender_can_send cfg i inp s then
              (s.outbound_to_receiver_channel_pointers_num_free_slots + (U32 - 1)) % U32
            else s.outbound_to_receiver_channel_pointers_num_free_slots) +
            s.new_completions) % U32
        else (if sender_can_send cfg i inp s then
            (s.outbound_to_receiver_channel_pointers_num_free_slots + (U32 - 1)) % U32
          else s.outbound_to_receiver_channel_pointers_num_free_slots)) ∧
    (sender_can_send cfg i inp s = true →
      1 ≤ s.outbound_to_receiver_channel_pointers_num_free_slots →
      s.outbound_to_receiver_channel_pointers_num_free_slots < U32 →
      (s.outbound_to_receiver_channel_pointers_num_free_slots + (U32 - 1)) % U32 + 1 =
        s.outbound_to_receiver_channel_pointers_num_free_slots) := by
  obtain ⟨-, -, ⟨f1, f2, f3, f4, -, f6⟩, -⟩ :=
    sender_step_after_send cfg i inp (sender_step_send cfg i inp s)
  obtain ⟨rest, hlog, hrest, -, -⟩ := sender_step_log cfg i inp s
  obtain ⟨-, -, hfree⟩ := step_summary cfg i inp s
  have hs := sender_step_send_eq cfg i inp s
  refine ⟨sender_can_send_iff cfg i inp s, ⟨rest, ?_, hrest⟩, ?_, ?_, ?_, ?_, ?_, hfree, ?_⟩
  · rw [hlog]
    rfl
  · unfold run_sender_channel_step_impl
    rw [f1, hs]; split_ifs <;> rfl
  · unfold run_sender_channel_step_impl
    rw [f2, hs]; split_ifs <;> rfl
  · unfold run_sender_channel_step_impl
    rw [f3, hs]; split_ifs <;> rfl
  · unfold run_sender_channel_step_impl
    rw [f6, hs]; split_ifs <;> rfl
  · unfold run_sender_channel_step_impl
    rw [f4, hs]; split_ifs <;> rfl
  · intro _ h2 h3
    unfold U32 at *
    omega

/-- Counterexample to C3 as stated: on a build with `skip_src_ch_id_update` the step transmits
one packet without writing the source-channel id, and with one completion pending the
tracked free-slot count after the step equals the count before it. -/
theorem sender_step_send_contract_counterexample :
    sender_can_send RouterConfig.sample_single_sender 0 SenderStepInput.quiet
      SenderStepState.sample_pending_completion = true ∧
    ((run_sender_channel_step_impl RouterConfig.sample_single_sender 0 SenderStepInput.quiet
      SenderStepState.sample_pending_completion).log.filter SenderEvent.is_payload_send).length
        = 1 ∧
    (run_sender_channel_step_impl RouterConfig.sample_single_sender 0 SenderStepInput.quiet
      SenderStepState.sample_pending_completion).log.filter SenderEvent.is_src_ch_id_write = [] ∧
    (run_sender_channel_step_impl RouterConfig.sample_single_sender 0 SenderStepInput.quiet
      SenderStepState.sample_pending_completion).outbound_to_receiver_channel_pointers_num_free_slots
        = SenderStepState.sample_pending_completion.outbound_to_receiver_channel_pointers_num_free_slots
    := by
  decide

/-- Witness of C3 (amended): channel 1 of the sample mesh build transmits from the sample
state, and the decrement of the free-slot count from 4 is exact. -/
theorem sender_step_send_contract_witness :
    (sender_can_send RouterConfig.sample_mesh 1 SenderStepInput.quiet SenderStepState.sample = true ∧
      1 ≤ SenderStepState.sample.outbound_to_receiver_channel_pointers_num_free_slots ∧
      SenderStepState.sample.outbound_to_receiver_channel_pointers_num_free_slots < U32) ∧
    (SenderStepState.sample.outbound_to_receiver_channel_pointers_num_free_slots + (U32 - 1)) %
      U32 + 1 = SenderStepState.sample.outbound_to_receiver_channel_pointers_num_free_slots :=
  ⟨⟨by decide, by decide, by decide⟩,
    (sender_step_send_contract RouterConfig.sample_mesh 1 SenderStepInput.quiet
      SenderStepState.sample).2.2.2.2.2.2.2.2 (by decide) (by decide) (by decide)⟩

end SendContract

/-! ## Sender step: credits -/

section CreditTheorems

variable (cfg : RouterConfig) (i : Nat) (inp : SenderStepInput) (s : SenderStepState)

/-- C8 (amended). Upstream credit trigger: the calls of `send_credits_to_upstream_workers` a
sender step makes are, with first-level ack enabled, exactly one call carrying the number of
newly observed acks when that number is not zero (and none for completions); with first-level
ack disabled, exactly one call carrying the number of newly observed completions when that
number is not zero (acks are not read). -/
theorem upstream_credit_trigger (cfg : RouterConfig) (i : Nat) (inp : SenderStepInput)
    (s : SenderStepState) :
    ∃ appended, (run_sender_channel_step_impl cfg i inp s).log = s.log ++ appended ∧
      appended.filterMap SenderEvent.upstream_credits =
        (if cfg.ENABLE_FIRST_LEVEL_ACK then (if s.new_acks inp ≠ 0 then [s.new_acks inp] else [])
          else (if s.new_completions ≠ 0 then [s.new_completions] else [])) := by
  obtain ⟨rest, hlog, -, h2, -⟩ := sender_step_log cfg i inp s
  refine ⟨(if sender_can_send cfg i inp s then sender_send_events cfg i s else []) ++ rest,
    ?_, ?_⟩
  · rw [hlog, List.append_assoc]
  · rw [List.filterMap_append, h2]
    have := (sender_send_events_are_send_events cfg i s).2.1
    split_ifs <;> simp [this]

/-- Counterexample to C8 as stated: with first-level ack enabled and one completion (and no
ack) newly observed, the step makes no call of `send_credits_to_upstream_workers`. -/
theorem upstream_credit_trigger_counterexample :
    RouterConfig.sample_mesh.ENABLE_FIRST_LEVEL_ACK = true ∧
    SenderStepState.sample_pending_completion.new_completions = 1 ∧
    SenderStepState.sample_pending_completion.new_acks SenderStepInput.quiet = 0 ∧
    (run_sender_channel_step_impl RouterConfig.sample_mesh 1 SenderStepInput.quiet
      SenderStepState.sample_pending_completion).log.filterMap SenderEvent.upstream_credits
        = [] := by
  decide

end CreditTheorems

section CreditOrdering

theorem credit_order_inv_set_channel (cfg : RouterConfig) (r : SenderSide) (ch : Nat)
    (c : SenderChannelLocal) (hinv : SenderSide.CreditOrderInv cfg r)
    (h1 : c.sender_channel_from_receiver_credits.num_processed_completions =
      (r.channels ch).sender_channel_from_receiver_credits.num_processed_completions)
    (h2 : c.sender_channel_from_receiver_credits.num_processed_acks =
      (r.channels ch).sender_channel_from_receiver_credits.num_processed_acks) :
    SenderSide.CreditOrderInv cfg (r.set_channel ch c) := by
  intro j
  by_cases hj : j = ch
  · rw [hj]
    simp only [SenderSide.set_channel, Function.update_same, h1, h2]
    exact hinv ch
  · simp only [SenderSide.set_channel, Function.update, hj, dite_false]
    exact hinv j

theorem credit_order_inv_step (cfg : RouterConfig) (r : SenderSide) (ch : Nat)
    (inp : SenderStepInput) (hinv : SenderSide.CreditOrderInv cfg r)
    (hgood : (r.channels ch).sender_channel_from_receiver_credits.to_sender_packets_completed ≤
      (r.channels ch).sender_channel_from_receiver_credits.to_sender_packets_acked) :
    SenderSide.CreditOrderInv cfg (run_sender_channel_step cfg ch inp r) := by
  unfold run_sender_channel_step
  split_ifs with hs
  swap
  · exact hinv
  obtain ⟨-, hc, -⟩ := step_summary cfg ch inp (r.select ch)
  have e1 := congrArg SenderChannelFromReceiverCredits.num_processed_completions hc
  have e2 := congrArg SenderChannelFromReceiverCredits.num_processed_acks hc
  dsimp only at e1 e2
  generalize run_sender_channel_step_impl cfg ch inp (r.select ch) = t at e1 e2
  simp only [SenderStepState.new_completions, SenderStepState.new_acks, SenderSide.select]
    at e1 e2
  clear hc
  intro j
  by_cases hj : j = ch
  · rw [hj]
    simp only [SenderSide.store, Function.update_same, e1, e2]
    obtain ⟨a, b⟩ := hinv ch
    constructor
    · intro hF
      have := a hF
      simp only [hF, if_true]
      omega
    · intro hF
      simp only [hF, Bool.false_eq_true, if_false]
      exact b hF
  · simp only [SenderSide.store, Function.update, hj, dite_false]
    exact hinv j

theorem credit_order_inv_reachable (cfg : RouterConfig) (r : SenderSide)
    (h : SenderSide.Reachable cfg (SenderSide.AcksLeadCompletions cfg) r) :
    SenderSide.CreditOrderInv cfg r := by
  induction h with
  | init _ =>
    intro ch
    exact ⟨fun _ => le_refl _, fun _ => rfl⟩
  | next r e hr hch _ ih =>
    cases e with
    | producer_push ch => exact credit_order_inv_set_channel cfg r ch _ ih rfl rfl
    | receiver_ack ch => exact credit_order_inv_set_channel cfg r ch _ ih rfl rfl
    | receiver_completion ch => exact credit_order_inv_set_channel cfg r ch _ ih rfl rfl
    | sender_step ch inp => exact credit_order_inv_step cfg r ch inp ih (hr.good ch hch)

/-- C9 (amended). Credit ordering: in every state reachable by producer pushes, receiver
credits and sender steps, as long as the receiver has acked on every channel at least as many
packets as it has completed, every sender channel has, with first-level ack enabled, observed
at least as many ack credits as completion credits, and, with first-level ack disabled,
observed no ack credit at all. -/
theorem credit_ordering (cfg : RouterConfig) (r : SenderSide)
    (h : SenderSide.Reachable cfg (SenderSide.AcksLeadCompletions cfg) r) (ch : Nat) :
    (cfg.ENABLE_FIRST_LEVEL_ACK = true →
      (r.channels ch).sender_channel_from_receiver_credits.num_processed_completions ≤
        (r.channels ch).sender_channel_from_receiver_credits.num_processed_acks) ∧
    (cfg.ENABLE_FIRST_LEVEL_ACK = false →
      (r.channels ch).sender_channel_from_receiver_credits.num_processed_acks = 0) :=
  credit_order_inv_reachable cfg r h ch

/-- The sample state after one ack is reachable with a receiver that acks before it
completes. -/
theorem sample_after_one_ack_reachable :
    SenderSide.Reachable RouterConfig.sample_mesh
      (SenderSide.AcksLeadCompletions RouterConfig.sample_mesh) SenderSide.sample_after_one_ack := by
  unfold SenderSide.sample_after_one_ack SenderSide.sample_after_one_send
  apply SenderSide.Reachable.next
  · apply SenderSide.Reachable.next
    · apply SenderSide.Reachable.next
      · apply SenderSide.Reachable.next
        · apply SenderSide.Reachable.init
          unfold SenderSide.AcksLeadCompletions
          decide
        · decide
        · unfold SenderSide.AcksLeadCompletions
          decide
      · decide
      · unfold SenderSide.AcksLeadCompletions
        decide
    · decide
    · unfold SenderSide.AcksLeadCompletions
      decide
  · decide
  · unfold SenderSide.AcksLeadCompletions
    decide

/-- Counterexample to C9 as stated: in the sample run (send, ack, step) the receiver acks
before it completes, and channel 1 has then observed one ack credit and no completion credit,
so the completions observed are fewer than the acks observed. -/
theorem credit_ordering_counterexample :
    SenderSide.Reachable RouterConfig.sample_mesh
      (SenderSide.AcksLeadCompletions RouterConfig.sample_mesh) SenderSide.sample_after_one_ack ∧
    (SenderSide.sample_after_one_ack.channels 1).sender_channel_from_receiver_credits.num_processed_completions
      = 0 ∧
    (SenderSide.sample_after_one_ack.channels 1).sender_channel_from_receiver_credits.num_processed_acks
      = 1 :=
  ⟨sample_after_one_ack_reachable, by decide, by decide⟩

/-- Witness of C9 (amended) on the sample run. -/
theorem credit_ordering_witness :
    SenderSide.Reachable RouterConfig.sample_mesh
      (SenderSide.AcksLeadCompletions RouterConfig.sample_mesh) SenderSide.sample_after_one_ack ∧
    (SenderSide.sample_after_one_ack.channels 1).sender_channel_from_receiver_credits.num_processed_completions
      ≤ (SenderSide.sample_after_one_ack.channels
          1).sender_channel_from_receiver_credits.num_processed_acks :=
  ⟨sample_after_one_ack_reachable,
    (credit_ordering RouterConfig.sample_mesh SenderSide.sample_after_one_ack
      sample_after_one_ack_reachable 1).1 (by decide)⟩

end CreditOrdering

/-! ## Receiver step: stages and pointer chain -/

section ReceiverStages

variable (cfg : RouterConfig) (inp : ReceiverStepInput) (s : ReceiverStepState)

/-- Effect of the first-level ack stage. -/
theorem receiver_step_ack_effect :
    (receiver_step_ack cfg inp s).receiver_channel_pointers.wr_sent_counter =
        s.receiver_channel_pointers.wr_sent_counter ∧
    (receiver_step_ack cfg inp s).receiver_channel_pointers.wr_flush_counter =
        s.receiver_channel_pointers.wr_flush_counter ∧
    (receiver_step_ack cfg inp s).receiver_channel_pointers.completion_counter =
        s.receiver_channel_pointers.completion_counter ∧
    (receiver_step_ack cfg inp s).did_something = s.did_something ∧
    s.receiver_channel_pointers.ack_counter.counter ≤
        (receiver_step_ack cfg inp s).receiver_channel_pointers.ack_counter.counter ∧
    (receiver_step_ack cfg inp s).receiver_channel_pointers.ack_counter.counter ≤
        s.receiver_channel_pointers.ack_counter.counter + 1 ∧
    (cfg.ENABLE_FIRST_LEVEL_ACK = false → receiver_step_ack cfg inp s = s) ∧
    ∃ l, (receiver_step_ack cfg inp s).log = s.log ++ l ∧
      l.filter ReceiverEvent.is_forward_event = [] := by
  unfold receiver_step_ack
  have hsame : ∀ x : ReceiverStepState, x = s →
      x.receiver_channel_pointers.wr_sent_counter = s.receiver_channel_pointers.wr_sent_counter ∧
      x.receiver_channel_pointers.wr_flush_counter = s.receiver_channel_pointers.wr_flush_counter ∧
      x.receiver_channel_pointers.completion_counter =
        s.receiver_channel_pointers.completion_counter ∧
      x.did_something = s.did_something ∧
      s.receiver_channel_pointers.ack_counter.counter ≤
        x.receiver_channel_pointers.ack_counter.counter ∧
      x.receiver_channel_pointers.ack_counter.counter ≤
        s.receiver_channel_pointers.ack_counter.counter + 1 ∧
      (cfg.ENABLE_FIRST_LEVEL_ACK = false → x = s) ∧
      ∃ l, x.log = s.log ++ l ∧ l.filter ReceiverEvent.is_forward_event = [] := by
    intro x hx
    subst hx
    exact ⟨rfl, rfl, rfl, rfl, le_refl _, Nat.le_succ _, fun _ => rfl, [], by simp, rfl⟩
  rcases Bool.eq_false_or_eq_true cfg.ENABLE_FIRST_LEVEL_ACK with hf | hf
  swap
  · rw [if_neg (by simp [hf])]
    exact hsame _ rfl
  · rw [if_pos hf]
    simp only []
    by_cases hb : (if (!cfg.ETH_TXQ_SPIN_WAIT_RECEIVER_SEND_COMPLETION_ACK) = true then
        decide (0 < s.to_receiver_pkts_sent) && !inp.eth_txq_is_busy_at_ack
      else decide (0 < s.to_receiver_pkts_sent)) = true
    · rw [if_pos hb]
      refine ⟨?_, ?_, ?_, rfl, ?_, ?_, ?_, [_], rfl, rfl⟩
      · cases cfg.skip_src_ch_id_update <;> rfl
      · cases cfg.skip_src_ch_id_update <;> rfl
      · cases cfg.skip_src_ch_id_update <;> rfl
      · cases cfg.skip_src_ch_id_update <;> simp [ChannelCounter.increment,
          ReceiverChannelPointers.set_src_chan_id]
      · cases cfg.skip_src_ch_id_update <;> simp [ChannelCounter.increment,
          ReceiverChannelPointers.set_src_chan_id]
      · intro h; rw [hf] at h; exact absurd h (by decide)
    · rw [if_neg hb]
      exact hsame _ rfl

/-- Effect of the admission and forwarding stage. -/
theorem receiver_step_forward_effect (u : Bool) :
    let admitted := u && can_send_to_all_local_chip_receivers cfg inp
    let t := receiver_step_forward cfg inp u s
    t.receiver_channel_pointers.ack_counter = s.receiver_channel_pointers.ack_counter ∧
    t.receiver_channel_pointers.wr_flush_counter = s.receiver_channel_pointers.wr_flush_counter ∧
    t.receiver_channel_pointers.completion_counter =
        s.receiver_channel_pointers.completion_counter ∧
    t.receiver_channel_pointers.wr_sent_counter =
        (if admitted then
          s.receiver_channel_pointers.wr_sent_counter.increment cfg.RECEIVER_NUM_BUFFERS
        else s.receiver_channel_pointers.wr_sent_counter) ∧
    t.to_receiver_pkts_sent =
        (if admitted && !cfg.ENABLE_FIRST_LEVEL_ACK then s.to_receiver_pkts_sent - 1
          else s.to_receiver_pkts_sent) ∧
    t.did_something = (s.did_something || admitted) ∧
    t.log = s.log ++
      (if admitted then
        ReceiverEvent.update_buffer_slot_to_next_trid_and_advance_trid_counter
            s.receiver_channel_pointers.wr_sent_counter.get_buffer_index ::
          (receiver_forward_actions cfg inp).map
            (ReceiverEvent.receiver_forward_packet
              s.receiver_channel_pointers.wr_sent_counter.get_buffer_index)
      else []) := by
  intro admitted t
  simp only [admitted, t]
  unfold receiver_step_forward
  cases u
  · simp
  · simp only [if_true, Bool.true_and]
    rcases Bool.eq_false_or_eq_true (can_send_to_all_local_chip_receivers cfg inp) with h | h
    · simp only [h, if_true]
      cases h1 : cfg.skip_src_ch_id_update <;> cases h2 : cfg.ENABLE_FIRST_LEVEL_ACK <;>
        simp [ReceiverChannelPointers.set_src_chan_id]
    · simp only [h, Bool.false_eq_true, if_false]
      cases h1 : cfg.skip_src_ch_id_update <;> cases h2 : cfg.ENABLE_FIRST_LEVEL_ACK <;>
        simp [ReceiverChannelPointers.set_src_chan_id]

/-- Effect of the write-flush stage. -/
theorem receiver_step_flush_effect :
    let flushes := !s.receiver_channel_pointers.wr_flush_counter.is_caught_up_to
        s.receiver_channel_pointers.wr_sent_counter && inp.next_trid_flushed
    let t := receiver_step_flush cfg inp s
    t.receiver_channel_pointers.ack_counter = s.receiver_channel_pointers.ack_counter ∧
    t.receiver_channel_pointers.wr_sent_counter = s.receiver_channel_pointers.wr_sent_counter ∧
    t.receiver_channel_pointers.completion_counter =
        s.receiver_channel_pointers.completion_counter ∧
    t.receiver_channel_pointers.src_chan_ids = s.receiver_channel_pointers.src_chan_ids ∧
    t.receiver_channel_pointers.wr_flush_counter =
        (if flushes then
          s.receiver_channel_pointers.wr_flush_counter.increment cfg.RECEIVER_NUM_BUFFERS
        else s.receiver_channel_pointers.wr_flush_counter) ∧
    t.to_receiver_pkts_sent = s.to_receiver_pkts_sent ∧
    t.did_something = s.did_something ∧
    t.log = s.log ++
      (if flushes then
        [ReceiverEvent.clear_trid_at_buffer_slot
          s.receiver_channel_pointers.wr_flush_counter.get_buffer_index]
      else []) := by
  intro flushes t
  simp only [flushes, t]
  unfold receiver_step_flush
  rcases Bool.eq_false_or_eq_true (s.receiver_channel_pointers.wr_flush_counter.is_caught_up_to
    s.receiver_channel_pointers.wr_sent_counter) with h | h <;>
  rcases Bool.eq_false_or_eq_true inp.next_trid_flushed with h2 | h2 <;> simp [h, h2]

/-- Effect of the completion stage when flush and completion are separate pointers. -/
theorem receiver_step_completion_effect :
    let completes :=
      !ChannelCounter.is_caught_up_to_pair s.receiver_channel_pointers.completion_counter
          s.receiver_channel_pointers.wr_flush_counter &&
        (cfg.ETH_TXQ_SPIN_WAIT_RECEIVER_SEND_COMPLETION_ACK || !inp.eth_txq_is_busy_at_completion)
    let t := receiver_step_completion cfg inp s
    t.receiver_channel_pointers.ack_counter = s.receiver_channel_pointers.ack_counter ∧
    t.receiver_channel_pointers.wr_sent_counter = s.receiver_channel_pointers.wr_sent_counter ∧
    t.receiver_channel_pointers.wr_flush_counter = s.receiver_channel_pointers.wr_flush_counter ∧
    t.receiver_channel_pointers.src_chan_ids = s.receiver_channel_pointers.src_chan_ids ∧
    t.receiver_channel_pointers.completion_counter =
        (if completes then
          s.receiver_channel_pointers.completion_counter.increment cfg.RECEIVER_NUM_BUFFERS
        else s.receiver_channel_pointers.completion_counter) ∧
    t.to_receiver_pkts_sent = s.to_receiver_pkts_sent ∧
    t.did_something = s.did_something ∧
    t.log = s.log ++
      (if completes then
        [ReceiverEvent.receiver_send_completion_ack
          (s.receiver_channel_pointers.get_src_chan_id
            s.receiver_channel_pointers.wr_flush_counter.get_buffer_index)]
      else []) := by
  intro completes t
  simp only [completes, t]
  unfold receiver_step_completion
  rcases Bool.eq_false_or_eq_true (ChannelCounter.is_caught_up_to_pair
    s.receiver_channel_pointers.completion_counter
    s.receiver_channel_pointers.wr_flush_counter) with h | h <;>
  rcases Bool.eq_false_or_eq_true cfg.ETH_TXQ_SPIN_WAIT_RECEIVER_SEND_COMPLETION_ACK
    with h2 | h2 <;>
  rcases Bool.eq_false_or_eq_true inp.eth_txq_is_busy_at_completion with h3 | h3 <;>
  simp [h, h2, h3]

/-- Effect of the fused flush and completion stage. -/
theorem receiver_step_fused_completion_effect :
    let completes :=
      !s.receiver_channel_pointers.completion_counter.is_caught_up_to
          s.receiver_channel_pointers.wr_sent_counter && inp.next_trid_flushed &&
        (cfg.ETH_TXQ_SPIN_WAIT_RECEIVER_SEND_COMPLETION_ACK || !inp.eth_txq_is_busy_at_completion)
    let t := receiver_step_fused_completion cfg inp s
    t.receiver_channel_pointers.ack_counter = s.receiver_channel_pointers.ack_counter ∧
    t.receiver_channel_pointers.wr_sent_counter = s.receiver_channel_pointers.wr_sent_counter ∧
    t.receiver_channel_pointers.wr_flush_counter = s.receiver_channel_pointers.wr_flush_counter ∧
    t.receiver_channel_pointers.src_chan_ids = s.receiver_channel_pointers.src_chan_ids ∧
    t.receiver_channel_pointers.completion_counter =
        (if completes then
          s.receiver_channel_pointers.completion_counter.increment cfg.RECEIVER_NUM_BUFFERS
        else s.receiver_channel_pointers.completion_counter) ∧
    t.to_receiver_pkts_sent = s.to_receiver_pkts_sent ∧
    t.did_something = s.did_something ∧
    t.log = s.log ++
      (if completes then
        [ReceiverEvent.receiver_send_completion_ack
          (if cfg.skip_src_ch_id_update then s.receiver_channel_pointers.get_src_chan_id_single
            else s.receiver_channel_pointers.get_src_chan_id
              s.receiver_channel_pointers.completion_counter.get_buffer_index),
          ReceiverEvent.clear_trid_at_buffer_slot
            s.receiver_channel_pointers.completion_counter.get_buffer_index]
      else []) := by
  intro completes t
  simp only [completes, t]
  unfold receiver_step_fused_completion
  rcases Bool.eq_false_or_eq_true (s.receiver_channel_pointers.completion_counter.is_caught_up_to
    s.receiver_channel_pointers.wr_sent_counter) with h | h <;>
  rcases Bool.eq_false_or_eq_true inp.next_trid_flushed with h1 | h1 <;>
  rcases Bool.eq_false_or_eq_true cfg.ETH_TXQ_SPIN_WAIT_RECEIVER_SEND_COMPLETION_ACK
    with h2 | h2 <;>
  rcases Bool.eq_false_or_eq_true inp.eth_txq_is_busy_at_completion with h3 | h3 <;>
  simp [h, h1, h2, h3]

end ReceiverStages

section ReceiverChain

variable (cfg : RouterConfig) (inp : ReceiverStepInput) (s : ReceiverStepState)

theorem ChannelCounter.increment_counter (n : Nat) (c : ChannelCounter) :
    (c.increment n).counter = c.counter + 1 := rfl

theorem ChannelCounter.ite_increment_counter (b : Bool) (n : Nat) (c : ChannelCounter) :
    (if b = true then c.increment n else c).counter = c.counter + (if b = true then 1 else 0) := by
  cases b <;> rfl

theorem ite_one_eq_one (b : Bool) (h : (if b = true then 1 else 0) = 1) : b = true := by
  cases b
  · simp at h
  · rfl

theorem ite_one_le_one (b : Bool) : (if b = true then 1 else 0) ≤ 1 := by
  cases b <;> simp

/-- How far each of the four receiver counters moves in one step, and what the step had
tested when a counter moved. -/
theorem receiver_step_counters :
    let t := run_receiver_channel_step_impl cfg inp s
    ∃ da ds df dc : Nat, da ≤ 1 ∧ ds ≤ 1 ∧ df ≤ 1 ∧ dc ≤ 1 ∧
      t.receiver_channel_pointers.ack_counter.counter =
        s.receiver_channel_pointers.ack_counter.counter + da ∧
      t.receiver_channel_pointers.wr_sent_counter.counter =
        s.receiver_channel_pointers.wr_sent_counter.counter + ds ∧
      t.receiver_channel_pointers.wr_flush_counter.counter =
        s.receiver_channel_pointers.wr_flush_counter.counter + df ∧
      t.receiver_channel_pointers.completion_counter.counter =
        s.receiver_channel_pointers.completion_counter.counter + dc ∧
      (cfg.ENABLE_FIRST_LEVEL_ACK = false → da = 0) ∧
      (ds = 1 → cfg.ENABLE_FIRST_LEVEL_ACK = true →
        s.receiver_channel_pointers.wr_sent_counter.counter ≠
          s.receiver_channel_pointers.ack_counter.counter + da) ∧
      (df = 1 → cfg.fuse_receiver_flush_and_completion_ptr = false ∧
        s.receiver_channel_pointers.wr_flush_counter.counter ≠
          s.receiver_channel_pointers.wr_sent_counter.counter + ds) ∧
      (dc = 1 → cfg.fuse_receiver_flush_and_completion_ptr = false →
        s.receiver_channel_pointers.completion_counter.counter ≠
          s.receiver_channel_pointers.wr_flush_counter.counter + df) ∧
      (dc = 1 → cfg.fuse_receiver_flush_and_completion_ptr = true →
        s.receiver_channel_pointers.completion_counter.counter ≠
          s.receiver_channel_pointers.wr_sent_counter.counter + ds) := by
  intro t
  obtain ⟨a1, a2, a3, -, a5, a6, a7, -⟩ := receiver_step_ack_effect cfg inp s
  generalize hs1 : receiver_step_ack cfg inp s = s1 at a1 a2 a3 a5 a6 a7
  generalize hu : receiver_unwritten_packets cfg s.to_receiver_pkts_sent s1 = u
  have F := receiver_step_forward_effect cfg inp s1 u
  simp only [] at F
  obtain ⟨f1, f2, f3, f4, -, -, -⟩ := F
  generalize hs2 : receiver_step_forward cfg inp u s1 = s2 at f1 f2 f3 f4
  have f4c := congrArg ChannelCounter.counter f4
  rw [ChannelCounter.ite_increment_counter] at f4c
  have hadm : (u && can_send_to_all_local_chip_receivers cfg inp) = true →
      cfg.ENABLE_FIRST_LEVEL_ACK = true →
      s1.receiver_channel_pointers.wr_sent_counter.counter ≠
        s1.receiver_channel_pointers.ack_counter.counter := by
    intro h hf
    have hu' : u = true := by
      cases u
      · simp at h
      · rfl
    rw [← hu, receiver_unwritten_packets, if_pos hf] at hu'
    simpa [ChannelCounter.is_caught_up_to] using hu'
  have ht : t = if (!cfg.fuse_receiver_flush_and_completion_ptr) = true then
      receiver_step_completion cfg inp (receiver_step_flush cfg inp s2)
    else receiver_step_fused_completion cfg inp s2 := by
    simp only [t, run_receiver_channel_step_impl, hs1, hu, hs2]
  generalize hadmb : (u && can_send_to_all_local_chip_receivers cfg inp) = adm at f4c hadm
  have hds : (if adm = true then 1 else 0) = 1 → adm = true := ite_one_eq_one adm
  have hds1 : (if adm = true then 1 else 0) ≤ 1 := ite_one_le_one adm
  rcases Bool.eq_false_or_eq_true cfg.fuse_receiver_flush_and_completion_ptr with hfuse | hfuse
  · -- fused
    rw [if_neg (by simp [hfuse])] at ht
    have U := receiver_step_fused_completion_effect cfg inp s2
    simp only [] at U
    obtain ⟨u1, u2, u3, -, u5, -, -, -⟩ := U
    rw [← ht] at u1 u2 u3 u5
    have u5c := congrArg ChannelCounter.counter u5
    rw [ChannelCounter.ite_increment_counter] at u5c
    generalize hcu : (!s2.receiver_channel_pointers.completion_counter.is_caught_up_to
          s2.receiver_channel_pointers.wr_sent_counter && inp.next_trid_flushed &&
        (cfg.ETH_TXQ_SPIN_WAIT_RECEIVER_SEND_COMPLETION_ACK ||
          !inp.eth_txq_is_busy_at_completion)) = cu at u5c
    have hdc1 : (if cu = true then 1 else 0) ≤ 1 := ite_one_le_one cu
    refine ⟨s1.receiver_channel_pointers.ack_counter.counter -
        s.receiver_channel_pointers.ack_counter.counter,
      (if adm = true then 1 else 0), 0, (if cu = true then 1 else 0),
      by omega, hds1, by omega, hdc1, ?_, ?_, ?_, ?_, ?_, ?_, ?_, ?_, ?_⟩
    · rw [u1, f1]; omega
    · rw [u2, f4c, a1]
    · rw [u3, f2, a2, Nat.add_zero]
    · rw [u5c, f3, a3]
    · intro hf; rw [a7 hf]; omega
    · intro h1 hf
      have hadm' := hadm (hds h1) hf
      rw [a1] at hadm'
      omega
    · intro h; omega
    · intro _ h; rw [hfuse] at h; exact absurd h (by decide)
    · intro h1 _
      have hcu' : cu = true := ite_one_eq_one cu h1
      rw [hcu'] at hcu
      simp only [Bool.and_eq_true, Bool.not_eq_true', ChannelCounter.is_caught_up_to,
        decide_eq_false_iff_not] at hcu
      rw [f3, a3, f4c, a1] at hcu
      exact hcu.1.1
  · -- separate flush and completion pointers
    rw [if_pos (by simp [hfuse])] at ht
    have L := receiver_step_flush_effect cfg inp s2
    simp only [] at L
    obtain ⟨l1, l2, l3, -, l5, -, -, -⟩ := L
    generalize hs3 : receiver_step_flush cfg inp s2 = s3 at l1 l2 l3 l5 ht
    have l5c := congrArg ChannelCounter.counter l5
    rw [ChannelCounter.ite_increment_counter] at l5c
    generalize hfl : (!s2.receiver_channel_pointers.wr_flush_counter.is_caught_up_to
          s2.receiver_channel_pointers.wr_sent_counter && inp.next_trid_flushed) = fl at l5c
    have C := receiver_step_completion_effect cfg inp s3
    simp only [] at C
    obtain ⟨c1, c2, c3, -, c5, -, -, -⟩ := C
    rw [← ht] at c1 c2 c3 c5
    have c5c := congrArg ChannelCounter.counter c5
    rw [ChannelCounter.ite_increment_counter] at c5c
    generalize hcu : (!ChannelCounter.is_caught_up_to_pair
          s3.receiver_channel_pointers.completion_counter
          s3.receiver_channel_pointers.wr_flush_counter &&
        (cfg.ETH_TXQ_SPIN_WAIT_RECEIVER_SEND_COMPLETION_ACK ||
          !inp.eth_txq_is_busy_at_completion)) = cu at c5c
    have hdf1 : (if fl = true then 1 else 0) ≤ 1 := ite_one_le_one fl
    have hdc1 : (if cu = true then 1 else 0) ≤ 1 := ite_one_le_one cu
    refine ⟨s1.receiver_channel_pointers.ack_counter.counter -
        s.receiver_channel_pointers.ack_counter.counter,
      (if adm = true then 1 else 0), (if fl = true then 1 else 0), (if cu = true then 1 else 0),
      by omega, hds1, hdf1, hdc1, ?_, ?_, ?_, ?_, ?_, ?_, ?_, ?_, ?_⟩
    · rw [c1, l1, f1]; omega
    · rw [c2, l2, f4c, a1]
    · rw [c3, l5c, f2, a2]
    · rw [c5c, l3, f3, a3]
    · intro hf; rw [a7 hf]; omega
    · intro h1 hf
      have hadm' := hadm (hds h1) hf
      rw [a1] at hadm'
      omega
    · intro h1
      have hfl' : fl = true := ite_one_eq_one fl h1
      rw [hfl'] at hfl
      simp only [Bool.and_eq_true, Bool.not_eq_true', ChannelCounter.is_caught_up_to,
        decide_eq_false_iff_not] at hfl
      rw [f2, a2, f4c, a1] at hfl
      exact ⟨hfuse, hfl.1⟩
    · intro h1 _
      have hcu' : cu = true := ite_one_eq_one cu h1
      rw [hcu'] at hcu
      simp only [Bool.and_eq_true, Bool.not_eq_true', ChannelCounter.is_caught_up_to_pair,
        decide_eq_false_iff_not] at hcu
      rw [l3, f3, a3, l5c, f2, a2] at hcu
      exact hcu.1
    · intro _ h; rw [hfuse] at h; exact absurd h (by decide)

end ReceiverChain

section ReceiverChainMain

variable (cfg : RouterConfig)

theorem chain_inv_step (inp : ReceiverStepInput) (s : ReceiverStepState)
    (h : s.ChainInv cfg) : (run_receiver_channel_step_impl cfg inp s).ChainInv cfg := by
  obtain ⟨da, ds, df, dc, h1, h2, h3, h4, e1, e2, e3, e4, p1, p2, p3, p4, p5⟩ :=
    receiver_step_counters cfg inp s
  obtain ⟨i1, i2, i3, i4⟩ := h
  refine ⟨?_, ?_, ?_, ?_⟩
  · rw [e2, e3]
    by_cases hd : df = 1
    · have := p3 hd; omega
    · omega
  · rw [e2, e4]
    by_cases hd : dc = 1
    · rcases Bool.eq_false_or_eq_true cfg.fuse_receiver_flush_and_completion_ptr with hf | hf
      · have := p5 hd hf; omega
      · have := p4 hd hf
        have := i3 hf
        by_cases hd2 : df = 1
        · have := p3 hd2; omega
        · omega
    · omega
  · intro hf
    rw [e3, e4]
    have := i3 hf
    by_cases hd : dc = 1
    · have := p4 hd hf; omega
    · omega
  · intro hf
    rw [e1, e2]
    have := i4 hf
    by_cases hd : ds = 1
    · have := p2 hd hf; omega
    · omega

theorem chain_inv_reachable (s : ReceiverStepState)
    (h : ReceiverStepState.Reachable cfg s) : s.ChainInv cfg := by
  induction h with
  | reset ids => exact ⟨le_refl _, le_refl _, fun _ => le_refl _, fun _ => le_refl _⟩
  | arrive s n _ ih => exact ih
  | step s inp _ ih => exact chain_inv_step cfg inp s ih

/-- C2. Receiver-side pointer chain: in every state reachable from reset by packets-sent
credit arrivals and calls of `run_receiver_channel_step_impl` with arbitrary inputs,
write-flush <= write-sent and completion <= write-sent; when flush and completion are separate
pointers completion <= write-flush; when first-level ack is enabled write-sent <= ack.  From
any state one step leaves each of the four counters where it was or advances it by one. -/
theorem receiver_pointer_chain (cfg : RouterConfig) (inp : ReceiverStepInput)
    (s : ReceiverStepState) :
    (ReceiverStepState.Reachable cfg s →
      s.receiver_channel_pointers.wr_flush_counter.counter ≤
          s.receiver_channel_pointers.wr_sent_counter.counter ∧
      s.receiver_channel_pointers.completion_counter.counter ≤
          s.receiver_channel_pointers.wr_sent_counter.counter ∧
      (cfg.fuse_receiver_flush_and_completion_ptr = false →
        s.receiver_channel_pointers.completion_counter.counter ≤
          s.receiver_channel_pointers.wr_flush_counter.counter) ∧
      (cfg.ENABLE_FIRST_LEVEL_ACK = true →
        s.receiver_channel_pointers.wr_sent_counter.counter ≤
          s.receiver_channel_pointers.ack_counter.counter)) ∧
    ((run_receiver_channel_step_impl cfg inp s).receiver_channel_pointers.ack_counter.counter =
        s.receiver_channel_pointers.ack_counter.counter ∨
      (run_receiver_channel_step_impl cfg inp s).receiver_channel_pointers.ack_counter.counter =
        s.receiver_channel_pointers.ack_counter.counter + 1) ∧
    ((run_receiver_channel_step_impl cfg inp s).receiver_channel_pointers.wr_sent_counter.counter
        = s.receiver_channel_pointers.wr_sent_counter.counter ∨
      (run_receiver_channel_step_impl cfg inp s).receiver_channel_pointers.wr_sent_counter.counter
        = s.receiver_channel_pointers.wr_sent_counter.counter + 1) ∧
    ((run_receiver_channel_step_impl cfg inp s).receiver_channel_pointers.wr_flush_counter.counter
        = s.receiver_channel_pointers.wr_flush_counter.counter ∨
      (run_receiver_channel_step_impl cfg inp s).receiver_channel_pointers.wr_flush_counter.counter
        = s.receiver_channel_pointers.wr_flush_counter.counter + 1) ∧
    ((run_receiver_channel_step_impl cfg inp
          s).receiver_channel_pointers.completion_counter.counter =
        s.receiver_channel_pointers.completion_counter.counter ∨
      (run_receiver_channel_step_impl cfg inp
          s).receiver_channel_pointers.completion_counter.counter =
        s.receiver_channel_pointers.completion_counter.counter + 1) := by
  refine ⟨fun h => chain_inv_reachable cfg s h, ?_⟩
  obtain ⟨da, ds, df, dc, h1, h2, h3, h4, e1, e2, e3, e4, -⟩ :=
    receiver_step_counters cfg inp s
  refine ⟨?_, ?_, ?_, ?_⟩ <;> omega

/-- The sample mesh receiver after two arrivals and one admitting step is reachable. -/
theorem sample_receiver_reachable :
    ReceiverStepState.Reachable RouterConfig.sample_mesh
      (run_receiver_channel_step_impl RouterConfig.sample_mesh ReceiverStepInput.sample_open
        ReceiverStepState.sample_two_arrived) :=
  ReceiverStepState.Reachable.step _ _
    (ReceiverStepState.Reachable.arrive _ 2 (ReceiverStepState.Reachable.reset _))

/-- Witness of C2: the sample mesh receiver after two arrivals and one admitting step. -/
theorem receiver_pointer_chain_witness :
    ReceiverStepState.Reachable RouterConfig.sample_mesh
      (run_receiver_channel_step_impl RouterConfig.sample_mesh ReceiverStepInput.sample_open
        ReceiverStepState.sample_two_arrived) ∧
    (run_receiver_channel_step_impl RouterConfig.sample_mesh ReceiverStepInput.sample_open
        ReceiverStepState.sample_two_arrived).receiver_channel_pointers.completion_counter.counter ≤
      (run_receiver_channel_step_impl RouterConfig.sample_mesh ReceiverStepInput.sample_open
        ReceiverStepState.sample_two_arrived).receiver_channel_pointers.wr_sent_counter.counter :=
  ⟨sample_receiver_reachable,
    ((receiver_pointer_chain RouterConfig.sample_mesh ReceiverStepInput.sample_open
      (run_receiver_channel_step_impl RouterConfig.sample_mesh ReceiverStepInput.sample_open
        ReceiverStepState.sample_two_arrived)).1 sample_receiver_reachable).2.1⟩

end ReceiverChainMain

/-! ## Receiver step: admission and backpressure -/

section MeshAdmission

theorem forall_direction (P : eth_chan_directions → Prop) :
    (∀ x, P x) ↔ P eth_chan_directions.EAST ∧ P eth_chan_directions.WEST ∧
      P eth_chan_directions.NORTH ∧ P eth_chan_directions.SOUTH := by
  constructor
  · intro h; exact ⟨h _, h _, h _, h _⟩
  · rintro ⟨h1, h2, h3, h4⟩ x
    cases x <;> assumption

/-- The mesh admission test holds exactly when every direction of the hop command passes
`check_downstream_has_space`. -/
theorem can_forward_packet_completely_2d_iff (udm_mode : Bool) (d : eth_chan_directions)
    (hop_cmd : Nat) (hs : Nat → Bool) (relay : Bool) (h0 : hop_cmd ≠ 0) (h16 : hop_cmd < 16) :
    can_forward_packet_completely_2d udm_mode d hop_cmd hs relay = true ↔
      ∀ x, hop_cmd_has_direction hop_cmd x = true →
        check_downstream_has_space udm_mode d x hs relay = true := by
  rw [forall_direction]
  interval_cases hop_cmd <;>
    simp [can_forward_packet_completely_2d, hop_cmd_has_direction, eth_chan_directions.toNat,
      LowLatencyMeshRoutingFields.NOOP, LowLatencyMeshRoutingFields.FORWARD_EAST,
      LowLatencyMeshRoutingFields.FORWARD_WEST, LowLatencyMeshRoutingFields.WRITE_AND_FORWARD_EW,
      LowLatencyMeshRoutingFields.FORWARD_NORTH, LowLatencyMeshRoutingFields.FORWARD_SOUTH,
      LowLatencyMeshRoutingFields.WRITE_AND_FORWARD_NS,
      LowLatencyMeshRoutingFields.WRITE_AND_FORWARD_NSEW,
      LowLatencyMeshRoutingFields.WRITE_AND_FORWARD_NSE,
      LowLatencyMeshRoutingFields.WRITE_AND_FORWARD_NSW,
      LowLatencyMeshRoutingFields.WRITE_AND_FORWARD_SEW,
      LowLatencyMeshRoutingFields.WRITE_AND_FORWARD_NEW,
      LowLatencyMeshRoutingFields.WRITE_AND_FORWARD_SE,
      LowLatencyMeshRoutingFields.WRITE_AND_FORWARD_SW,
      LowLatencyMeshRoutingFields.WRITE_AND_FORWARD_NE,
      LowLatencyMeshRoutingFields.WRITE_AND_FORWARD_NW] <;> tauto

end MeshAdmission

section ReceiverForwarding

variable (cfg : RouterConfig) (inp : ReceiverStepInput) (s : ReceiverStepState)

theorem filter_forward_map (slot : Nat) (l : List ForwardAction) :
    (l.map (ReceiverEvent.receiver_forward_packet slot)).filter ReceiverEvent.is_forward_event =
      l.map (ReceiverEvent.receiver_forward_packet slot) := by
  induction l with
  | nil => rfl
  | cons a l ih => simp [List.filter, ReceiverEvent.is_forward_event, ih]

/-- What a whole receiver step does to the write-sent pointer, the packets-sent register and
the flag `did_something`, and which forwards and local deliveries it logs; `admitted` is the
conjunction of `unwritten_packets` and `can_send_to_all_local_chip_receivers`. -/
theorem receiver_step_forwarding :
    let t := run_receiver_channel_step_impl cfg inp s
    let admitted := receiver_unwritten_packets cfg s.to_receiver_pkts_sent
        (receiver_step_ack cfg inp s) && can_send_to_all_local_chip_receivers cfg inp
    t.receiver_channel_pointers.wr_sent_counter =
      (if admitted then
        s.receiver_channel_pointers.wr_sent_counter.increment cfg.RECEIVER_NUM_BUFFERS
      else s.receiver_channel_pointers.wr_sent_counter) ∧
    t.to_receiver_pkts_sent =
      (if admitted && !cfg.ENABLE_FIRST_LEVEL_ACK then
        (receiver_step_ack cfg inp s).to_receiver_pkts_sent - 1
      else (receiver_step_ack cfg inp s).to_receiver_pkts_sent) ∧
    t.did_something = (s.did_something || admitted) ∧
    t.receiver_channel_pointers.ack_counter =
      (receiver_step_ack cfg inp s).receiver_channel_pointers.ack_counter ∧
    ∃ appended, t.log = s.log ++ appended ∧
      appended.filter ReceiverEvent.is_forward_event =
        (if admitted then
          (receiver_forward_actions cfg inp).map
            (ReceiverEvent.receiver_forward_packet
              s.receiver_channel_pointers.wr_sent_counter.get_buffer_index)
        else []) := by
  intro t admitted
  obtain ⟨a1, -, -, a4, -, -, -, l1, hl1, hf1⟩ := receiver_step_ack_effect cfg inp s
  have F := receiver_step_forward_effect cfg inp (receiver_step_ack cfg inp s)
    (receiver_unwritten_packets cfg s.to_receiver_pkts_sent (receiver_step_ack cfg inp s))
  simp only [] at F
  obtain ⟨f1, -, -, f4, f5, f6, f7⟩ := F
  rw [a1] at f4 f7
  rw [a4] at f6
  rw [hl1] at f7
  generalize hs2 : receiver_step_forward cfg inp
    (receiver_unwritten_packets cfg s.to_receiver_pkts_sent (receiver_step_ack cfg inp s))
    (receiver_step_ack cfg inp s) = s2 at f1 f4 f5 f6 f7
  have hfwd : (if admitted = true then
        ReceiverEvent.update_buffer_slot_to_next_trid_and_advance_trid_counter
            s.receiver_channel_pointers.wr_sent_counter.get_buffer_index ::
          (receiver_forward_actions cfg inp).map
            (ReceiverEvent.receiver_forward_packet
              s.receiver_channel_pointers.wr_sent_counter.get_buffer_index)
      else []).filter ReceiverEvent.is_forward_event =
      (if admitted = true then
          (receiver_forward_actions cfg inp).map
            (ReceiverEvent.receiver_forward_packet
              s.receiver_channel_pointers.wr_sent_counter.get_buffer_index)
        else []) := by
    split_ifs
    · rw [List.filter_cons_of_neg (by simp [ReceiverEvent.is_forward_event]), filter_forward_map]
    · rfl
  have ht : t = if (!cfg.fuse_receiver_flush_and_completion_ptr) = true then
      receiver_step_completion cfg inp (receiver_step_flush cfg inp s2)
    else receiver_step_fused_completion cfg inp s2 := by
    simp only [t, run_receiver_channel_step_impl, hs2]
  generalize hFW : (if admitted = true then
        ReceiverEvent.update_buffer_slot_to_next_trid_and_advance_trid_counter
            s.receiver_channel_pointers.wr_sent_counter.get_buffer_index ::
          (receiver_forward_actions cfg inp).map
            (ReceiverEvent.receiver_forward_packet
              s.receiver_channel_pointers.wr_sent_counter.get_buffer_index)
      else []) = FW at hfwd
  have f7' : s2.log = s.log ++ l1 ++ FW := by rw [f7, ← hFW]
  rcases Bool.eq_false_or_eq_true cfg.fuse_receiver_flush_and_completion_ptr with hfuse | hfuse
  · rw [if_neg (by simp [hfuse])] at ht
    have U := receiver_step_fused_completion_effect cfg inp s2
    simp only [] at U
    obtain ⟨u1, u2, -, -, -, u6, u7, u8⟩ := U
    rw [← ht] at u1 u2 u6 u7 u8
    have hX : ∃ X, t.log = s2.log ++ X ∧ X.filter ReceiverEvent.is_forward_event = [] :=
      ⟨_, u8, by split_ifs <;> rfl⟩
    obtain ⟨X, hX1, hX2⟩ := hX
    refine ⟨u2.trans f4, u6.trans f5, u7.trans f6, u1.trans f1, l1 ++ FW ++ X, ?_, ?_⟩
    · rw [hX1, f7', List.append_assoc, List.append_assoc, List.append_assoc]
    · rw [List.filter_append, List.filter_append, hf1, hfwd, hX2]
      simp
  · rw [if_pos (by simp [hfuse])] at ht
    have L := receiver_step_flush_effect cfg inp s2
    simp only [] at L
    obtain ⟨l1', l2, -, -, -, l6, l7, l8⟩ := L
    have hY : ∃ Y, (receiver_step_flush cfg inp s2).log = s2.log ++ Y ∧
        Y.filter ReceiverEvent.is_forward_event = [] :=
      ⟨_, l8, by split_ifs <;> rfl⟩
    obtain ⟨Y, hY1, hY2⟩ := hY
    generalize hs3 : receiver_step_flush cfg inp s2 = s3 at l1' l2 l6 l7 hY1 ht
    have C := receiver_step_completion_effect cfg inp s3
    simp only [] at C
    obtain ⟨c1, c2, -, -, -, c6, c7, c8⟩ := C
    rw [← ht] at c1 c2 c6 c7 c8
    have hX : ∃ X, t.log = s3.log ++ X ∧ X.filter ReceiverEvent.is_forward_event = [] :=
      ⟨_, c8, by split_ifs <;> rfl⟩
    obtain ⟨X, hX1, hX2⟩ := hX
    refine ⟨(c2.trans l2).trans f4, (c6.trans l6).trans f5, (c7.trans l7).trans f6,
      (c1.trans l1').trans f1, l1 ++ FW ++ Y ++ X, ?_, ?_⟩
    · rw [hX1, hY1, f7']
      simp only [List.append_assoc]
    · rw [List.filter_append, List.filter_append, List.filter_append, hf1, hfwd, hY2, hX2]
      simp

end ReceiverForwarding

section AdmissionCheck

variable (cfg : RouterConfig) (inp : ReceiverStepInput) (s : ReceiverStepState)

theorem can_send_to_all_iff :
    can_send_to_all_local_chip_receivers cfg inp = true ↔
      (can_forward_packet_completely_result cfg inp = true ∧
      (cfg.enable_trid_flush_check_on_noc_txn = true → inp.trid_flushed = true)) := by
  unfold can_send_to_all_local_chip_receivers
  simp only []
  cases cfg.enable_trid_flush_check_on_noc_txn <;> simp

/-- C5. Admission check: a receiver step advances the write-sent pointer, or logs a forward
or a local delivery, only if `can_forward_packet_completely` returned true for the packet at
the write-sent slot and, when `enable_trid_flush_check_on_noc_txn` is set, the slot's previous
transaction is flushed; if either condition fails, write-sent is unchanged and no forward or
local delivery is logged.  In mesh mode, for a hop command from 1 to 15,
`can_forward_packet_completely` is true exactly when every direction of the command other
than the router's own has free space behind its downstream interface and, in UDM mode with the
own direction in the command, the local relay has free space; in linear mode it is true
exactly when the packet is deliver-locally-only or the downstream interface has free space. -/
theorem receiver_admission_check (cfg : RouterConfig) (inp : ReceiverStepInput)
    (s : ReceiverStepState) :
    (∃ appended, (run_receiver_channel_step_impl cfg inp s).log = s.log ++ appended ∧
      (appended.filter ReceiverEvent.is_forward_event ≠ [] →
        can_forward_packet_completely_result cfg inp = true ∧
        (cfg.enable_trid_flush_check_on_noc_txn = true → inp.trid_flushed = true)) ∧
      (¬(can_forward_packet_completely_result cfg inp = true ∧
          (cfg.enable_trid_flush_check_on_noc_txn = true → inp.trid_flushed = true)) →
        appended.filter ReceiverEvent.is_forward_event = [])) ∧
    ((run_receiver_channel_step_impl cfg inp s).receiver_channel_pointers.wr_sent_counter ≠
        s.receiver_channel_pointers.wr_sent_counter →
      can_forward_packet_completely_result cfg inp = true ∧
      (cfg.enable_trid_flush_check_on_noc_txn = true → inp.trid_flushed = true)) ∧
    (¬(can_forward_packet_completely_result cfg inp = true ∧
        (cfg.enable_trid_flush_check_on_noc_txn = true → inp.trid_flushed = true)) →
      (run_receiver_channel_step_impl cfg inp s).receiver_channel_pointers.wr_sent_counter =
        s.receiver_channel_pointers.wr_sent_counter) ∧
    (cfg.is_2d_fabric = true → inp.hop_cmd ≠ 0 → inp.hop_cmd < 16 →
      (can_forward_packet_completely_result cfg inp = true ↔
        (∀ x, hop_cmd_has_direction inp.hop_cmd x = true → x ≠ cfg.my_direction →
          inp.downstream_has_space
            (get_downstream_edm_interface_index cfg.my_direction x) = true) ∧
        (cfg.udm_mode = true → hop_cmd_has_direction inp.hop_cmd cfg.my_direction = true →
          inp.local_relay_has_space = true))) ∧
    (cfg.is_2d_fabric = false →
      (can_forward_packet_completely_result cfg inp = true ↔
        ((if cfg.low_latency_routing_fields then
            (inp.cached_routing_fields_value &&& cfg.FIELD_MASK) = cfg.WRITE_ONLY
          else inp.cached_routing_fields_value = cfg.LAST_MCAST_VAL) ∨
        inp.downstream_has_space cfg.receiver_channel = true))) := by
  obtain ⟨h1, -, -, -, appended, hlog, hfw⟩ := receiver_step_forwarding cfg inp s
  have hiff := can_send_to_all_iff cfg inp
  generalize hadm : (receiver_unwritten_packets cfg s.to_receiver_pkts_sent
        (receiver_step_ack cfg inp s) && can_send_to_all_local_chip_receivers cfg inp) = adm
    at h1 hfw
  have hcond : adm = true → can_forward_packet_completely_result cfg inp = true ∧
      (cfg.enable_trid_flush_check_on_noc_txn = true → inp.trid_flushed = true) := by
    intro h
    rw [← hadm, Bool.and_eq_true] at h
    exact hiff.1 h.2
  have hnot : ¬(can_forward_packet_completely_result cfg inp = true ∧
      (cfg.enable_trid_flush_check_on_noc_txn = true → inp.trid_flushed = true)) →
      adm = false := by
    intro h
    cases hadm' : adm
    · rfl
    · exact absurd (hcond hadm') h
  refine ⟨⟨appended, hlog, ?_, ?_⟩, ?_, ?_, ?_, ?_⟩
  · intro hne
    apply hcond
    cases hadm' : adm
    · rw [hadm'] at hfw; exact absurd hfw hne
    · rfl
  · intro h
    rw [hfw, hnot h]; rfl
  · intro hne
    apply hcond
    cases hadm' : adm
    · rw [hadm'] at h1; exact absurd h1 hne
    · rfl
  · intro h
    rw [h1, hnot h]; rfl
  · intro h2d h0 h16
    simp only [can_forward_packet_completely_result, h2d, if_true]
    rw [can_forward_packet_completely_2d_iff _ _ _ _ _ h0 h16]
    constructor
    · intro h
      refine ⟨fun x hx hne => ?_, fun hudm hx => ?_⟩
      · have := h x hx
        simpa [check_downstream_has_space, hne] using this
      · have := h cfg.my_direction hx
        simpa [check_downstream_has_space, hudm] using this
    · rintro ⟨ha, hb⟩ x hx
      by_cases hxd : x = cfg.my_direction
      · subst hxd
        rcases Bool.eq_false_or_eq_true cfg.udm_mode with hu | hu
        · simp [check_downstream_has_space, hu, hb hu hx]
        · simp [check_downstream_has_space, hu]
      · simp [check_downstream_has_space, hxd, ha x hx hxd]
  · intro h2d
    simp only [can_forward_packet_completely_result, h2d, Bool.false_eq_true, if_false,
      can_forward_packet_completely]
    cases cfg.low_latency_routing_fields <;> simp

/-- Witness of C5: the sample mesh receiver polled while its downstream target is full. -/
theorem receiver_admission_check_witness :
    ¬(can_forward_packet_completely_result RouterConfig.sample_mesh
          ReceiverStepInput.sample_blocked = true ∧
      (RouterConfig.sample_mesh.enable_trid_flush_check_on_noc_txn = true →
        ReceiverStepInput.sample_blocked.trid_flushed = true)) ∧
    (run_receiver_channel_step_impl RouterConfig.sample_mesh ReceiverStepInput.sample_blocked
      ReceiverStepState.sample_two_arrived).receiver_channel_pointers.wr_sent_counter =
      ReceiverStepState.sample_two_arrived.receiver_channel_pointers.wr_sent_counter :=
  ⟨by decide,
    (receiver_admission_check RouterConfig.sample_mesh ReceiverStepInput.sample_blocked
      ReceiverStepState.sample_two_arrived).2.2.1 (by decide)⟩

end AdmissionCheck

section Backpressure

variable (cfg : RouterConfig) (inp : ReceiverStepInput) (s : ReceiverStepState)

/-- A packet whose required downstream target is full is not admitted. -/
theorem blocked_not_admitted (hb : DownstreamBlocked cfg inp) :
    can_send_to_all_local_chip_receivers cfg inp = false := by
  have hiff := can_send_to_all_iff cfg inp
  cases hc : can_send_to_all_local_chip_receivers cfg inp
  · rfl
  · exfalso
    obtain ⟨h1, -⟩ := hiff.1 hc
    unfold can_forward_packet_completely_result at h1
    unfold DownstreamBlocked at hb
    rcases Bool.eq_false_or_eq_true cfg.is_2d_fabric with h2d | h2d
    · rw [if_pos h2d] at hb h1
      obtain ⟨h16, x, hx1, hx2, hx3⟩ := hb
      have h0 : inp.hop_cmd ≠ 0 := by
        intro h0
        rw [h0] at hx2
        cases x <;> simp [hop_cmd_has_direction, eth_chan_directions.toNat] at hx2
      have := (can_forward_packet_completely_2d_iff _ _ _ _ _ h0 h16).1 h1 x hx2
      simp [check_downstream_has_space, hx1, hx3] at this
    · rw [if_neg (by simp [h2d])] at hb h1
      obtain ⟨hb1, hb2⟩ := hb
      simp only [can_forward_packet_completely, hb2, Bool.or_false, decide_eq_true_eq] at h1
      split_ifs at h1 hb1 <;> exact hb1 (of_decide_eq_true h1)

/-- One poll of a receiver channel whose packet at the write-sent slot is not admitted. -/
theorem receiver_step_not_admitted
    (hb : can_send_to_all_local_chip_receivers cfg inp = false) :
    let t := run_receiver_channel_step_impl cfg inp s
    t.receiver_channel_pointers.wr_sent_counter = s.receiver_channel_pointers.wr_sent_counter ∧
    (∃ appended, t.log = s.log ++ appended ∧
      appended.filter ReceiverEvent.is_forward_event = []) ∧
    (cfg.ENABLE_FIRST_LEVEL_ACK = false →
      t.to_receiver_pkts_sent = s.to_receiver_pkts_sent ∧
      t.receiver_channel_pointers.ack_counter = s.receiver_channel_pointers.ack_counter) ∧
    (cfg.ENABLE_FIRST_LEVEL_ACK = false → s.CaughtUp cfg →
      t.receiver_channel_pointers.wr_flush_counter =
        s.receiver_channel_pointers.wr_flush_counter ∧
      t.receiver_channel_pointers.completion_counter =
        s.receiver_channel_pointers.completion_counter ∧
      t.log = s.log ∧ t.did_something = s.did_something) := by
  intro t
  obtain ⟨h1, h2, h3, h4, appended, hlog, hfw⟩ := receiver_step_forwarding cfg inp s
  simp only [hb, Bool.and_false, Bool.false_eq_true, if_false, Bool.false_and,
    Bool.or_false] at h1 h2 h3 h4 hfw
  obtain ⟨-, -, -, -, -, -, a7, -⟩ := receiver_step_ack_effect cfg inp s
  refine ⟨h1, ⟨appended, hlog, hfw⟩, fun hf => ?_, fun hf hcu => ?_⟩
  · rw [a7 hf] at h2 h4
    exact ⟨h2, h4⟩
  · have F := receiver_step_forward_effect cfg inp s
      (receiver_unwritten_packets cfg s.to_receiver_pkts_sent s)
    simp only [hb, Bool.and_false, Bool.false_eq_true, if_false, List.append_nil] at F
    obtain ⟨-, f2, f3, f4, -, -, f7⟩ := F
    have ht : t = if (!cfg.fuse_receiver_flush_and_completion_ptr) = true then
        receiver_step_completion cfg inp (receiver_step_flush cfg inp
          (receiver_step_forward cfg inp
            (receiver_unwritten_packets cfg s.to_receiver_pkts_sent s) s))
      else receiver_step_fused_completion cfg inp
        (receiver_step_forward cfg inp
          (receiver_unwritten_packets cfg s.to_receiver_pkts_sent s) s) := by
      simp only [t, run_receiver_channel_step_impl, a7 hf]
    generalize receiver_step_forward cfg inp
      (receiver_unwritten_packets cfg s.to_receiver_pkts_sent s) s = s2 at f2 f3 f4 f7 ht
    obtain ⟨cu1, cu2⟩ := hcu
    rcases Bool.eq_false_or_eq_true cfg.fuse_receiver_flush_and_completion_ptr with hfuse | hfuse
    · rw [if_neg (by simp [hfuse])] at ht
      have U := receiver_step_fused_completion_effect cfg inp s2
      have hno : s2.receiver_channel_pointers.completion_counter.is_caught_up_to
          s2.receiver_channel_pointers.wr_sent_counter = true := by
        simp [ChannelCounter.is_caught_up_to, f3, f4, cu1]
      simp only [hno, Bool.not_true, Bool.false_and, Bool.false_eq_true, if_false,
        List.append_nil] at U
      obtain ⟨-, -, u3, -, u5, -, -, u8⟩ := U
      rw [← ht] at u3 u5 u8
      exact ⟨u3.trans f2, u5.trans f3, u8.trans f7, h3⟩
    · rw [if_pos (by simp [hfuse])] at ht
      have L := receiver_step_flush_effect cfg inp s2
      have hno : s2.receiver_channel_pointers.wr_flush_counter.is_caught_up_to
          s2.receiver_channel_pointers.wr_sent_counter = true := by
        simp [ChannelCounter.is_caught_up_to, f2, f4, cu2 hfuse]
      simp only [hno, Bool.not_true, Bool.false_and, Bool.false_eq_true, if_false,
        List.append_nil] at L
      obtain ⟨-, -, l3, -, l5, -, -, l8⟩ := L
      generalize receiver_step_flush cfg inp s2 = s3 at l3 l5 l8 ht
      have C := receiver_step_completion_effect cfg inp s3
      have hno2 : ChannelCounter.is_caught_up_to_pair s3.receiver_channel_pointers.completion_counter
          s3.receiver_channel_pointers.wr_flush_counter = true := by
        simp [ChannelCounter.is_caught_up_to_pair, l3, l5, f2, f3, cu1, cu2 hfuse]
      simp only [hno2, Bool.not_true, Bool.false_and, Bool.false_eq_true, if_false,
        List.append_nil] at C
      obtain ⟨-, -, c3, -, c5, -, -, c8⟩ := C
      rw [← ht] at c3 c5 c8
      exact ⟨(c3.trans l5).trans f2, (c5.trans l3).trans f3, (c8.trans l8).trans f7, h3⟩

end Backpressure

section BackpressureMain

variable (cfg : RouterConfig) (inp : ReceiverStepInput)

theorem receiver_poll_not_admitted
    (hb : can_send_to_all_local_chip_receivers cfg inp = false) (n : Nat) :
    ∀ s : ReceiverStepState,
    (receiver_poll cfg inp n s).receiver_channel_pointers.wr_sent_counter =
      s.receiver_channel_pointers.wr_sent_counter ∧
    (∃ appended, (receiver_poll cfg inp n s).log = s.log ++ appended ∧
      appended.filter ReceiverEvent.is_forward_event = []) ∧
    (cfg.ENABLE_FIRST_LEVEL_ACK = false →
      (receiver_poll cfg inp n s).to_receiver_pkts_sent = s.to_receiver_pkts_sent ∧
      (receiver_poll cfg inp n s).receiver_channel_pointers.ack_counter =
        s.receiver_channel_pointers.ack_counter) ∧
    (cfg.ENABLE_FIRST_LEVEL_ACK = false → s.CaughtUp cfg →
      (receiver_poll cfg inp n s).receiver_channel_pointers.wr_flush_counter =
        s.receiver_channel_pointers.wr_flush_counter ∧
      (receiver_poll cfg inp n s).receiver_channel_pointers.completion_counter =
        s.receiver_channel_pointers.completion_counter ∧
      (receiver_poll cfg inp n s).log = s.log ∧
      (receiver_poll cfg inp n s).did_something = s.did_something) := by
  induction n with
  | zero =>
    intro s
    exact ⟨rfl, ⟨[], by simp [receiver_poll], rfl⟩, fun _ => ⟨rfl, rfl⟩,
      fun _ _ => ⟨rfl, rfl, rfl, rfl⟩⟩
  | succ n ih =>
    intro s
    obtain ⟨p1, ⟨l1, p2, p2'⟩, p3, p4⟩ := receiver_step_not_admitted cfg inp s hb
    obtain ⟨q1, ⟨l2, q2, q2'⟩, q3, q4⟩ := ih (run_receiver_channel_step_impl cfg inp s)
    simp only [receiver_poll]
    refine ⟨q1.trans p1, ⟨l1 ++ l2, ?_, ?_⟩, fun hf => ?_, fun hf hcu => ?_⟩
    · rw [q2, p2, List.append_assoc]
    · rw [List.filter_append, p2', q2']; rfl
    · exact ⟨(q3 hf).1.trans (p3 hf).1, (q3 hf).2.trans (p3 hf).2⟩
    · obtain ⟨r1, r2, r3, r4⟩ := p4 hf hcu
      have hcu' : (run_receiver_channel_step_impl cfg inp s).CaughtUp cfg := by
        obtain ⟨c1, c2⟩ := hcu
        refine ⟨?_, fun h => ?_⟩
        · rw [r2, p1]; exact c1
        · rw [r1, p1]; exact c2 h
      obtain ⟨t1, t2, t3, t4⟩ := q4 hf hcu'
      exact ⟨t1.trans r1, t2.trans r2, t3.trans r3, t4.trans r4⟩

/-- C4 (amended). Backpressure: if the packet at the write-sent slot requires a downstream
forward and that target reports zero free slots, then over any number of repeated polls with
these inputs the write-sent pointer does not move and no forward or local delivery is logged;
with first-level ack disabled the packets-sent credit counter and the ack pointer are
unchanged; and with first-level ack disabled and no earlier packet awaiting its flush or
completion credit, the write-flush and completion pointers, the log and the progress flag are
unchanged as well. -/
theorem receiver_backpressure (cfg : RouterConfig) (inp : ReceiverStepInput)
    (hb : DownstreamBlocked cfg inp) (n : Nat) (s : ReceiverStepState) :
    (receiver_poll cfg inp n s).receiver_channel_pointers.wr_sent_counter =
      s.receiver_channel_pointers.wr_sent_counter ∧
    (∃ appended, (receiver_poll cfg inp n s).log = s.log ++ appended ∧
      appended.filter ReceiverEvent.is_forward_event = []) ∧
    (cfg.ENABLE_FIRST_LEVEL_ACK = false →
      (receiver_poll cfg inp n s).to_receiver_pkts_sent = s.to_receiver_pkts_sent ∧
      (receiver_poll cfg inp n s).receiver_channel_pointers.ack_counter =
        s.receiver_channel_pointers.ack_counter) ∧
    (cfg.ENABLE_FIRST_LEVEL_ACK = false → s.CaughtUp cfg →
      (receiver_poll cfg inp n s).receiver_channel_pointers.wr_flush_counter =
        s.receiver_channel_pointers.wr_flush_counter ∧
      (receiver_poll cfg inp n s).receiver_channel_pointers.completion_counter =
        s.receiver_channel_pointers.completion_counter ∧
      (receiver_poll cfg inp n s).log = s.log ∧
      (receiver_poll cfg inp n s).did_something = s.did_something) :=
  receiver_poll_not_admitted cfg inp (blocked_not_admitted cfg inp hb) n s

/-- The sample blocked inputs are blocked on the sample mesh build. -/
theorem sample_mesh_blocked :
    DownstreamBlocked RouterConfig.sample_mesh ReceiverStepInput.sample_blocked := by
  unfold DownstreamBlocked
  rw [if_pos (show RouterConfig.sample_mesh.is_2d_fabric = true from rfl)]
  exact ⟨by decide, eth_chan_directions.WEST, by decide, by decide, by decide⟩

/-- The sample blocked inputs are blocked on the sample linear build. -/
theorem sample_linear_blocked :
    DownstreamBlocked RouterConfig.sample_linear ReceiverStepInput.sample_blocked := by
  unfold DownstreamBlocked
  rw [if_neg (show ¬RouterConfig.sample_linear.is_2d_fabric = true by decide)]
  exact ⟨by decide, by decide⟩

/-- Counterexample to C4 as stated.  With first-level ack enabled, a poll against a full
downstream target still acks a newly observed packet: the ack pointer goes from 0 to 1 and
the packets-sent credit counter from 2 to 1.  With first-level ack disabled and an earlier
packet still unflushed, a poll against a full downstream target advances the write-flush and
completion pointers from 0 to 1. -/
theorem receiver_backpressure_counterexample :
    (DownstreamBlocked RouterConfig.sample_mesh ReceiverStepInput.sample_blocked ∧
      ReceiverStepState.sample_two_arrived.receiver_channel_pointers.ack_counter.counter = 0 ∧
      ReceiverStepState.sample_two_arrived.to_receiver_pkts_sent = 2 ∧
      (run_receiver_channel_step_impl RouterConfig.sample_mesh ReceiverStepInput.sample_blocked
        ReceiverStepState.sample_two_arrived).receiver_channel_pointers.ack_counter.counter = 1 ∧
      (run_receiver_channel_step_impl RouterConfig.sample_mesh ReceiverStepInput.sample_blocked
        ReceiverStepState.sample_two_arrived).to_receiver_pkts_sent = 1) ∧
    (DownstreamBlocked RouterConfig.sample_linear ReceiverStepInput.sample_blocked ∧
      ReceiverStepState.sample_one_unflushed.receiver_channel_pointers.wr_flush_counter.counter
        = 0 ∧
      ReceiverStepState.sample_one_unflushed.receiver_channel_pointers.completion_counter.counter
        = 0 ∧
      (run_receiver_channel_step_impl RouterConfig.sample_linear ReceiverStepInput.sample_blocked
        ReceiverStepState.sample_one_unflushed).receiver_channel_pointers.wr_flush_counter.counter
        = 1 ∧
      (run_receiver_channel_step_impl RouterConfig.sample_linear ReceiverStepInput.sample_blocked
        ReceiverStepState.sample_one_unflushed).receiver_channel_pointers.completion_counter.counter
        = 1) :=
  ⟨⟨sample_mesh_blocked, by decide, by decide, by decide, by decide⟩,
    ⟨sample_linear_blocked, by decide, by decide, by decide, by decide⟩⟩

/-- Witness of C4 (amended): three polls of the sample linear receiver against a full
downstream target leave the packets-sent credit counter and the log as they were. -/
theorem receiver_backpressure_witness :
    (DownstreamBlocked RouterConfig.sample_linear ReceiverStepInput.sample_blocked ∧
      RouterConfig.sample_linear.ENABLE_FIRST_LEVEL_ACK = false ∧
      ReceiverStepState.sample_two_arrived.CaughtUp RouterConfig.sample_linear) ∧
    (receiver_poll RouterConfig.sample_linear ReceiverStepInput.sample_blocked 3
      ReceiverStepState.sample_two_arrived).to_receiver_pkts_sent =
      ReceiverStepState.sample_two_arrived.to_receiver_pkts_sent ∧
    (receiver_poll RouterConfig.sample_linear ReceiverStepInput.sample_blocked 3
      ReceiverStepState.sample_two_arrived).log = ReceiverStepState.sample_two_arrived.log :=
  ⟨⟨sample_linear_blocked, by decide, ⟨by decide, fun _ => by decide⟩⟩,
    ((receiver_backpressure RouterConfig.sample_linear ReceiverStepInput.sample_blocked
      sample_linear_blocked 3 ReceiverStepState.sample_two_arrived).2.2.1 (by decide)).1,
    ((receiver_backpressure RouterConfig.sample_linear ReceiverStepInput.sample_blocked
      sample_linear_blocked 3 ReceiverStepState.sample_two_arrived).2.2.2 (by decide)
      ⟨by decide, fun _ => by decide⟩).2.2.1⟩

end BackpressureMain

/-! ## Mesh forwarding: hop-command decode and fan-out -/

section MeshDecode

/-- C6 (amended). Mesh hop-command decode: for every router direction d and every hop command
from 1 to 15 read as a set D of directions (bit 0 East, bit 1 West, bit 2 North, bit 3 South),
`receiver_forward_packet` delivers locally exactly when d is in D and forwards a copy to every
other direction x exactly when x is in D, if and only if the command is a single-direction
FORWARD_x, or it is WRITE_AND_FORWARD_EW and d is EAST or WEST, or it is any other
WRITE_AND_FORWARD command and d is NORTH or SOUTH. -/
theorem hop_cmd_decode (d : eth_chan_directions) (hop_cmd : Nat) (h0 : 0 < hop_cmd)
    (h16 : hop_cmd < 16) :
    hop_cmd_decode_matches d hop_cmd ↔
      (hop_cmd_is_single_direction hop_cmd = true ∨
        (hop_cmd = LowLatencyMeshRoutingFields.WRITE_AND_FORWARD_EW ∧
          is_spine_direction d = false) ∨
        (hop_cmd_is_single_direction hop_cmd = false ∧
          hop_cmd ≠ LowLatencyMeshRoutingFields.WRITE_AND_FORWARD_EW ∧
          is_spine_direction d = true)) := by
  interval_cases hop_cmd <;> cases d <;> decide

/-- Witness of C6 (amended): WRITE_AND_FORWARD_NSEW on a NORTH router decodes as its set. -/
theorem hop_cmd_decode_witness :
    (0 < LowLatencyMeshRoutingFields.WRITE_AND_FORWARD_NSEW ∧
      LowLatencyMeshRoutingFields.WRITE_AND_FORWARD_NSEW < 16) ∧
    hop_cmd_decode_matches eth_chan_directions.NORTH
      LowLatencyMeshRoutingFields.WRITE_AND_FORWARD_NSEW :=
  ⟨⟨by decide, by decide⟩,
    (hop_cmd_decode eth_chan_directions.NORTH LowLatencyMeshRoutingFields.WRITE_AND_FORWARD_NSEW
      (by decide) (by decide)).2 (by decide)⟩

/-- Counterexample to C6 as stated: on an EAST router the command WRITE_AND_FORWARD_NSEW
forwards to the interfaces 2, 0 and 0 (South, West and West again) and never to interface 1
(North), although North is in the command; and on a NORTH router the command
WRITE_AND_FORWARD_EW delivers locally although North is not in the command. -/
theorem hop_cmd_decode_counterexample :
    (receiver_forward_packet_2d eth_chan_directions.EAST
        LowLatencyMeshRoutingFields.WRITE_AND_FORWARD_NSEW =
      [ForwardAction.forward_payload_to_downstream_edm 2,
        ForwardAction.forward_payload_to_downstream_edm 0,
        ForwardAction.forward_payload_to_downstream_edm 0,
        ForwardAction.forward_to_local_destination] ∧
      get_downstream_edm_interface_index eth_chan_directions.EAST eth_chan_directions.NORTH = 1 ∧
      hop_cmd_has_direction LowLatencyMeshRoutingFields.WRITE_AND_FORWARD_NSEW
        eth_chan_directions.NORTH = true ∧
      ¬hop_cmd_decode_matches eth_chan_directions.EAST
        LowLatencyMeshRoutingFields.WRITE_AND_FORWARD_NSEW) ∧
    (ForwardAction.forward_to_local_destination ∈
        receiver_forward_packet_2d eth_chan_directions.NORTH
          LowLatencyMeshRoutingFields.WRITE_AND_FORWARD_EW ∧
      hop_cmd_has_direction LowLatencyMeshRoutingFields.WRITE_AND_FORWARD_EW
        eth_chan_directions.NORTH = false ∧
      ¬hop_cmd_decode_matches eth_chan_directions.NORTH
        LowLatencyMeshRoutingFields.WRITE_AND_FORWARD_EW) := by
  decide

/-- C7 (amended). Multicast fan-out for WRITE_AND_FORWARD_NSEW.  On every router direction
`receiver_forward_packet` issues exactly one local delivery and exactly three downstream
forward calls, and `can_forward_packet_completely` is true exactly when each of the three
non-own directions has free space behind its interface (and, in UDM mode, the local relay has
free space).  On a NORTH and on a SOUTH router the three forwards go to the interfaces of the
three non-own directions, one copy each, so every forward goes to an interface whose free
space the admission required.  On an EAST and on a WEST router the three forward calls go to
the interfaces 2, 0 and 0: the South interface once, interface 0 (West on an EAST router,
East on a WEST router) twice, and the North interface, whose free space the admission
required, not at all. -/
theorem nsew_fan_out (d : eth_chan_directions) (udm_mode : Bool) (hs : Nat → Bool)
    (relay : Bool) :
    (receiver_forward_packet_2d d LowLatencyMeshRoutingFields.WRITE_AND_FORWARD_NSEW).count
        ForwardAction.forward_to_local_destination = 1 ∧
    ((receiver_forward_packet_2d d LowLatencyMeshRoutingFields.WRITE_AND_FORWARD_NSEW).filter
        ForwardAction.is_downstream_forward).length = 3 ∧
    (can_forward_packet_completely_2d udm_mode d
        LowLatencyMeshRoutingFields.WRITE_AND_FORWARD_NSEW hs relay = true ↔
      (∀ x : eth_chan_directions, x ≠ d →
        hs (get_downstream_edm_interface_index d x) = true) ∧
      (udm_mode = true → relay = true)) ∧
    (is_spine_direction d = true →
      (∀ x : eth_chan_directions, x ≠ d →
        (forwarded_interfaces d LowLatencyMeshRoutingFields.WRITE_AND_FORWARD_NSEW).count
          (get_downstream_edm_interface_index d x) = 1) ∧
      (forwarded_interfaces d LowLatencyMeshRoutingFields.WRITE_AND_FORWARD_NSEW).Nodup ∧
      (can_forward_packet_completely_2d udm_mode d
          LowLatencyMeshRoutingFields.WRITE_AND_FORWARD_NSEW hs relay = true →
        ∀ edm_index ∈
          forwarded_interfaces d LowLatencyMeshRoutingFields.WRITE_AND_FORWARD_NSEW,
          hs edm_index = true)) ∧
    (is_spine_direction d = false →
      forwarded_interfaces d LowLatencyMeshRoutingFields.WRITE_AND_FORWARD_NSEW = [2, 0, 0] ∧
      get_downstream_edm_interface_index d eth_chan_directions.SOUTH = 2 ∧
      get_downstream_edm_interface_index d eth_chan_directions.NORTH = 1 ∧
      (∀ x : eth_chan_directions, x ≠ d → x ≠ eth_chan_directions.NORTH →
        x ≠ eth_chan_directions.SOUTH → get_downstream_edm_interface_index d x = 0)) ∧
    (receiver_forward_packet_2d eth_chan_directions.NORTH
        LowLatencyMeshRoutingFields.WRITE_AND_FORWARD_NSEW).filter
        ForwardAction.is_downstream_forward =
      [ForwardAction.forward_payload_to_downstream_edm 2,
        ForwardAction.forward_payload_to_downstream_edm 0,
        ForwardAction.forward_payload_to_downstream_edm 1] ∧
    (receiver_forward_packet_2d eth_chan_directions.SOUTH
        LowLatencyMeshRoutingFields.WRITE_AND_FORWARD_NSEW).filter
        ForwardAction.is_downstream_forward =
      [ForwardAction.forward_payload_to_downstream_edm 2,
        ForwardAction.forward_payload_to_downstream_edm 0,
        ForwardAction.forward_payload_to_downstream_edm 1] := by
  have hadm : can_forward_packet_completely_2d udm_mode d
        LowLatencyMeshRoutingFields.WRITE_AND_FORWARD_NSEW hs relay = true ↔
      (∀ x : eth_chan_directions, x ≠ d →
        hs (get_downstream_edm_interface_index d x) = true) ∧
      (udm_mode = true → relay = true) := by
    rw [can_forward_packet_completely_2d_iff _ _ _ _ _ (by decide) (by decide),
      forall_direction, forall_direction]
    cases d <;> cases udm_mode <;>
      simp [check_downstream_has_space, hop_cmd_has_direction, eth_chan_directions.toNat,
        LowLatencyMeshRoutingFields.WRITE_AND_FORWARD_NSEW, get_downstream_edm_interface_index,
        direction_to_compact_index_map] <;> tauto
  refine ⟨by cases d <;> decide, by cases d <;> decide, hadm, ?_, ?_, by decide, by decide⟩
  · intro hsp
    refine ⟨?_, ?_, ?_⟩
    · revert hsp
      cases d <;> decide
    · revert hsp
      cases d <;> decide
    · intro hcan edm_index hin
      have hall := (hadm.1 hcan).1
      have hcov : ∀ idx ∈
          forwarded_interfaces d LowLatencyMeshRoutingFields.WRITE_AND_FORWARD_NSEW,
          ∃ x : eth_chan_directions, x ≠ d ∧ get_downstream_edm_interface_index d x = idx := by
        revert hsp
        cases d <;> decide
      obtain ⟨x, hx, he⟩ := hcov edm_index hin
      rw [← he]
      exact hall x hx
  · intro hsp
    revert hsp
    cases d <;> decide

/-- Counterexample to C7 as stated: on an EAST router the three forward calls of
`WRITE_AND_FORWARD_NSEW` go to the interfaces 2, 0 and 0.  The admission asked the North
interface (1) for free space and no copy goes there; it asked interface 0 once, for one
packet, and two copies go there. -/
theorem nsew_fan_out_counterexample :
    forwarded_interfaces eth_chan_directions.EAST
      LowLatencyMeshRoutingFields.WRITE_AND_FORWARD_NSEW = [2, 0, 0] ∧
    get_downstream_edm_interface_index eth_chan_directions.EAST eth_chan_directions.NORTH = 1 ∧
    1 ∉ forwarded_interfaces eth_chan_directions.EAST
      LowLatencyMeshRoutingFields.WRITE_AND_FORWARD_NSEW ∧
    (forwarded_interfaces eth_chan_directions.EAST
      LowLatencyMeshRoutingFields.WRITE_AND_FORWARD_NSEW).count
        (get_downstream_edm_interface_index eth_chan_directions.EAST
          eth_chan_directions.WEST) = 2 ∧
    can_forward_packet_completely_2d false eth_chan_directions.EAST
      LowLatencyMeshRoutingFields.WRITE_AND_FORWARD_NSEW (fun _ => true) true = true ∧
    can_forward_packet_completely_2d false eth_chan_directions.EAST
      LowLatencyMeshRoutingFields.WRITE_AND_FORWARD_NSEW (fun i => decide (i ≠ 1)) true =
        false := by
  decide

end MeshDecode

/-! ## Receiver step: first-level ack and packets-sent consumption -/

section ReceiverAck

variable (cfg : RouterConfig) (inp : ReceiverStepInput) (s : ReceiverStepState)

/-- The first-level ack stage, field by field. -/
theorem receiver_step_ack_eq (hf : cfg.ENABLE_FIRST_LEVEL_ACK = true) :
    (receiver_step_ack cfg inp s).to_receiver_pkts_sent =
      (if receiver_can_send_ack cfg inp s then s.to_receiver_pkts_sent - 1
        else s.to_receiver_pkts_sent) ∧
    (receiver_step_ack cfg inp s).receiver_channel_pointers.ack_counter =
      (if receiver_can_send_ack cfg inp s then
        s.receiver_channel_pointers.ack_counter.increment cfg.RECEIVER_NUM_BUFFERS
      else s.receiver_channel_pointers.ack_counter) ∧
    (receiver_step_ack cfg inp s).receiver_channel_pointers.src_chan_ids =
      (if receiver_can_send_ack cfg inp s && !cfg.skip_src_ch_id_update then
        Function.update s.receiver_channel_pointers.src_chan_ids
          s.receiver_channel_pointers.ack_counter.get_buffer_index
          (inp.packet_header_src_ch_id s.receiver_channel_pointers.ack_counter.get_buffer_index)
      else s.receiver_channel_pointers.src_chan_ids) ∧
    (receiver_step_ack cfg inp s).log = s.log ++
      (if receiver_can_send_ack cfg inp s then
        [ReceiverEvent.receiver_send_received_ack
          (if cfg.skip_src_ch_id_update then s.receiver_channel_pointers.get_src_chan_id_single
            else inp.packet_header_src_ch_id
              s.receiver_channel_pointers.ack_counter.get_buffer_index)]
      else []) := by
  unfold receiver_step_ack receiver_can_send_ack
  rw [if_pos hf]
  simp only []
  rcases Bool.eq_false_or_eq_true cfg.ETH_TXQ_SPIN_WAIT_RECEIVER_SEND_COMPLETION_ACK
    with h1 | h1 <;>
  rcases Bool.eq_false_or_eq_true inp.eth_txq_is_busy_at_ack with h2 | h2 <;>
  rcases Bool.eq_false_or_eq_true cfg.skip_src_ch_id_update with h3 | h3 <;>
  by_cases h4 : 0 < s.to_receiver_pkts_sent <;>
  simp [h1, h2, h3, h4, ReceiverChannelPointers.set_src_chan_id,
    ReceiverChannelPointers.get_src_chan_id, ReceiverChannelPointers.get_src_chan_id_single]

end ReceiverAck

section ReceiverAfterAck

variable (cfg : RouterConfig) (inp : ReceiverStepInput) (s : ReceiverStepState)

/-- The source-channel ids recorded after the admission and forwarding stage. -/
theorem receiver_step_forward_src_chan_ids (u : Bool) :
    (receiver_step_forward cfg inp u s).receiver_channel_pointers.src_chan_ids =
      (if u && !cfg.skip_src_ch_id_update && !cfg.ENABLE_FIRST_LEVEL_ACK then
        Function.update s.receiver_channel_pointers.src_chan_ids
          s.receiver_channel_pointers.wr_sent_counter.get_buffer_index
          (inp.packet_header_src_ch_id
            s.receiver_channel_pointers.wr_sent_counter.get_buffer_index)
      else s.receiver_channel_pointers.src_chan_ids) := by
  unfold receiver_step_forward
  cases u
  · simp
  · rcases Bool.eq_false_or_eq_true (can_send_to_all_local_chip_receivers cfg inp) with h | h <;>
    cases h1 : cfg.skip_src_ch_id_update <;> cases h2 : cfg.ENABLE_FIRST_LEVEL_ACK <;>
      simp [h, ReceiverChannelPointers.set_src_chan_id]

/-- Everything a receiver step does after its ack stage logs no first-level ack, and records
a source-channel id only in the build without first-level ack. -/
theorem receiver_step_after_ack (u : Bool) :
    ∃ rest,
      (if (!cfg.fuse_receiver_flush_and_completion_ptr) = true then
          receiver_step_completion cfg inp
            (receiver_step_flush cfg inp (receiver_step_forward cfg inp u s))
        else receiver_step_fused_completion cfg inp (receiver_step_forward cfg inp u s)).log =
        s.log ++ rest ∧
      rest.filterMap ReceiverEvent.received_ack_target = [] ∧
      (if (!cfg.fuse_receiver_flush_and_completion_ptr) = true then
          receiver_step_completion cfg inp
            (receiver_step_flush cfg inp (receiver_step_forward cfg inp u s))
        else receiver_step_fused_completion cfg inp
          (receiver_step_forward cfg inp u s)).receiver_channel_pointers.src_chan_ids =
        (receiver_step_forward cfg inp u s).receiver_channel_pointers.src_chan_ids := by
  have F := receiver_step_forward_effect cfg inp s u
  simp only [] at F
  obtain ⟨-, -, -, -, -, -, f7⟩ := F
  have hF : ∃ X, (receiver_step_forward cfg inp u s).log = s.log ++ X ∧
      X.filterMap ReceiverEvent.received_ack_target = [] := by
    refine ⟨_, f7, ?_⟩
    split_ifs
    · rw [List.filterMap_cons_none rfl]
      induction (receiver_forward_actions cfg inp) with
      | nil => rfl
      | cons a l ih => rw [List.map_cons, List.filterMap_cons_none rfl]; exact ih
    · rfl
  obtain ⟨X, hX1, hX2⟩ := hF
  generalize receiver_step_forward cfg inp u s = s2 at hX1
  rcases Bool.eq_false_or_eq_true cfg.fuse_receiver_flush_and_completion_ptr with hfuse | hfuse
  · rw [if_neg (by simp [hfuse])]
    have U := receiver_step_fused_completion_effect cfg inp s2
    simp only [] at U
    obtain ⟨-, -, -, u4, -, -, -, u8⟩ := U
    have hY : ∃ Y, (receiver_step_fused_completion cfg inp s2).log = s2.log ++ Y ∧
        Y.filterMap ReceiverEvent.received_ack_target = [] :=
      ⟨_, u8, by split_ifs <;> rfl⟩
    obtain ⟨Y, hY1, hY2⟩ := hY
    refine ⟨X ++ Y, ?_, ?_, u4⟩
    · rw [hY1, hX1, List.append_assoc]
    · rw [List.filterMap_append, hX2, hY2]
      rfl
  · rw [if_pos (by simp [hfuse])]
    have L := receiver_step_flush_effect cfg inp s2
    simp only [] at L
    obtain ⟨-, -, -, l4, -, -, -, l8⟩ := L
    have hY : ∃ Y, (receiver_step_flush cfg inp s2).log = s2.log ++ Y ∧
        Y.filterMap ReceiverEvent.received_ack_target = [] :=
      ⟨_, l8, by split_ifs <;> rfl⟩
    obtain ⟨Y, hY1, hY2⟩ := hY
    have C := receiver_step_completion_effect cfg inp (receiver_step_flush cfg inp s2)
    simp only [] at C
    obtain ⟨-, -, -, c4, -, -, -, c8⟩ := C
    have hZ : ∃ Z, (receiver_step_completion cfg inp (receiver_step_flush cfg inp s2)).log =
        (receiver_step_flush cfg inp s2).log ++ Z ∧
        Z.filterMap ReceiverEvent.received_ack_target = [] :=
      ⟨_, c8, by split_ifs <;> rfl⟩
    obtain ⟨Z, hZ1, hZ2⟩ := hZ
    refine ⟨X ++ Y ++ Z, ?_, ?_, c4.trans l4⟩
    · rw [hZ1, hY1, hX1]
      simp only [List.append_assoc]
    · rw [List.filterMap_append, List.filterMap_append, hX2, hY2, hZ2]
      rfl

end ReceiverAfterAck

section FirstLevelAck

/-- C14 (amended). First-level ack: when first-level acknowledgement is enabled, a
packets-sent credit is pending and the receiver transmit queue is idle (or the build
spin-waits), a receiver step emits exactly one ack credit, as the first action of the step
and so before the admission check, whatever the downstream targets answer.  The ack is
addressed to the source-channel id read from the header of the packet in the slot at the ack
pointer, which is recorded for that slot, unless `skip_src_ch_id_update` is set: then it is
addressed to the single recorded sender channel and nothing is read from the header or
recorded.  The step advances the ack counter by one and consumes one packets-sent credit. -/
theorem first_level_ack (cfg : RouterConfig) (inp : ReceiverStepInput) (s : ReceiverStepState)
    (hf : cfg.ENABLE_FIRST_LEVEL_ACK = true) (hp : 0 < s.to_receiver_pkts_sent)
    (hq : cfg.ETH_TXQ_SPIN_WAIT_RECEIVER_SEND_COMPLETION_ACK = false →
      inp.eth_txq_is_busy_at_ack = false) :
    (∃ rest, (run_receiver_channel_step_impl cfg inp s).log =
        s.log ++ ReceiverEvent.receiver_send_received_ack
          (if cfg.skip_src_ch_id_update then s.receiver_channel_pointers.get_src_chan_id_single
            else inp.packet_header_src_ch_id
              s.receiver_channel_pointers.ack_counter.get_buffer_index) :: rest ∧
      rest.filterMap ReceiverEvent.received_ack_target = []) ∧
    (cfg.skip_src_ch_id_update = false →
      (run_receiver_channel_step_impl cfg inp s).receiver_channel_pointers.get_src_chan_id
          s.receiver_channel_pointers.ack_counter.get_buffer_index =
        inp.packet_header_src_ch_id s.receiver_channel_pointers.ack_counter.get_buffer_index) ∧
    (cfg.skip_src_ch_id_update = true →
      (run_receiver_channel_step_impl cfg inp s).receiver_channel_pointers.src_chan_ids =
        s.receiver_channel_pointers.src_chan_ids) ∧
    (run_receiver_channel_step_impl cfg inp s).receiver_channel_pointers.ack_counter =
      s.receiver_channel_pointers.ack_counter.increment cfg.RECEIVER_NUM_BUFFERS ∧
    (run_receiver_channel_step_impl cfg inp s).receiver_channel_pointers.ack_counter.counter =
      s.receiver_channel_pointers.ack_counter.counter + 1 ∧
    (run_receiver_channel_step_impl cfg inp s).to_receiver_pkts_sent + 1 =
      s.to_receiver_pkts_sent := by
  have hcan : receiver_can_send_ack cfg inp s = true := by
    unfold receiver_can_send_ack
    rcases Bool.eq_false_or_eq_true cfg.ETH_TXQ_SPIN_WAIT_RECEIVER_SEND_COMPLETION_ACK
      with h1 | h1
    · simp [h1, hp]
    · simp [h1, hq h1, hp]
  obtain ⟨a1, a2, a3, a4⟩ := receiver_step_ack_eq cfg inp s hf
  rw [hcan] at a1 a2 a3 a4
  simp only [if_true, Bool.true_and] at a1 a2 a3 a4
  obtain ⟨-, f2, -, f4, -⟩ := receiver_step_forwarding cfg inp s
  obtain ⟨rest, r1, r2, r3⟩ := receiver_step_after_ack cfg inp (receiver_step_ack cfg inp s)
    (receiver_unwritten_packets cfg s.to_receiver_pkts_sent (receiver_step_ack cfg inp s))
  have hrun : run_receiver_channel_step_impl cfg inp s =
      (if (!cfg.fuse_receiver_flush_and_completion_ptr) = true then
          receiver_step_completion cfg inp (receiver_step_flush cfg inp
            (receiver_step_forward cfg inp
              (receiver_unwritten_packets cfg s.to_receiver_pkts_sent
                (receiver_step_ack cfg inp s)) (receiver_step_ack cfg inp s)))
        else receiver_step_fused_completion cfg inp
          (receiver_step_forward cfg inp
            (receiver_unwritten_packets cfg s.to_receiver_pkts_sent
              (receiver_step_ack cfg inp s)) (receiver_step_ack cfg inp s))) := rfl
  rw [← hrun] at r1 r3
  rw [receiver_step_forward_src_chan_ids, hf] at r3
  simp only [Bool.not_true, Bool.and_false, Bool.false_eq_true, if_false] at r3
  rw [a3] at r3
  refine ⟨⟨rest, ?_, r2⟩, ?_, ?_, ?_, ?_, ?_⟩
  · rw [r1, a4, List.append_assoc]; rfl
  · intro hs
    rw [ReceiverChannelPointers.get_src_chan_id, r3, hs]
    simp
  · intro hs
    rw [r3, hs]
    simp
  · rw [f4, a2]
  · rw [f4, a2]; rfl
  · simp only [hf, Bool.not_true, Bool.and_false, Bool.false_eq_true, if_false] at f2
    rw [f2, a1]
    omega

/-- Counterexample to C14 as stated, under `skip_src_ch_id_update`: with first-level ack enabled,
one pending packets-sent credit and an idle transmit queue, the packet in the slot at the ack
pointer carries source-channel id 1 in its header, and the step's one ack is addressed to the
single recorded sender channel 0. -/
theorem first_level_ack_counterexample :
    RouterConfig.sample_mesh_single_sender.ENABLE_FIRST_LEVEL_ACK = true ∧
    0 < ReceiverStepState.sample_two_arrived.to_receiver_pkts_sent ∧
    ReceiverStepInput.sample_open.eth_txq_is_busy_at_ack = false ∧
    ReceiverStepInput.sample_open.packet_header_src_ch_id
      ReceiverStepState.sample_two_arrived.receiver_channel_pointers.ack_counter.get_buffer_index
      = 1 ∧
    (run_receiver_channel_step_impl RouterConfig.sample_mesh_single_sender
      ReceiverStepInput.sample_open ReceiverStepState.sample_two_arrived).log.filterMap
        ReceiverEvent.received_ack_target = [0] := by
  decide

/-- Witness of C14 on the sample mesh build: the step acks to the sender channel named in the
header of the packet at the ack pointer. -/
theorem first_level_ack_witness :
    (run_receiver_channel_step_impl RouterConfig.sample_mesh ReceiverStepInput.sample_open
      ReceiverStepState.sample_two_arrived).receiver_channel_pointers.ack_counter.counter =
      ReceiverStepState.sample_two_arrived.receiver_channel_pointers.ack_counter.counter + 1 :=
  (first_level_ack RouterConfig.sample_mesh ReceiverStepInput.sample_open
    ReceiverStepState.sample_two_arrived (by decide) (by decide) (by decide)).2.2.2.2.1

end FirstLevelAck

section PacketsSentConsumption

/-- C15. Packets-sent consumption.  Without first-level ack a receiver step decrements the
packets-sent credit counter by exactly one when it admits the packet at the write-sent slot
(a credit is pending and `can_send_to_all_local_chip_receivers` holds), in the same step in
which write-sent advances by one, and otherwise leaves the counter and write-sent unchanged.
With first-level ack the counter is decremented by exactly one when the step acks, together
with the ack counter, and admission never decrements it.  In either mode the credits consumed
and the packets admitted (acked, with first-level ack) balance over every step. -/
theorem packets_sent_consumption (cfg : RouterConfig) (inp : ReceiverStepInput)
    (s : ReceiverStepState) :
    (cfg.ENABLE_FIRST_LEVEL_ACK = false →
      ((s.to_receiver_pkts_sent ≠ 0 ∧ can_send_to_all_local_chip_receivers cfg inp = true) →
        (run_receiver_channel_step_impl cfg inp s).to_receiver_pkts_sent + 1 =
          s.to_receiver_pkts_sent ∧
        (run_receiver_channel_step_impl cfg inp s).receiver_channel_pointers.wr_sent_counter.counter
          = s.receiver_channel_pointers.wr_sent_counter.counter + 1) ∧
      (¬(s.to_receiver_pkts_sent ≠ 0 ∧ can_send_to_all_local_chip_receivers cfg inp = true) →
        (run_receiver_channel_step_impl cfg inp s).to_receiver_pkts_sent =
          s.to_receiver_pkts_sent ∧
        (run_receiver_channel_step_impl cfg inp s).receiver_channel_pointers.wr_sent_counter =
          s.receiver_channel_pointers.wr_sent_counter)) ∧
    (cfg.ENABLE_FIRST_LEVEL_ACK = true →
      (receiver_can_send_ack cfg inp s = true →
        (run_receiver_channel_step_impl cfg inp s).to_receiver_pkts_sent + 1 =
          s.to_receiver_pkts_sent ∧
        (run_receiver_channel_step_impl cfg inp s).receiver_channel_pointers.ack_counter.counter
          = s.receiver_channel_pointers.ack_counter.counter + 1) ∧
      (receiver_can_send_ack cfg inp s = false →
        (run_receiver_channel_step_impl cfg inp s).to_receiver_pkts_sent =
          s.to_receiver_pkts_sent ∧
        (run_receiver_channel_step_impl cfg inp s).receiver_channel_pointers.ack_counter =
          s.receiver_channel_pointers.ack_counter)) ∧
    (run_receiver_channel_step_impl cfg inp s).to_receiver_pkts_sent +
        (if cfg.ENABLE_FIRST_LEVEL_ACK then
          (run_receiver_channel_step_impl cfg inp s).receiver_channel_pointers.ack_counter.counter
        else
          (run_receiver_channel_step_impl cfg inp
            s).receiver_channel_pointers.wr_sent_counter.counter) =
      s.to_receiver_pkts_sent +
        (if cfg.ENABLE_FIRST_LEVEL_ACK then s.receiver_channel_pointers.ack_counter.counter
          else s.receiver_channel_pointers.wr_sent_counter.counter) := by
  obtain ⟨f1, f2, -, f4, -⟩ := receiver_step_forwarding cfg inp s
  have hoff : cfg.ENABLE_FIRST_LEVEL_ACK = false →
      ((s.to_receiver_pkts_sent ≠ 0 ∧ can_send_to_all_local_chip_receivers cfg inp = true) →
        (run_receiver_channel_step_impl cfg inp s).to_receiver_pkts_sent + 1 =
          s.to_receiver_pkts_sent ∧
        (run_receiver_channel_step_impl cfg inp s).receiver_channel_pointers.wr_sent_counter.counter
          = s.receiver_channel_pointers.wr_sent_counter.counter + 1) ∧
      (¬(s.to_receiver_pkts_sent ≠ 0 ∧ can_send_to_all_local_chip_receivers cfg inp = true) →
        (run_receiver_channel_step_impl cfg inp s).to_receiver_pkts_sent =
          s.to_receiver_pkts_sent ∧
        (run_receiver_channel_step_impl cfg inp s).receiver_channel_pointers.wr_sent_counter =
          s.receiver_channel_pointers.wr_sent_counter) := by
    intro hf
    have hack : receiver_step_ack cfg inp s = s := (receiver_step_ack_effect cfg inp s).2.2.2.2.2.2.1 hf
    rw [hack] at f1 f2
    simp only [receiver_unwritten_packets, hf, Bool.false_eq_true, if_false, Bool.not_false,
      Bool.and_true] at f1 f2
    constructor
    · rintro ⟨h1, h2⟩
      rw [f1, f2]
      simp only [h1, h2, ne_eq, not_false_eq_true, decide_True, Bool.and_self, if_true]
      exact ⟨by omega, rfl⟩
    · intro h
      have hb : (decide (s.to_receiver_pkts_sent ≠ 0) &&
          can_send_to_all_local_chip_receivers cfg inp) = false := by
        rcases Bool.eq_false_or_eq_true (decide (s.to_receiver_pkts_sent ≠ 0) &&
          can_send_to_all_local_chip_receivers cfg inp) with hb | hb
        · exfalso
          apply h
          simpa using hb
        · exact hb
      rw [f1, f2, hb]
      exact ⟨rfl, rfl⟩
  have hon : cfg.ENABLE_FIRST_LEVEL_ACK = true →
      (receiver_can_send_ack cfg inp s = true →
        (run_receiver_channel_step_impl cfg inp s).to_receiver_pkts_sent + 1 =
          s.to_receiver_pkts_sent ∧
        (run_receiver_channel_step_impl cfg inp s).receiver_channel_pointers.ack_counter.counter
          = s.receiver_channel_pointers.ack_counter.counter + 1) ∧
      (receiver_can_send_ack cfg inp s = false →
        (run_receiver_channel_step_impl cfg inp s).to_receiver_pkts_sent =
          s.to_receiver_pkts_sent ∧
        (run_receiver_channel_step_impl cfg inp s).receiver_channel_pointers.ack_counter =
          s.receiver_channel_pointers.ack_counter) := by
    intro hf
    obtain ⟨a1, a2, -, -⟩ := receiver_step_ack_eq cfg inp s hf
    simp only [hf, Bool.not_true, Bool.and_false, Bool.false_eq_true, if_false] at f2
    constructor
    · intro hc
      have hp : 0 < s.to_receiver_pkts_sent := by
        unfold receiver_can_send_ack at hc
        simp only [Bool.and_eq_true, decide_eq_true_eq] at hc
        exact hc.1
      rw [hc] at a1 a2
      rw [f2, f4, a1, a2]
      exact ⟨by simp only [if_true]; omega, rfl⟩
    · intro hc
      rw [hc] at a1 a2
      rw [f2, f4, a1, a2]
      exact ⟨rfl, rfl⟩
  refine ⟨hoff, hon, ?_⟩
  rcases Bool.eq_false_or_eq_true cfg.ENABLE_FIRST_LEVEL_ACK with hf | hf
  · simp only [hf, if_true]
    rcases Bool.eq_false_or_eq_true (receiver_can_send_ack cfg inp s) with hc | hc
    · obtain ⟨e1, e2⟩ := (hon hf).1 hc
      omega
    · obtain ⟨e1, e2⟩ := (hon hf).2 hc
      rw [e1, e2]
  · simp only [hf, Bool.false_eq_true, if_false]
    by_cases h : s.to_receiver_pkts_sent ≠ 0 ∧ can_send_to_all_local_chip_receivers cfg inp = true
    · obtain ⟨e1, e2⟩ := (hoff hf).1 h
      omega
    · obtain ⟨e1, e2⟩ := (hoff hf).2 h
      rw [e1, e2]

end PacketsSentConsumption

/-! ## Sender step: idempotence and round trip -/

section SenderFields

variable (cfg : RouterConfig) (i : Nat) (inp : SenderStepInput) (s : SenderStepState)

/-- The fields a transmission writes, after a whole sender step. -/
theorem sender_step_fields :
    (run_sender_channel_step_impl cfg i inp s).local_sender_channel =
      (if sender_can_send cfg i inp s then
        (s.local_sender_channel + 1) % cfg.SENDER_NUM_BUFFERS_ARRAY i
      else s.local_sender_channel) ∧
    (run_sender_channel_step_impl cfg i inp s).remote_receiver_channel =
      (if sender_can_send cfg i inp s then
        (s.remote_receiver_channel + 1) % cfg.REMOTE_RECEIVER_NUM_BUFFERS
      else s.remote_receiver_channel) ∧
    (run_sender_channel_step_impl cfg i inp s).sender_channel_free_slots_stream =
      s.sender_channel_free_slots_stream + (if sender_can_send cfg i inp s then 1 else 0) ∧
    (run_sender_channel_step_impl cfg i inp
        s).local_sender_channel_worker_interface.local_write_counter =
      s.local_sender_channel_worker_interface.local_write_counter +
        (if sender_can_send cfg i inp s then 1 else 0) ∧
    (run_sender_channel_step_impl cfg i inp s).did_something =
      (s.did_something || sender_can_send cfg i inp s) := by
  obtain ⟨-, -, ⟨e1, e2, e3, -, e5, e6⟩, -⟩ :=
    sender_step_after_send cfg i inp (sender_step_send cfg i inp s)
  have hs := sender_step_send_eq cfg i inp s
  have hrun : run_sender_channel_step_impl cfg i inp s =
      sender_step_connection cfg i inp (sender_step_acks cfg i
        (sender_step_credits_landing inp (sender_step_completions cfg i
          (sender_step_send cfg i inp s)))) := rfl
  rw [← hrun] at e1 e2 e3 e5 e6
  rw [e1, e2, e3, e5, e6, hs]
  rcases Bool.eq_false_or_eq_true (sender_can_send cfg i inp s) with h | h <;> simp [h]

/-- A step that finds nothing to send, no new credit and a settled connection only logs its
empty credit reads. -/
theorem sender_step_idle (hsend : sender_can_send cfg i inp s = false)
    (hc : s.sender_channel_from_receiver_credits.get_num_unprocessed_completions_from_receiver
      = 0)
    (ha : s.sender_channel_from_receiver_credits.get_num_unprocessed_acks_from_receiver = 0)
    (hl : inp.completions_landing_mid_step = 0 ∧ inp.acks_landing_mid_step = 0)
    (hconn : cfg.sender_ch_live_check_skip i = true ∨
      (s.channel_connection_established = true ∧ inp.has_worker_teardown_request = false)) :
    run_sender_channel_step_impl cfg i inp s =
      s.with_log (s.log ++ SenderEvent.read_completions 0 ::
        (if cfg.ENABLE_FIRST_LEVEL_ACK then [SenderEvent.read_acks 0] else [])) := by
  have h1 : sender_step_send cfg i inp s = s := by
    unfold sender_step_send; rw [hsend]; rfl
  have h2 : sender_step_completions cfg i s =
      s.with_log (s.log ++ [SenderEvent.read_completions 0]) := by
    unfold sender_step_completions
    simp only [hc]
    rfl
  have h3 : ∀ u : SenderStepState, sender_step_credits_landing inp u = u := by
    intro u
    unfold sender_step_credits_landing
    rw [hl.1, hl.2]
    rfl
  have h4 : ∀ l, sender_step_acks cfg i (s.with_log l) =
      s.with_log (l ++ (if cfg.ENABLE_FIRST_LEVEL_ACK then [SenderEvent.read_acks 0] else [])) := by
    intro l
    unfold sender_step_acks
    rcases Bool.eq_false_or_eq_true cfg.ENABLE_FIRST_LEVEL_ACK with hf | hf
    · have ha' : (s.with_log l).sender_channel_from_receiver_credits.get_num_unprocessed_acks_from_receiver = 0 := ha
      simp only [hf, if_true, ha']
      rfl
    · simp [hf, SenderStepState.with_log]
  have h5 : ∀ l, sender_step_connection cfg i inp (s.with_log l) = s.with_log l := by
    intro l
    unfold sender_step_connection
    rcases hconn with h | ⟨h, h'⟩
    · simp [h]
    · have he : (s.with_log l).channel_connection_established = true := h
      simp [he, h']
  unfold run_sender_channel_step_impl
  rw [h1, h2, h3, h4, h5, List.append_assoc]
  rfl

end SenderFields

section SenderIdempotence

/-- Polling an idle channel `n` times only appends empty credit reads to the log. -/
theorem sender_poll_idle (cfg : RouterConfig) (i : Nat) (inp : SenderStepInput)
    (s : SenderStepState) (hsend : sender_can_send cfg i inp s = false)
    (hc : s.sender_channel_from_receiver_credits.get_num_unprocessed_completions_from_receiver
      = 0)
    (ha : s.sender_channel_from_receiver_credits.get_num_unprocessed_acks_from_receiver = 0)
    (hl : inp.completions_landing_mid_step = 0 ∧ inp.acks_landing_mid_step = 0)
    (hconn : cfg.sender_ch_live_check_skip i = true ∨
      (s.channel_connection_established = true ∧ inp.has_worker_teardown_request = false))
    (n : Nat) :
    ∃ reads, sender_poll cfg i inp n s = s.with_log (s.log ++ reads) ∧
      reads.all SenderEvent.is_empty_read = true := by
  induction n generalizing s with
  | zero => exact ⟨[], by simp [sender_poll, SenderStepState.with_log], rfl⟩
  | succ n ih =>
    have h1 := sender_step_idle cfg i inp s hsend hc ha hl hconn
    obtain ⟨reads, hr, hall⟩ := ih (run_sender_channel_step_impl cfg i inp s)
      (by rw [h1]; exact hsend) (by rw [h1]; exact hc) (by rw [h1]; exact ha)
      (by rw [h1]; exact hconn)
    refine ⟨SenderEvent.read_completions 0 ::
      (if cfg.ENABLE_FIRST_LEVEL_ACK then [SenderEvent.read_acks 0] else []) ++ reads, ?_, ?_⟩
    · rw [sender_poll, hr, h1]
      simp [SenderStepState.with_log]
    · rw [List.all_append, hall]
      cases cfg.ENABLE_FIRST_LEVEL_ACK <;> rfl

/-- C12. Idempotence of the sender step: if at the start of `run_sender_channel_step_impl`
there is no unsent packet or the remote receiver has no space, there are no unprocessed
completions and no unprocessed acks, no credit lands during the step, and the connection is
persistent or established with no teardown request, then the step transmits nothing and
changes no field of the channel state other than the log, to which it appends its empty
credit reads; the tracked remote free-slot count, the free-slots register, the sender and
remote-receiver slot indices and the processed-ack and processed-completion counters are as
before, also after any number `n` of repeated steps. -/
theorem sender_step_idempotent (cfg : RouterConfig) (i : Nat) (inp : SenderStepInput)
    (s : SenderStepState) (n : Nat)
    (hidle : cfg.SENDER_NUM_BUFFERS_ARRAY i ≤ s.sender_channel_free_slots_stream ∨
      (if (cfg.sender_channel_is_traffic_injection_channel i &&
            cfg.enable_deadlock_avoidance) = true then
        s.outbound_to_receiver_channel_pointers_num_free_slots <
          cfg.BUBBLE_FLOW_CONTROL_INJECTION_SENDER_CHANNEL_MIN_FREE_SLOTS
      else s.outbound_to_receiver_channel_pointers_num_free_slots = 0))
    (hc : s.sender_channel_from_receiver_credits.get_num_unprocessed_completions_from_receiver
      = 0)
    (ha : s.sender_channel_from_receiver_credits.get_num_unprocessed_acks_from_receiver = 0)
    (hl : inp.completions_landing_mid_step = 0 ∧ inp.acks_landing_mid_step = 0)
    (hconn : cfg.sender_ch_live_check_skip i = true ∨
      (s.channel_connection_established = true ∧ inp.has_worker_teardown_request = false)) :
    run_sender_channel_step_impl cfg i inp s =
      s.with_log (s.log ++ SenderEvent.read_completions 0 ::
        (if cfg.ENABLE_FIRST_LEVEL_ACK then [SenderEvent.read_acks 0] else [])) ∧
    (∃ reads, sender_poll cfg i inp n s = s.with_log (s.log ++ reads) ∧
      reads.all SenderEvent.is_empty_read = true) ∧
    (sender_poll cfg i inp n s).outbound_to_receiver_channel_pointers_num_free_slots =
      s.outbound_to_receiver_channel_pointers_num_free_slots ∧
    (sender_poll cfg i inp n s).sender_channel_free_slots_stream =
      s.sender_channel_free_slots_stream ∧
    (sender_poll cfg i inp n s).local_sender_channel = s.local_sender_channel ∧
    (sender_poll cfg i inp n s).remote_receiver_channel = s.remote_receiver_channel ∧
    (sender_poll cfg i inp n s).sender_channel_from_receiver_credits =
      s.sender_channel_from_receiver_credits ∧
    (sender_poll cfg i inp n s).pkts_sent_published = s.pkts_sent_published ∧
    (sender_poll cfg i inp n s).local_sender_channel_worker_interface =
      s.local_sender_channel_worker_interface ∧
    (sender_poll cfg i inp n s).channel_connection_established =
      s.channel_connection_established ∧
    (sender_poll cfg i inp n s).did_something = s.did_something := by
  have hsend : sender_can_send cfg i inp s = false := by
    rcases Bool.eq_false_or_eq_true (sender_can_send cfg i inp s) with h | h
    · exfalso
      obtain ⟨h1, h2, -⟩ := (sender_can_send_iff cfg i inp s).1 h
      rcases hidle with h3 | h3
      · omega
      · split_ifs at h1 h3
        · omega
        · exact h1 h3
    · exact h
  obtain ⟨reads, hr, hall⟩ := sender_poll_idle cfg i inp s hsend hc ha hl hconn n
  refine ⟨sender_step_idle cfg i inp s hsend hc ha hl hconn, ⟨reads, hr, hall⟩, ?_⟩
  rw [hr]
  exact ⟨rfl, rfl, rfl, rfl, rfl, rfl, rfl, rfl, rfl⟩

/-- Witness of C12: the idle sample channel of the sample mesh build, polled three times. -/
theorem sender_step_idempotent_witness :
    (sender_poll RouterConfig.sample_mesh 1 SenderStepInput.quiet 3
      SenderStepState.sample_idle).outbound_to_receiver_channel_pointers_num_free_slots =
      SenderStepState.sample_idle.outbound_to_receiver_channel_pointers_num_free_slots :=
  (sender_step_idempotent RouterConfig.sample_mesh 1 SenderStepInput.quiet
    SenderStepState.sample_idle 3 (by decide) (by decide) (by decide) (by decide)
    (by decide)).2.2.1

end SenderIdempotence

section RoundTrip

variable (cfg : RouterConfig) (inp1 inp2 : SenderStepInput)

/-- The arguments of the first step of the round trip. -/
theorem round_trip_first_select (h4 : cfg.SENDER_NUM_BUFFERS_ARRAY 0 = 4)
    (hR : cfg.REMOTE_RECEIVER_NUM_BUFFERS = 4) :
    ((SenderSide.init cfg).apply cfg (SenderSideEvent.producer_push 0)).select 0 =
      { local_sender_channel := 0
        local_sender_channel_worker_interface := { local_write_counter := 0, local_read_counter := 0 }
        outbound_to_receiver_channel_pointers_num_free_slots := 4
        remote_receiver_channel := 0
        channel_connection_established := false
        sender_channel_free_slots_stream := 3
        sender_channel_from_receiver_credits :=
          { to_sender_packets_completed := 0
            to_sender_packets_acked := 0
            num_processed_completions := 0
            num_processed_acks := 0 }
        did_something := false
        pkts_sent_published := 0
        log := [] } := by
  simp [SenderSide.apply, SenderSide.set_channel, SenderSide.select, SenderSide.init,
    SenderChannelLocal.producer_push, h4, hR]

end RoundTrip

section RoundTripMain

/-- A state of a channel that has sent one packet, holds no queued packet, and has one ack and
one completion published but not processed: its next step sends nothing, processes the
completion and, with first-level ack, the ack; without first-level ack it reads no ack. -/
theorem sender_step_after_round_trip (cfg : RouterConfig) (i : Nat) (inp : SenderStepInput)
    (s : SenderStepState)
    (hfs : s.sender_channel_free_slots_stream = cfg.SENDER_NUM_BUFFERS_ARRAY i)
    (hfree : s.outbound_to_receiver_channel_pointers_num_free_slots = 3)
    (hcr : s.sender_channel_from_receiver_credits =
      { to_sender_packets_completed := 1, to_sender_packets_acked := 1
        num_processed_completions := 0, num_processed_acks := 0 })
    (hl : inp.acks_landing_mid_step = 0) :
    (run_sender_channel_step_impl cfg i inp s).local_sender_channel = s.local_sender_channel ∧
    (run_sender_channel_step_impl cfg i inp s).remote_receiver_channel =
      s.remote_receiver_channel ∧
    (run_sender_channel_step_impl cfg i inp s).sender_channel_free_slots_stream =
      s.sender_channel_free_slots_stream ∧
    (run_sender_channel_step_impl cfg i inp
      s).local_sender_channel_worker_interface.local_write_counter =
      s.local_sender_channel_worker_interface.local_write_counter ∧
    (run_sender_channel_step_impl cfg i inp s).pkts_sent_published = s.pkts_sent_published ∧
    (run_sender_channel_step_impl cfg i inp
      s).sender_channel_from_receiver_credits.num_processed_completions = 1 ∧
    (run_sender_channel_step_impl cfg i inp
      s).sender_channel_from_receiver_credits.num_processed_acks =
      (if cfg.ENABLE_FIRST_LEVEL_ACK then 1 else 0) ∧
    (run_sender_channel_step_impl cfg i inp
      s).outbound_to_receiver_channel_pointers_num_free_slots = 4 := by
  have hsend : sender_can_send cfg i inp s = false := by
    rcases Bool.eq_false_or_eq_true (sender_can_send cfg i inp s) with h | h
    · obtain ⟨-, h2, -⟩ := (sender_can_send_iff cfg i inp s).1 h
      omega
    · exact h
  obtain ⟨f1, f2, f3, f4, -⟩ := sender_step_fields cfg i inp s
  have S := step_summary cfg i inp s
  simp only [] at S
  obtain ⟨s1, s2, s3⟩ := S
  rw [hsend] at f1 f2 f3 f4 s1 s3
  have hnc : s.new_completions = 1 := by
    simp [SenderStepState.new_completions, hcr]
  have hna : s.new_acks inp = 1 := by
    simp [SenderStepState.new_acks, hcr, hl]
  rw [hnc, hfree] at s3
  rw [s2, hnc, hna, hcr]
  refine ⟨f1, f2, f3, f4, s1, rfl, ?_, ?_⟩
  · cases cfg.ENABLE_FIRST_LEVEL_ACK <;> rfl
  · rw [s3]
    decide

end RoundTripMain

section RoundTripClaim

/-- The first step of the round trip sends the pushed packet. -/
theorem sender_step_first_send (cfg : RouterConfig) (inp : SenderStepInput)
    (s : SenderStepState) (h4 : cfg.SENDER_NUM_BUFFERS_ARRAY 0 = 4)
    (hR : cfg.REMOTE_RECEIVER_NUM_BUFFERS = 4)
    (hb : (cfg.sender_channel_is_traffic_injection_channel 0 &&
        cfg.enable_deadlock_avoidance) = true →
      cfg.BUBBLE_FLOW_CONTROL_INJECTION_SENDER_CHANNEL_MIN_FREE_SLOTS ≤ 4)
    (hq : cfg.ETH_TXQ_SPIN_WAIT_SEND_NEXT_DATA = false → inp.eth_txq_is_busy = false)
    (hl : inp.completions_landing_mid_step = 0 ∧ inp.acks_landing_mid_step = 0)
    (hs : s =
      { local_sender_channel := 0
        local_sender_channel_worker_interface := { local_write_counter := 0, local_read_counter := 0 }
        outbound_to_receiver_channel_pointers_num_free_slots := 4
        remote_receiver_channel := 0
        channel_connection_established := false
        sender_channel_free_slots_stream := 3
        sender_channel_from_receiver_credits :=
          { to_sender_packets_completed := 0
            to_sender_packets_acked := 0
            num_processed_completions := 0
            num_processed_acks := 0 }
        did_something := false
        pkts_sent_published := 0
        log := [] }) :
    (run_sender_channel_step_impl cfg 0 inp s).local_sender_channel = 1 ∧
    (run_sender_channel_step_impl cfg 0 inp s).remote_receiver_channel = 1 ∧
    (run_sender_channel_step_impl cfg 0 inp s).sender_channel_free_slots_stream = 4 ∧
    (run_sender_channel_step_impl cfg 0 inp
      s).local_sender_channel_worker_interface.local_write_counter = 1 ∧
    (run_sender_channel_step_impl cfg 0 inp s).pkts_sent_published = 1 ∧
    (run_sender_channel_step_impl cfg 0 inp s).sender_channel_from_receiver_credits =
      { to_sender_packets_completed := 0, to_sender_packets_acked := 0
        num_processed_completions := 0, num_processed_acks := 0 } ∧
    (run_sender_channel_step_impl cfg 0 inp
      s).outbound_to_receiver_channel_pointers_num_free_slots = 3 := by
  have hsend : sender_can_send cfg 0 inp s = true := by
    rw [sender_can_send_iff, hs]
    refine ⟨?_, by rw [h4]; decide, hq⟩
    split_ifs with h
    · exact hb h
    · decide
  obtain ⟨f1, f2, f3, f4, -⟩ := sender_step_fields cfg 0 inp s
  have S := step_summary cfg 0 inp s
  simp only [] at S
  obtain ⟨s1, s2, s3⟩ := S
  rw [hsend] at f1 f2 f3 f4 s1 s3
  have hnc : s.new_completions = 0 := by rw [hs]; rfl
  have hna : s.new_acks inp = 0 := by rw [hs]; simp [SenderStepState.new_acks, hl.2]
  rw [hnc] at s3
  rw [s2, hnc, hna, hl.1, hl.2]
  rw [f1, f2, f3, f4, s1, s3, h4, hR, hs]
  refine ⟨by decide, by decide, rfl, rfl, rfl, ?_, by decide⟩
  cases cfg.ENABLE_FIRST_LEVEL_ACK <;> rfl

/-- C11 (amended). Round trip: with four buffers on sender channel 0 and four on the remote
receiver, starting from the initial state, one packet pushed into sender channel 0 and sent by
a sender step, then acked and completed by the receiver, leaves the sender after its next step
with one packet sent (write counter 1, sender and receiver slot index 1), one completion
processed, the tracked remote free-slot count back to 4, the channel's free-slots register
back to 4, and so no packet outstanding.  With first-level ack enabled the step also processes
the ack, so the ack pointer is 1; without first-level ack the step reads no ack and the ack
pointer stays 0. -/
theorem sender_round_trip (cfg : RouterConfig) (inp1 inp2 : SenderStepInput)
    (h4 : cfg.SENDER_NUM_BUFFERS_ARRAY 0 = 4) (hR : cfg.REMOTE_RECEIVER_NUM_BUFFERS = 4)
    (hserv : cfg.is_sender_channel_serviced 0 = true)
    (hb : (cfg.sender_channel_is_traffic_injection_channel 0 &&
        cfg.enable_deadlock_avoidance) = true →
      cfg.BUBBLE_FLOW_CONTROL_INJECTION_SENDER_CHANNEL_MIN_FREE_SLOTS ≤ 4)
    (hq : cfg.ETH_TXQ_SPIN_WAIT_SEND_NEXT_DATA = false → inp1.eth_txq_is_busy = false)
    (hl1 : inp1.completions_landing_mid_step = 0 ∧ inp1.acks_landing_mid_step = 0)
    (hl2 : inp2.acks_landing_mid_step = 0) :
    (SenderSide.round_trip cfg inp1 inp2).pkts_sent_published = 1 ∧
    ((SenderSide.round_trip cfg inp1 inp2).channels
      0).local_sender_channel_worker_interface.local_write_counter = 1 ∧
    ((SenderSide.round_trip cfg inp1 inp2).channels 0).local_sender_channel = 1 ∧
    (SenderSide.round_trip cfg inp1 inp2).remote_receiver_channel = 1 ∧
    ((SenderSide.round_trip cfg inp1 inp2).channels
      0).sender_channel_from_receiver_credits.num_processed_acks =
      (if cfg.ENABLE_FIRST_LEVEL_ACK then 1 else 0) ∧
    ((SenderSide.round_trip cfg inp1 inp2).channels
      0).sender_channel_from_receiver_credits.num_processed_completions = 1 ∧
    (SenderSide.round_trip cfg inp1 inp2).outbound_to_receiver_channel_pointers_num_free_slots
      = 4 ∧
    ((SenderSide.round_trip cfg inp1 inp2).channels 0).sender_channel_free_slots_stream = 4 ∧
    (SenderSide.round_trip cfg inp1 inp2).pkts_sent_published -
      ((SenderSide.round_trip cfg inp1 inp2).channels
        0).sender_channel_from_receiver_credits.num_processed_completions = 0 := by
  have A := sender_step_first_send cfg inp1 _ h4 hR hb hq hl1
    (round_trip_first_select cfg h4 hR)
  generalize ht1 : run_sender_channel_step_impl cfg 0 inp1
    (((SenderSide.init cfg).apply cfg (SenderSideEvent.producer_push 0)).select 0) = t1 at A
  obtain ⟨a1, a2, a3, a4, a5, a6, a7⟩ := A
  have e1 : ∀ (r : SenderSide) (inp : SenderStepInput),
      SenderSide.apply cfg r (SenderSideEvent.sender_step 0 inp) =
        SenderSide.store r 0 (run_sender_channel_step_impl cfg 0 inp (SenderSide.select r 0)) := by
    intro r inp
    simp only [SenderSide.apply, run_sender_channel_step, hserv, if_true]
  have hr : SenderSide.round_trip cfg inp1 inp2 =
      SenderSide.store
        (SenderSide.apply cfg (SenderSide.apply cfg
          (SenderSide.store (SenderSide.apply cfg (SenderSide.init cfg)
            (SenderSideEvent.producer_push 0)) 0 t1)
          (SenderSideEvent.receiver_ack 0)) (SenderSideEvent.receiver_completion 0))
        0 (run_sender_channel_step_impl cfg 0 inp2
          (SenderSide.select (SenderSide.apply cfg (SenderSide.apply cfg
            (SenderSide.store (SenderSide.apply cfg (SenderSide.init cfg)
              (SenderSideEvent.producer_push 0)) 0 t1)
            (SenderSideEvent.receiver_ack 0)) (SenderSideEvent.receiver_completion 0)) 0)) := by
    unfold SenderSide.round_trip
    rw [e1, e1, ht1]
  generalize hs2 : SenderSide.apply cfg (SenderSide.apply cfg
          (SenderSide.store (SenderSide.apply cfg (SenderSide.init cfg)
            (SenderSideEvent.producer_push 0)) 0 t1)
          (SenderSideEvent.receiver_ack 0)) (SenderSideEvent.receiver_completion 0) = r4 at hr
  have hsel : (r4.select 0).sender_channel_free_slots_stream = cfg.SENDER_NUM_BUFFERS_ARRAY 0 ∧
      (r4.select 0).outbound_to_receiver_channel_pointers_num_free_slots = 3 ∧
      (r4.select 0).sender_channel_from_receiver_credits =
        { to_sender_packets_completed := 1, to_sender_packets_acked := 1
          num_processed_completions := 0, num_processed_acks := 0 } ∧
      (r4.select 0).local_sender_channel = 1 ∧ (r4.select 0).remote_receiver_channel = 1 ∧
      (r4.select 0).local_sender_channel_worker_interface.local_write_counter = 1 ∧
      (r4.select 0).pkts_sent_published = 1 := by
    rw [← hs2]
    simp [SenderSide.apply, SenderSide.set_channel, SenderSide.select, SenderSide.store,
      SenderChannelLocal.receiver_ack, SenderChannelLocal.receiver_completion, a1, a2, a3, a4,
      a5, a6, a7, h4]
  obtain ⟨b1, b2, b3, b4, b5, b6, b7⟩ := hsel
  obtain ⟨c1, c2, c3, c4, c5, c6, c7, c8⟩ :=
    sender_step_after_round_trip cfg 0 inp2 (r4.select 0) b1 b2 b3 hl2
  rw [hr]
  simp only [SenderSide.store, Function.update_same]
  rw [c1, c2, c3, c4, c5, c6, c7, c8, b1, b4, b5, b6, b7, h4]
  exact ⟨rfl, rfl, rfl, rfl, rfl, rfl, rfl, rfl, rfl⟩

/-- Witness of C11 on the sample mesh build with idle transmit queue. -/
theorem sender_round_trip_witness :
    (SenderSide.round_trip RouterConfig.sample_mesh SenderStepInput.quiet
      SenderStepInput.quiet).outbound_to_receiver_channel_pointers_num_free_slots = 4 :=
  (sender_round_trip RouterConfig.sample_mesh SenderStepInput.quiet SenderStepInput.quiet
    (by decide) (by decide) (by decide) (by decide) (by decide) (by decide)
    (by decide)).2.2.2.2.2.2.1

/-- Counterexample to C11 as stated: on the sample linear build, which has no first-level ack,
the round trip leaves the write pointer and the completion pointer at 1 and the ack pointer
at 0. -/
theorem sender_round_trip_counterexample :
    RouterConfig.sample_linear.ENABLE_FIRST_LEVEL_ACK = false ∧
    RouterConfig.sample_linear.SENDER_NUM_BUFFERS_ARRAY 0 = 4 ∧
    RouterConfig.sample_linear.REMOTE_RECEIVER_NUM_BUFFERS = 4 ∧
    ((SenderSide.round_trip RouterConfig.sample_linear SenderStepInput.quiet
      SenderStepInput.quiet).channels
        0).local_sender_channel_worker_interface.local_write_counter = 1 ∧
    ((SenderSide.round_trip RouterConfig.sample_linear SenderStepInput.quiet
      SenderStepInput.quiet).channels
        0).sender_channel_from_receiver_credits.num_processed_completions = 1 ∧
    ((SenderSide.round_trip RouterConfig.sample_linear SenderStepInput.quiet
      SenderStepInput.quiet).channels
        0).sender_channel_from_receiver_credits.num_processed_acks = 0 ∧
    ((SenderSide.round_trip RouterConfig.sample_linear SenderStepInput.quiet
      SenderStepInput.quiet).channels
        0).sender_channel_from_receiver_credits.to_sender_packets_acked = 1 := by
  decide

end RoundTripClaim

/-! ## Completion addressing, delivery order and direction tables -/

section CompletionAddressing

/-- C13. Completion credit addressing, evaluated on the build with separate flush and
completion pointers.  The packets in slots 0 and 1 came from sender channels 1 and 2; the
packet of slot 0 is admitted first and sender channel 1 is recorded for slot 0.  In the next
step the packet of slot 1 is admitted, the write of slot 0 is flushed, and the completion
pointer, at slot 0, advances by one: the one completion credit of that step is addressed to
sender channel 2, the id recorded for the slot at the already advanced write-flush pointer,
not to sender channel 1, the id recorded for the slot at the completion pointer. -/
theorem completion_credit_addressing_failing_input :
    RouterConfig.sample_unfused.fuse_receiver_flush_and_completion_ptr = false ∧
    ReceiverStepState.Reachable RouterConfig.sample_unfused
      ReceiverStepState.sample_first_admitted ∧
    ReceiverStepState.sample_first_admitted.receiver_channel_pointers.completion_counter.get_buffer_index
      = 0 ∧
    ReceiverStepState.sample_first_admitted.receiver_channel_pointers.get_src_chan_id 0 = 1 ∧
    (run_receiver_channel_step_impl RouterConfig.sample_unfused
      (ReceiverStepInput.sample_two_senders true)
      ReceiverStepState.sample_first_admitted).receiver_channel_pointers.completion_counter.counter
      = ReceiverStepState.sample_first_admitted.receiver_channel_pointers.completion_counter.counter
        + 1 ∧
    ((run_receiver_channel_step_impl RouterConfig.sample_unfused
      (ReceiverStepInput.sample_two_senders true)
      ReceiverStepState.sample_first_admitted).log.drop
        ReceiverStepState.sample_first_admitted.log.length).filterMap
        ReceiverEvent.completion_ack_target = [2] ∧
    (run_receiver_channel_step_impl RouterConfig.sample_unfused
      (ReceiverStepInput.sample_two_senders true)
      ReceiverStepState.sample_first_admitted).receiver_channel_pointers.get_src_chan_id 0 = 1 :=
  ⟨by decide,
    ReceiverStepState.Reachable.step _ _
      (ReceiverStepState.Reachable.arrive _ _ (ReceiverStepState.Reachable.reset _)),
    by decide, by decide, by decide, by decide, by decide⟩

end CompletionAddressing

section LocalDeliveryOrder

/-- Counterexample to C16 as stated, in mesh mode: on a NORTH router the command
`WRITE_AND_FORWARD_NEW` results in a local delivery and two downstream forwards, and the
local delivery is issued first. -/
theorem local_delivery_order_counterexample :
    receiver_forward_packet_2d eth_chan_directions.NORTH
        LowLatencyMeshRoutingFields.WRITE_AND_FORWARD_NEW =
      [ForwardAction.forward_to_local_destination,
        ForwardAction.forward_payload_to_downstream_edm 0,
        ForwardAction.forward_payload_to_downstream_edm 1] ∧
    local_delivery_after_every_forward
      (receiver_forward_packet_2d eth_chan_directions.NORTH
        LowLatencyMeshRoutingFields.WRITE_AND_FORWARD_NEW) = false := by
  decide

/-- C16 (amended). Order of local delivery and forwards for one packet.  The linear
`receiver_forward_packet` issues the local delivery after every forward.  The mesh
`receiver_forward_packet` does so on every router direction for every command that is not a
trunk-end multicast (in particular `WRITE_AND_FORWARD_EW`, `_NS`, `_NSE`, `_NSW`, `_NSEW`); for
the trunk-end multicasts (`WRITE_AND_FORWARD_NE`, `_NW`, `_NEW`, `_SE`, `_SW`, `_SEW`) it issues
the local delivery, when there is one, before every forward. -/
theorem local_delivery_order :
    (∀ (cfg : RouterConfig) (cached_routing_fields_value : Nat),
      local_delivery_after_every_forward
        (receiver_forward_packet cfg cached_routing_fields_value) = true) ∧
    (∀ (d : eth_chan_directions) (hop_cmd : Fin 16),
      (hop_cmd_is_trunk_end hop_cmd = false →
        local_delivery_after_every_forward (receiver_forward_packet_2d d hop_cmd) = true) ∧
      (hop_cmd_is_trunk_end hop_cmd = true →
        local_delivery_before_every_forward (receiver_forward_packet_2d d hop_cmd) = true)) := by
  constructor
  · intro cfg v
    unfold receiver_forward_packet
    simp only []
    split_ifs <;> rfl
  · decide

end LocalDeliveryOrder

section DirectionTables

/-- C20. The direction and compact-index tables are mutually inverse: for every router
direction `d` and compact index `i` in {0, 1, 2}, `edm_index_to_edm_direction[d][i]` is a
direction other than `d` whose compact index is `i`; for every direction `x` other than `d`,
`edm_index_to_edm_direction[d][direction_to_compact_index_map[d][x]]` is `x`; the three other
directions are listed in ascending order; `get_downstream_edm_interface_index` reads the
compact-index table. -/
theorem direction_tables_inverse :
    (∀ (d : eth_chan_directions) (i : Fin 3),
      edm_index_to_edm_direction d i ≠ d ∧
      direction_to_compact_index_map d (edm_index_to_edm_direction d i) = i) ∧
    (∀ d x : eth_chan_directions, x ≠ d →
      edm_index_to_edm_direction d (direction_to_compact_index_map d x) = x) ∧
    (∀ (d : eth_chan_directions) (i j : Fin 3), i < j →
      (edm_index_to_edm_direction d i).toNat < (edm_index_to_edm_direction d j).toNat) ∧
    (∀ d x : eth_chan_directions,
      get_downstream_edm_interface_index d x = direction_to_compact_index_map d x) := by
  decide

end DirectionTables

/-! ## Main loop: schedule and termination -/

section MainLoopTrace

variable (cfg : KernelConfig)

theorem environment_events_trace (events : List EnvironmentEvent) (st : MainLoopState) :
    (st.environment_events events).trace = st.trace := by
  unfold MainLoopState.environment_events
  induction events generalizing st with
  | nil => rfl
  | cons e l ih =>
    rw [List.foldl_cons, ih]
    cases e <;> rfl

theorem sender_call_trace (i : Nat) (inp : SenderStepInput) (st : MainLoopState) :
    ∃ r, (st.run_sender_channel_step cfg i inp).trace =
      st.trace ++ [MainLoopEvent.run_sender_channel_step i r] := by
  unfold MainLoopState.run_sender_channel_step
  split_ifs
  · exact ⟨_, rfl⟩
  · exact ⟨_, rfl⟩

theorem receiver_call_trace (i : Nat) (inp : ReceiverStepInput) (st : MainLoopState) :
    ∃ r, (st.run_receiver_channel_step cfg i inp).trace =
      st.trace ++ [MainLoopEvent.run_receiver_channel_step i r] := by
  unfold MainLoopState.run_receiver_channel_step
  split_ifs
  · exact ⟨_, rfl⟩
  · exact ⟨_, rfl⟩

/-- The call one channel step of the schedule appends to the trace. -/
theorem channel_step_trace (inp : SubIterationInput) (step : ChannelStep) (st : MainLoopState) :
    ∃ call, (st.channel_step cfg inp step).trace = st.trace ++ [call] ∧
      call.channel_step = some step := by
  cases step with
  | sender i =>
    obtain ⟨r, h⟩ := sender_call_trace cfg i (inp.sender i) st
    exact ⟨_, h, rfl⟩
  | receiver i =>
    obtain ⟨r, h⟩ := receiver_call_trace cfg i inp.receiver st
    exact ⟨_, h, rfl⟩

/-- The calls a list of channel steps appends to the trace. -/
theorem run_schedule_trace (inp : SubIterationInput) (steps : List ChannelStep) (k : Nat)
    (st : MainLoopState) :
    ∃ calls, (MainLoopState.run_schedule cfg inp k steps st).trace = st.trace ++ calls ∧
      calls.map MainLoopEvent.channel_step = steps.map some := by
  induction steps generalizing k st with
  | nil => exact ⟨[], by simp [MainLoopState.run_schedule], rfl⟩
  | cons step rest ih =>
    obtain ⟨call, h1, h2⟩ := channel_step_trace cfg inp step
      (st.environment_events (inp.environment k))
    rw [environment_events_trace] at h1
    obtain ⟨calls, h3, h4⟩ := ih (k + 1)
      ((st.environment_events (inp.environment k)).channel_step cfg inp step)
    refine ⟨call :: calls, ?_, ?_⟩
    · rw [MainLoopState.run_schedule, h3, h1, List.append_assoc]
      rfl
    · rw [List.map_cons, List.map_cons, h2, h4]

/-- The body of the `for` loop performs the channel steps of the schedule, in its order. -/
theorem sub_iteration_eq_run_schedule (inp : SubIterationInput) (st : MainLoopState) :
    main_loop_sub_iteration cfg inp st =
      MainLoopState.run_schedule cfg inp 0
        (sub_iteration_schedule cfg.is_2d_fabric inp.operands_right_to_left) st := by
  unfold main_loop_sub_iteration sub_iteration_schedule
  rcases Bool.eq_false_or_eq_true cfg.is_2d_fabric with h2d | h2d <;>
    rcases Bool.eq_false_or_eq_true inp.operands_right_to_left with ho | ho <;>
    simp [h2d, ho, MainLoopState.run_schedule, MainLoopState.channel_step]

/-- The calls one sub-iteration appends to the trace. -/
theorem sub_iteration_trace (inp : SubIterationInput) (st : MainLoopState) :
    ∃ calls, (main_loop_sub_iteration cfg inp st).trace = st.trace ++ calls ∧
      calls.map MainLoopEvent.channel_step =
        (sub_iteration_schedule cfg.is_2d_fabric inp.operands_right_to_left).map some := by
  rw [sub_iteration_eq_run_schedule]
  exact run_schedule_trace cfg inp _ 0 st

/-- The first `n` passes of the `for` loop are `n` sub-iterations, pass `k` on the inputs
`inputs k`. -/
theorem main_loop_batch_eq_foldl (inputs : Nat → SubIterationInput) (n : Nat)
    (st : MainLoopState) :
    main_loop_batch cfg inputs n st =
      (List.range n).foldl (fun s k => main_loop_sub_iteration cfg (inputs k) s) st := by
  induction n with
  | zero => rfl
  | succ n ih =>
    rw [main_loop_batch, ih, List.range_succ, List.foldl_append]
    rfl

/-- The calls a batch of `n` sub-iterations appends to the trace. -/
theorem batch_trace (inputs : Nat → SubIterationInput) (n : Nat) (st : MainLoopState) :
    ∃ calls, (main_loop_batch cfg inputs n st).trace = st.trace ++ calls ∧
      calls.map MainLoopEvent.channel_step =
        (((List.range n).map fun k =>
          sub_iteration_schedule cfg.is_2d_fabric
            (inputs k).operands_right_to_left).flatten).map some := by
  induction n with
  | zero => exact ⟨[], by simp [main_loop_batch], rfl⟩
  | succ n ih =>
    obtain ⟨c1, h1, h2⟩ := ih
    obtain ⟨c2, h3, h4⟩ := sub_iteration_trace cfg (inputs n) (main_loop_batch cfg inputs n st)
    refine ⟨c1 ++ c2, ?_, ?_⟩
    · rw [main_loop_batch, h3, h1, List.append_assoc]
    · rw [List.map_append, h2, h4, List.range_succ]
      simp

/-- With every pass evaluating left to right, the schedule of a batch is the same schedule
repeated. -/
theorem batch_schedule_left_to_right (inputs : Nat → SubIterationInput)
    (h : ∀ k, (inputs k).operands_right_to_left = false) :
    batch_schedule cfg inputs =
      (List.replicate cfg.iterations_between_ctx_switch_and_teardown_checks
        (sub_iteration_schedule cfg.is_2d_fabric false)).flatten := by
  unfold batch_schedule
  congr 1
  generalize cfg.iterations_between_ctx_switch_and_teardown_checks = n
  induction n with
  | zero => rfl
  | succ n ih =>
    rw [List.range_succ, List.map_append, ih, List.replicate_succ']
    simp [h n]

/-- The number of channel steps of a batch. -/
theorem batch_schedule_length (inputs : Nat → SubIterationInput) :
    (batch_schedule cfg inputs).length =
      cfg.iterations_between_ctx_switch_and_teardown_checks *
        (if cfg.is_2d_fabric then 5 else 3) := by
  unfold batch_schedule
  generalize cfg.iterations_between_ctx_switch_and_teardown_checks = n
  induction n with
  | zero => simp
  | succ n ih =>
    rw [List.range_succ, List.map_append, List.flatten_append, List.length_append, ih]
    have : (sub_iteration_schedule cfg.is_2d_fabric (inputs n).operands_right_to_left).length =
        (if cfg.is_2d_fabric then 5 else 3) := by
      unfold sub_iteration_schedule
      cases cfg.is_2d_fabric <;> cases (inputs n).operands_right_to_left <;> rfl
    simp only [List.map_cons, List.map_nil, List.flatten_cons, List.flatten_nil,
      List.append_nil, this, Nat.succ_mul]

end MainLoopTrace

section MainLoopSchedule

/-- The context-switch bookkeeping appends no channel step and no poll to the trace. -/
theorem context_switch_trace (cfg : KernelConfig) (st : MainLoopState) :
    ∃ tail, (main_loop_context_switch cfg st).trace = st.trace ++ tail ∧
      tail.filterMap MainLoopEvent.channel_step = [] ∧
      tail.filterMap MainLoopEvent.polled_signal = [] := by
  unfold main_loop_context_switch
  split_ifs
  · exact ⟨[], by simp, rfl, rfl⟩
  · exact ⟨[MainLoopEvent.run_routing_without_noc_sync], rfl, rfl, rfl⟩
  · exact ⟨[], by simp, rfl, rfl⟩
  · exact ⟨[], by simp, rfl, rfl⟩

/-- A list of step calls holds no poll, and its channel steps are those of its calls. -/
theorem calls_filter (calls : List MainLoopEvent) (steps : List ChannelStep)
    (h : calls.map MainLoopEvent.channel_step = steps.map some) :
    calls.filterMap MainLoopEvent.channel_step = steps ∧
    calls.filterMap MainLoopEvent.polled_signal = [] := by
  induction calls generalizing steps with
  | nil =>
    cases steps with
    | nil => exact ⟨rfl, rfl⟩
    | cons a l => simp at h
  | cons e l ih =>
    cases steps with
    | nil => simp at h
    | cons a m =>
      simp only [List.map_cons, List.cons.injEq] at h
      obtain ⟨h1, h2⟩ := ih m h.2
      have he := h.1
      cases e <;> simp [MainLoopEvent.channel_step] at he <;>
        simp [MainLoopEvent.channel_step, MainLoopEvent.polled_signal, he, h1, h2]

/-- The events one outer iteration appends to the trace. -/
theorem outer_iteration_trace (cfg : KernelConfig) (inputs : Nat → SubIterationInput)
    (st : MainLoopState) :
    ∃ events, (main_loop_outer_iteration cfg inputs st).trace = st.trace ++ events ∧
      events.filterMap MainLoopEvent.channel_step = batch_schedule cfg inputs ∧
      events.filterMap MainLoopEvent.polled_signal = [] := by
  unfold main_loop_outer_iteration
  obtain ⟨calls, h1, h2⟩ := batch_trace cfg inputs
    cfg.iterations_between_ctx_switch_and_teardown_checks
    { st with did_something := false, tx_progress := false, rx_progress := false }
  obtain ⟨tail, h3, h4, h5⟩ := context_switch_trace cfg
    (main_loop_batch cfg inputs cfg.iterations_between_ctx_switch_and_teardown_checks
      { st with did_something := false, tx_progress := false, rx_progress := false })
  obtain ⟨h6, h7⟩ := calls_filter calls _ h2
  refine ⟨calls ++ tail, ?_, ?_, ?_⟩
  · rw [h3, h1, List.append_assoc]
  · rw [List.filterMap_append, h6, h4, List.append_nil]
    rfl
  · rw [List.filterMap_append, h7, h5]; rfl

/-- C17 (amended). Main-loop schedule.  Every sub-iteration performs the channel steps
sender 0, receiver 0, sender 1 and, in mesh mode only, sender 2 and sender 3, in this order
with sender channel 0 first, except that sender 2 and sender 3, the two operands of one `|`
expression, run in the order in which the pass evaluates the operands: sender 2 then sender 3
when left to right, sender 3 then sender 2 when right to left.  Every outer iteration clears
the progress flags and performs exactly `iterations_between_ctx_switch_and_teardown_checks`
sub-iterations, with no poll of the termination signal inside them.  The call of a sender
channel this core services runs `run_sender_channel_step_impl` on the objects of that channel
and ors the value it returns into `tx_progress`; the call of a receiver channel this core
services runs `run_receiver_channel_step_impl` on the receiver objects and ors the value it
returns into `rx_progress`.  A sender or receiver channel this core does not service
contributes a call that returns false and changes no channel object and no flag. -/
theorem main_loop_schedule (cfg : KernelConfig) (inputs : Nat → SubIterationInput)
    (inp : SubIterationInput) (st : MainLoopState) :
    (main_loop_sub_iteration cfg inp st =
        MainLoopState.run_schedule cfg inp 0
          ([ChannelStep.sender 0, ChannelStep.receiver 0, ChannelStep.sender 1] ++
            (if cfg.is_2d_fabric then
              (if inp.operands_right_to_left then [ChannelStep.sender 3, ChannelStep.sender 2]
                else [ChannelStep.sender 2, ChannelStep.sender 3])
            else [])) st ∧
      ∃ calls, (main_loop_sub_iteration cfg inp st).trace = st.trace ++ calls ∧
        calls.map MainLoopEvent.channel_step =
          ([ChannelStep.sender 0, ChannelStep.receiver 0, ChannelStep.sender 1] ++
            (if cfg.is_2d_fabric then
              (if inp.operands_right_to_left then [ChannelStep.sender 3, ChannelStep.sender 2]
                else [ChannelStep.sender 2, ChannelStep.sender 3])
            else [])).map some) ∧
    (main_loop_outer_iteration cfg inputs st =
        main_loop_context_switch cfg
          ((List.range cfg.iterations_between_ctx_switch_and_teardown_checks).foldl
            (fun s k => main_loop_sub_iteration cfg (inputs k) s) st.begin_outer_iteration) ∧
      ∃ events, (main_loop_outer_iteration cfg inputs st).trace = st.trace ++ events ∧
        events.filterMap MainLoopEvent.channel_step =
          ((List.range cfg.iterations_between_ctx_switch_and_teardown_checks).map fun k =>
            sub_iteration_schedule cfg.is_2d_fabric
              (inputs k).operands_right_to_left).flatten ∧
        (events.filterMap MainLoopEvent.channel_step).length =
          cfg.iterations_between_ctx_switch_and_teardown_checks *
            (if cfg.is_2d_fabric then 5 else 3) ∧
        events.filterMap MainLoopEvent.polled_signal = []) ∧
    (∀ (i : Nat) (sender_inp : SenderStepInput), cfg.is_sender_channel_serviced i = true →
      (st.run_sender_channel_step cfg i sender_inp).sender_side =
        SenderSide.store (st.sender_side.with_did_something st.did_something) i
          (run_sender_channel_step_impl cfg.toRouterConfig i sender_inp
            (SenderSide.select (st.sender_side.with_did_something st.did_something) i)) ∧
      (st.run_sender_channel_step cfg i sender_inp).trace =
        st.trace ++ [MainLoopEvent.run_sender_channel_step i
          (run_sender_channel_step_impl_result cfg.toRouterConfig i sender_inp
            (SenderSide.select (st.sender_side.with_did_something st.did_something) i))] ∧
      (st.run_sender_channel_step cfg i sender_inp).did_something =
        run_sender_channel_step_impl_result cfg.toRouterConfig i sender_inp
          (SenderSide.select (st.sender_side.with_did_something st.did_something) i) ∧
      (st.run_sender_channel_step cfg i sender_inp).tx_progress =
        (st.tx_progress ||
          run_sender_channel_step_impl_result cfg.toRouterConfig i sender_inp
            (SenderSide.select (st.sender_side.with_did_something st.did_something) i)) ∧
      (st.run_sender_channel_step cfg i sender_inp).rx_progress = st.rx_progress ∧
      (st.run_sender_channel_step cfg i sender_inp).receiver_channel_0 =
        st.receiver_channel_0) ∧
    (∀ (i : Nat) (receiver_inp : ReceiverStepInput),
      cfg.is_receiver_channel_serviced i = true →
      (st.run_receiver_channel_step cfg i receiver_inp).receiver_channel_0 =
        run_receiver_channel_step_impl (cfg.for_receiver_channel i) receiver_inp
          (st.receiver_channel_0.with_did_something st.did_something) ∧
      (st.run_receiver_channel_step cfg i receiver_inp).trace =
        st.trace ++ [MainLoopEvent.run_receiver_channel_step i
          (run_receiver_channel_step_impl_result (cfg.for_receiver_channel i) receiver_inp
            (st.receiver_channel_0.with_did_something st.did_something))] ∧
      (st.run_receiver_channel_step cfg i receiver_inp).did_something =
        run_receiver_channel_step_impl_result (cfg.for_receiver_channel i) receiver_inp
          (st.receiver_channel_0.with_did_something st.did_something) ∧
      (st.run_receiver_channel_step cfg i receiver_inp).rx_progress =
        (st.rx_progress ||
          run_receiver_channel_step_impl_result (cfg.for_receiver_channel i) receiver_inp
            (st.receiver_channel_0.with_did_something st.did_something)) ∧
      (st.run_receiver_channel_step cfg i receiver_inp).tx_progress = st.tx_progress ∧
      (st.run_receiver_channel_step cfg i receiver_inp).sender_side = st.sender_side) ∧
    (∀ (i : Nat) (sender_inp : SenderStepInput), cfg.is_sender_channel_serviced i = false →
      (st.run_sender_channel_step cfg i sender_inp).trace =
        st.trace ++ [MainLoopEvent.run_sender_channel_step i false] ∧
      (st.run_sender_channel_step cfg i sender_inp).sender_side = st.sender_side ∧
      (st.run_sender_channel_step cfg i sender_inp).receiver_channel_0 =
        st.receiver_channel_0 ∧
      (st.run_sender_channel_step cfg i sender_inp).did_something = st.did_something ∧
      (st.run_sender_channel_step cfg i sender_inp).tx_progress = st.tx_progress ∧
      (st.run_sender_channel_step cfg i sender_inp).rx_progress = st.rx_progress) ∧
    (∀ (i : Nat) (receiver_inp : ReceiverStepInput),
      cfg.is_receiver_channel_serviced i = false →
      (st.run_receiver_channel_step cfg i receiver_inp).trace =
        st.trace ++ [MainLoopEvent.run_receiver_channel_step i false] ∧
      (st.run_receiver_channel_step cfg i receiver_inp).sender_side = st.sender_side ∧
      (st.run_receiver_channel_step cfg i receiver_inp).receiver_channel_0 =
        st.receiver_channel_0 ∧
      (st.run_receiver_channel_step cfg i receiver_inp).did_something = st.did_something ∧
      (st.run_receiver_channel_step cfg i receiver_inp).tx_progress = st.tx_progress ∧
      (st.run_receiver_channel_step cfg i receiver_inp).rx_progress = st.rx_progress) := by
  refine ⟨⟨sub_iteration_eq_run_schedule cfg inp st, sub_iteration_trace cfg inp st⟩,
    ⟨?_, ?_⟩, ?_, ?_, ?_, ?_⟩
  · unfold main_loop_outer_iteration
    rw [main_loop_batch_eq_foldl]
    rfl
  · obtain ⟨events, e1, e2, e3⟩ := outer_iteration_trace cfg inputs st
    refine ⟨events, e1, e2, ?_, e3⟩
    rw [e2]
    exact batch_schedule_length cfg inputs
  · intro i sender_inp h
    unfold MainLoopState.run_sender_channel_step
    rw [if_pos h]
    have hs : cfg.toRouterConfig.is_sender_channel_serviced i = true := h
    unfold run_sender_channel_step run_sender_channel_step_impl_result
    rw [if_pos hs]
    exact ⟨rfl, rfl, rfl, rfl, rfl, rfl⟩
  · intro i receiver_inp h
    unfold MainLoopState.run_receiver_channel_step
    rw [if_pos h]
    unfold run_receiver_channel_step run_receiver_channel_step_impl_result
    rw [if_pos h]
    exact ⟨rfl, rfl, rfl, rfl, rfl, rfl⟩
  · intro i sender_inp h
    unfold MainLoopState.run_sender_channel_step
    rw [if_neg (by simp [h])]
    exact ⟨rfl, rfl, rfl, rfl, Bool.or_false _, rfl⟩
  · intro i receiver_inp h
    unfold MainLoopState.run_receiver_channel_step
    rw [if_neg (by simp [h])]
    exact ⟨rfl, rfl, rfl, rfl, rfl, Bool.or_false _⟩

/-- Counterexample to C17 as stated: on the sample mesh build a sub-iteration that evaluates
the operands of the mesh statement right to left steps sender 3 before sender 2. -/
theorem main_loop_schedule_counterexample :
    KernelConfig.sample.is_2d_fabric = true ∧
    (main_loop_sub_iteration KernelConfig.sample SubIterationInput.quiet_right_to_left
      (MainLoopState.init KernelConfig.sample (fun _ => 0))).trace.filterMap
        MainLoopEvent.channel_step =
      [ChannelStep.sender 0, ChannelStep.receiver 0, ChannelStep.sender 1,
        ChannelStep.sender 3, ChannelStep.sender 2] := by
  decide

end MainLoopSchedule

section MainLoopTermination

variable (cfg : KernelConfig) (got : TerminationSignal → Bool)

/-- The trace of the `while` loop: the performed outer iterations, each a poll answered false
followed by a whole batch, then the poll at which the loop is left. -/
theorem main_loop_while_trace (inputs : List OuterIterationInput) (st : MainLoopState) :
    ∃ batches : List (List MainLoopEvent),
      batches.length = (outer_iterations_run got inputs).length ∧
      (∀ b ∈ batches, b.filterMap MainLoopEvent.polled_signal = []) ∧
      List.Forall₂ (fun inp b => b.filterMap MainLoopEvent.channel_step =
        batch_schedule cfg inp.sub_iterations) (outer_iterations_run got inputs) batches ∧
      ((∀ inp ∈ inputs, ∀ k, (inp.sub_iterations k).operands_right_to_left = false) →
        ∀ b ∈ batches, b.filterMap MainLoopEvent.channel_step =
          (List.replicate cfg.iterations_between_ctx_switch_and_teardown_checks
            (sub_iteration_schedule cfg.is_2d_fabric false)).flatten) ∧
      (main_loop_while cfg got inputs st).1.trace =
        st.trace ++
          (List.zipWith outer_iteration_events (outer_iterations_run got inputs)
            batches).flatten ++
          final_poll got inputs ∧
      ((main_loop_while cfg got inputs st).2 = true ↔
        ∃ inp ∈ inputs, got inp.termination_signal = true) ∧
      ((main_loop_while cfg got inputs st).2 = true ↔ final_poll got inputs ≠ []) := by
  induction inputs generalizing st with
  | nil =>
    refine ⟨[], rfl, ?_, ?_, ?_, ?_, ?_, ?_⟩
    · intro b hb; simp at hb
    · simp [outer_iterations_run]
    · intro _ b hb; simp at hb
    · simp [main_loop_while, outer_iterations_run, final_poll]
    · simp [main_loop_while]
    · simp [main_loop_while, final_poll]
  | cons inp rest ih =>
    rcases Bool.eq_false_or_eq_true (got inp.termination_signal) with h | h
    · refine ⟨[], ?_, ?_, ?_, ?_, ?_, ?_, ?_⟩
      · simp [outer_iterations_run, h]
      · intro b hb; simp at hb
      · simp [outer_iterations_run, h]
      · intro _ b hb; simp at hb
      · simp [main_loop_while, outer_iterations_run, final_poll, h]
      · simp only [main_loop_while, h, if_true, true_iff]
        exact ⟨inp, List.mem_cons_self _ _, h⟩
      · simp [main_loop_while, final_poll, h]
    · obtain ⟨events, e1, e2, e3⟩ := outer_iteration_trace cfg inp.sub_iterations
        { st with trace := st.trace ++
          [MainLoopEvent.got_immediate_termination_signal inp.termination_signal
            (got inp.termination_signal)] }
      obtain ⟨batches, b1, b2, b2s, b2l, b3, b4, b5⟩ := ih (main_loop_outer_iteration cfg inp.sub_iterations
        { st with trace := st.trace ++
          [MainLoopEvent.got_immediate_termination_signal inp.termination_signal
            (got inp.termination_signal)] })
      have hw : main_loop_while cfg got (inp :: rest) st =
          main_loop_while cfg got rest (main_loop_outer_iteration cfg inp.sub_iterations
            { st with trace := st.trace ++
              [MainLoopEvent.got_immediate_termination_signal inp.termination_signal
                (got inp.termination_signal)] }) := by
        simp [main_loop_while, h]
      have hrun : outer_iterations_run got (inp :: rest) =
          inp :: outer_iterations_run got rest := by
        simp [outer_iterations_run, h]
      have hfin : final_poll got (inp :: rest) = final_poll got rest := by
        simp [final_poll, h]
      refine ⟨events :: batches, ?_, ?_, ?_, ?_, ?_, ?_, ?_⟩
      · rw [hrun, List.length_cons, List.length_cons, b1]
      · intro b hb
        rcases List.mem_cons.1 hb with hb | hb
        · rw [hb]; exact e3
        · exact b2 b hb
      · rw [hrun]
        exact List.Forall₂.cons e2 b2s
      · intro hall b hb
        rcases List.mem_cons.1 hb with hb | hb
        · rw [hb, e2]
          exact batch_schedule_left_to_right cfg inp.sub_iterations
            (hall inp (List.mem_cons_self _ _))
        · exact b2l (fun x hx => hall x (List.mem_cons_of_mem _ hx)) b hb
      · rw [hw, b3, e1, hrun, hfin, h]
        simp [outer_iteration_events]
      · rw [hw, b4]
        constructor
        · rintro ⟨x, hx, hg⟩
          exact ⟨x, List.mem_cons_of_mem _ hx, hg⟩
        · rintro ⟨x, hx, hg⟩
          rcases List.mem_cons.1 hx with hx | hx
          · rw [hx, h] at hg; exact absurd hg (by decide)
          · exact ⟨x, hx, hg⟩
      · rw [hw, b5, hfin]

end MainLoopTermination

section MainLoopTerminationClaim

/-- The poll at which the loop is left read a signal on which the helper answers true. -/
theorem final_poll_signal (got : TerminationSignal → Bool) (inputs : List OuterIterationInput)
    (h : final_poll got inputs ≠ []) :
    ∃ signal, final_poll got inputs =
        [MainLoopEvent.got_immediate_termination_signal signal true] ∧ got signal = true := by
  induction inputs with
  | nil => exact absurd rfl h
  | cons inp rest ih =>
    rcases Bool.eq_false_or_eq_true (got inp.termination_signal) with hg | hg
    · exact ⟨inp.termination_signal, by simp [final_poll, hg], hg⟩
    · have hfin : final_poll got (inp :: rest) = final_poll got rest := by
        simp [final_poll, hg]
      rw [hfin] at h ⊢
      exact ih h

/-- Every performed outer iteration was entered on a poll answered false. -/
theorem outer_iterations_run_polls (got : TerminationSignal → Bool)
    (inputs : List OuterIterationInput) :
    ∀ inp ∈ outer_iterations_run got inputs, got inp.termination_signal = false := by
  intro inp h
  have := List.mem_takeWhile_imp h
  simpa using this

/-- C18. Termination: `run_fabric_edm_main_loop` returns exactly when, at the head of some
outer iteration, `got_immediate_termination_signal` answers true on the signal it samples;
for a helper that answers false on `KEEP_RUNNING`, the signal read by the poll on which the
loop returns is not `KEEP_RUNNING`, and that poll is the last action of the loop.  The signal
is polled once per outer iteration and never inside a batch: the trace is the initial write
of `KEEP_RUNNING`, then for every outer iteration performed one poll answered false followed
by a whole batch of `iterations_between_ctx_switch_and_teardown_checks` sub-iterations with no
poll inside it, then the poll on which the loop returns. -/
theorem main_loop_termination (cfg : KernelConfig)
    (got_immediate_termination_signal : TerminationSignal → Bool) (src_chan_ids : Nat → Nat)
    (inputs : List OuterIterationInput)
    (hk : got_immediate_termination_signal TerminationSignal.KEEP_RUNNING = false) :
    ((run_fabric_edm_main_loop cfg got_immediate_termination_signal src_chan_ids inputs).2 = true
      ↔ ∃ inp ∈ inputs, got_immediate_termination_signal inp.termination_signal = true) ∧
    ((run_fabric_edm_main_loop cfg got_immediate_termination_signal src_chan_ids inputs).2 = true
      → ∃ signal,
        (run_fabric_edm_main_loop cfg got_immediate_termination_signal src_chan_ids
          inputs).1.trace.getLast? =
          some (MainLoopEvent.got_immediate_termination_signal signal true) ∧
        got_immediate_termination_signal signal = true ∧
        signal ≠ TerminationSignal.KEEP_RUNNING) ∧
    (∃ batches : List (List MainLoopEvent),
      batches.length = (outer_iterations_run got_immediate_termination_signal inputs).length ∧
      (∀ b ∈ batches, b.filterMap MainLoopEvent.polled_signal = []) ∧
      List.Forall₂ (fun inp b => b.filterMap MainLoopEvent.channel_step =
          batch_schedule cfg inp.sub_iterations)
        (outer_iterations_run got_immediate_termination_signal inputs) batches ∧
      ((∀ inp ∈ inputs, ∀ k, (inp.sub_iterations k).operands_right_to_left = false) →
        ∀ b ∈ batches, b.filterMap MainLoopEvent.channel_step =
          (List.replicate cfg.iterations_between_ctx_switch_and_teardown_checks
            (sub_iteration_schedule cfg.is_2d_fabric false)).flatten) ∧
      (run_fabric_edm_main_loop cfg got_immediate_termination_signal src_chan_ids
          inputs).1.trace =
        [MainLoopEvent.set_termination_signal TerminationSignal.KEEP_RUNNING] ++
          (List.zipWith outer_iteration_events
            (outer_iterations_run got_immediate_termination_signal inputs) batches).flatten ++
          final_poll got_immediate_termination_signal inputs) ∧
    (∀ inp ∈ outer_iterations_run got_immediate_termination_signal inputs,
      got_immediate_termination_signal inp.termination_signal = false) := by
  obtain ⟨batches, b1, b2, b2s, b2l, b3, b4, b5⟩ := main_loop_while_trace cfg
    got_immediate_termination_signal inputs (MainLoopState.init cfg src_chan_ids)
  refine ⟨b4, ?_, ⟨batches, b1, b2, b2s, b2l, b3⟩,
    outer_iterations_run_polls got_immediate_termination_signal inputs⟩
  intro hret
  obtain ⟨signal, hs1, hs2⟩ := final_poll_signal got_immediate_termination_signal inputs
    (b5.1 hret)
  refine ⟨signal, ?_, hs2, ?_⟩
  · unfold run_fabric_edm_main_loop
    rw [b3, hs1, List.getLast?_append, List.getLast?_singleton]
    rfl
  · intro h
    rw [h, hk] at hs2
    exact absurd hs2 (by decide)

/-- Witness of C18: on the sample build the loop performs two outer iterations under
`KEEP_RUNNING` and returns on the third poll. -/
theorem main_loop_termination_witness :
    (run_fabric_edm_main_loop KernelConfig.sample got_immediate_termination_signal (fun _ => 0)
      [OuterIterationInput.quiet TerminationSignal.KEEP_RUNNING,
        OuterIterationInput.quiet TerminationSignal.KEEP_RUNNING,
        OuterIterationInput.quiet (TerminationSignal.terminate 1)]).2 = true :=
  (main_loop_termination KernelConfig.sample got_immediate_termination_signal (fun _ => 0)
    [OuterIterationInput.quiet TerminationSignal.KEEP_RUNNING,
      OuterIterationInput.quiet TerminationSignal.KEEP_RUNNING,
      OuterIterationInput.quiet (TerminationSignal.terminate 1)] (by decide)).1.2
    ⟨OuterIterationInput.quiet (TerminationSignal.terminate 1), by simp, by decide⟩

end MainLoopTerminationClaim

/-! ## Teardown -/

section Teardown

/-- C19. Teardown ordering.  On every core `teardown` issues the write barrier and then the
atomic barrier exactly once, after the wait on the in-flight transactions of receiver channel
0 that a core servicing that channel performs; the write of `TERMINATED` to the router status
is performed by the core with `MY_ERISC_ID == 0` and by no other core, once, as the last
action of its teardown and so after its barriers.  With several cores a rendezvous
(`wait_for_other_local_erisc`) separates the wait on the transactions and the barriers of
every other core from the master's write of `TERMINATED`: they come before the third
rendezvous of their core, the write after the third rendezvous of the master. -/
theorem teardown_ordering (cfg : KernelConfig) :
    (TeardownEvent.set_edm_status_terminated ∈ teardown cfg ↔ cfg.MY_ERISC_ID = 0) ∧
    (∃ pre, teardown cfg =
        pre ++ [TeardownEvent.noc_async_write_barrier, TeardownEvent.noc_async_atomic_barrier] ++
          (if 1 < cfg.NUM_ACTIVE_ERISCS then [TeardownEvent.wait_for_other_local_erisc]
            else []) ++
          (if cfg.MY_ERISC_ID = 0 then [TeardownEvent.set_edm_status_terminated] else []) ∧
      TeardownEvent.set_edm_status_terminated ∉ pre ∧
      TeardownEvent.noc_async_write_barrier ∉ pre ∧
      TeardownEvent.noc_async_atomic_barrier ∉ pre ∧
      pre.count TeardownEvent.all_buffer_slot_transactions_acked =
        (if cfg.is_receiver_channel_serviced 0 then 1 else 0)) ∧
    (1 < cfg.NUM_ACTIVE_ERISCS → cfg.MY_ERISC_ID = 0 →
      (3, TeardownEvent.set_edm_status_terminated) ∈ teardown_phases 0 (teardown cfg)) ∧
    (1 < cfg.NUM_ACTIVE_ERISCS →
      ∀ (p : Nat) (e : TeardownEvent), (p, e) ∈ teardown_phases 0 (teardown cfg) →
        e = TeardownEvent.all_buffer_slot_transactions_acked ∨
          e = TeardownEvent.noc_async_write_barrier ∨
          e = TeardownEvent.noc_async_atomic_barrier →
        p < 3) := by
  refine ⟨?_, ⟨(if 1 < cfg.NUM_ACTIVE_ERISCS then [TeardownEvent.wait_for_other_local_erisc]
        else []) ++
      (if cfg.is_receiver_channel_serviced 0 then
        [TeardownEvent.all_buffer_slot_transactions_acked] else []) ++
      [TeardownEvent.ncrisc_noc_counters_init] ++
      (if 1 < cfg.NUM_ACTIVE_ERISCS then [TeardownEvent.wait_for_other_local_erisc] else []) ++
      (if cfg.wait_for_host_signal then
        (if cfg.is_local_handshake_master then [TeardownEvent.notify_subordinate_routers]
          else [])
        else []), ?_, ?_, ?_, ?_, ?_⟩, ?_, ?_⟩
  · unfold teardown IS_TEARDOWN_MASTER
    by_cases h1 : 1 < cfg.NUM_ACTIVE_ERISCS <;> by_cases h2 : cfg.MY_ERISC_ID = 0 <;>
      rcases Bool.eq_false_or_eq_true (cfg.is_receiver_channel_serviced 0) with h3 | h3 <;>
      rcases Bool.eq_false_or_eq_true cfg.wait_for_host_signal with h4 | h4 <;>
      rcases Bool.eq_false_or_eq_true cfg.is_local_handshake_master with h5 | h5 <;>
      simp [h1, h2, h3, h4, h5]
  · unfold teardown IS_TEARDOWN_MASTER
    by_cases h2 : cfg.MY_ERISC_ID = 0 <;> simp [h2, List.append_assoc]
  · by_cases h1 : 1 < cfg.NUM_ACTIVE_ERISCS <;>
      rcases Bool.eq_false_or_eq_true (cfg.is_receiver_channel_serviced 0) with h3 | h3 <;>
      rcases Bool.eq_false_or_eq_true cfg.wait_for_host_signal with h4 | h4 <;>
      rcases Bool.eq_false_or_eq_true cfg.is_local_handshake_master with h5 | h5 <;>
      simp [h1, h3, h4, h5]
  · by_cases h1 : 1 < cfg.NUM_ACTIVE_ERISCS <;>
      rcases Bool.eq_false_or_eq_true (cfg.is_receiver_channel_serviced 0) with h3 | h3 <;>
      rcases Bool.eq_false_or_eq_true cfg.wait_for_host_signal with h4 | h4 <;>
      rcases Bool.eq_false_or_eq_true cfg.is_local_handshake_master with h5 | h5 <;>
      simp [h1, h3, h4, h5]
  · by_cases h1 : 1 < cfg.NUM_ACTIVE_ERISCS <;>
      rcases Bool.eq_false_or_eq_true (cfg.is_receiver_channel_serviced 0) with h3 | h3 <;>
      rcases Bool.eq_false_or_eq_true cfg.wait_for_host_signal with h4 | h4 <;>
      rcases Bool.eq_false_or_eq_true cfg.is_local_handshake_master with h5 | h5 <;>
      simp [h1, h3, h4, h5]
  · by_cases h1 : 1 < cfg.NUM_ACTIVE_ERISCS <;>
      rcases Bool.eq_false_or_eq_true (cfg.is_receiver_channel_serviced 0) with h3 | h3 <;>
      rcases Bool.eq_false_or_eq_true cfg.wait_for_host_signal with h4 | h4 <;>
      rcases Bool.eq_false_or_eq_true cfg.is_local_handshake_master with h5 | h5 <;>
      simp [h1, h3, h4, h5]
  · intro h1 h2
    unfold teardown IS_TEARDOWN_MASTER
    rcases Bool.eq_false_or_eq_true (cfg.is_receiver_channel_serviced 0) with h3 | h3 <;>
      rcases Bool.eq_false_or_eq_true cfg.wait_for_host_signal with h4 | h4 <;>
      rcases Bool.eq_false_or_eq_true cfg.is_local_handshake_master with h5 | h5 <;>
      simp [h1, h2, h3, h4, h5, teardown_phases]
  · intro h1 p e hm he
    unfold teardown IS_TEARDOWN_MASTER at hm
    by_cases h2 : cfg.MY_ERISC_ID = 0 <;>
      rcases Bool.eq_false_or_eq_true (cfg.is_receiver_channel_serviced 0) with h3 | h3 <;>
      rcases Bool.eq_false_or_eq_true cfg.wait_for_host_signal with h4 | h4 <;>
      rcases Bool.eq_false_or_eq_true cfg.is_local_handshake_master with h5 | h5 <;>
      simp [h1, h2, h3, h4, h5, teardown_phases] at hm <;>
      rcases he with he | he | he <;> subst he <;> simp at hm <;> omega

end Teardown

section StreamIds

/-- C21. Downstream sender-channel stream id: for every router direction `d` and compact
index `i` in {0, 1, 2}, with `x = edm_index_to_edm_direction[d][i]` the direction of the
downstream router, `get_vc0_downstream_sender_channel_free_slots_stream_id(i)` is the
free-slots stream id of sender channel `1 + direction_to_compact_index_map[x][d]`, the channel
the documented table of the `x`-outbound router assigns to inbound traffic from `d`: stream
id 22 plus that compact index. -/
theorem downstream_sender_channel_stream_id :
    ∀ (d : eth_chan_directions) (i : Fin 3),
      get_vc0_downstream_sender_channel_free_slots_stream_id d i =
        sender_channel_free_slots_stream_ids
          (1 + direction_to_compact_index_map (edm_index_to_edm_direction d i) d) ∧
      get_vc0_downstream_sender_channel_free_slots_stream_id d i =
        22 + direction_to_compact_index_map (edm_index_to_edm_direction d i) d := by
  decide

/-- C24. The branchless test `is_spine_direction`, `(direction & 0x2) != 0` on the values
EAST = 0, WEST = 1, NORTH = 2, SOUTH = 3, is true exactly when the direction is NORTH or
SOUTH. -/
theorem is_spine_direction_refinement :
    (eth_chan_directions.EAST.toNat = 0 ∧ eth_chan_directions.WEST.toNat = 1 ∧
      eth_chan_directions.NORTH.toNat = 2 ∧ eth_chan_directions.SOUTH.toNat = 3) ∧
    (∀ d : eth_chan_directions, is_spine_direction d = is_spine_direction_spec d) ∧
    (∀ d : eth_chan_directions, is_spine_direction d = true ↔
      d = eth_chan_directions.NORTH ∨ d = eth_chan_directions.SOUTH) := by
  decide

end StreamIds

section EthWords

/-- C25. Byte-to-word conversion on 32-bit inputs: `bytes_to_eth_words_truncated` is the
floor of `num_bytes / 16` for every input; `bytes_to_eth_words` is the ceiling of
`num_bytes / 16` for every `num_bytes <= 2^32 - 16` (the least `w` with `num_bytes <= 16 w`),
and for larger inputs the sum wraps modulo 2^32; on a multiple of 16 the two functions agree
and return `num_bytes / 16`. -/
theorem bytes_to_eth_words_conversion (num_bytes : Nat) (h32 : num_bytes < U32) :
    bytes_to_eth_words_truncated num_bytes = num_bytes / 16 ∧
    (16 * bytes_to_eth_words_truncated num_bytes ≤ num_bytes ∧
      num_bytes < 16 * bytes_to_eth_words_truncated num_bytes + 16) ∧
    (num_bytes ≤ U32 - 16 →
      bytes_to_eth_words num_bytes = ⌈(num_bytes : ℚ) / 16⌉₊ ∧
      num_bytes ≤ 16 * bytes_to_eth_words num_bytes ∧
      16 * bytes_to_eth_words num_bytes < num_bytes + 16) ∧
    (U32 - 16 < num_bytes → bytes_to_eth_words num_bytes = (num_bytes + 15 - U32) / 16) ∧
    (num_bytes % 16 = 0 →
      bytes_to_eth_words num_bytes = num_bytes / 16 ∧
      bytes_to_eth_words num_bytes = bytes_to_eth_words_truncated num_bytes) := by
  unfold U32 at h32
  have e1 : bytes_to_eth_words_truncated num_bytes = num_bytes / 16 := by
    unfold bytes_to_eth_words_truncated BYTES_TO_ETH_WORD_SHIFT U32
    rw [Nat.shiftRight_eq_div_pow, Nat.mod_eq_of_lt h32]
  have e2 : bytes_to_eth_words num_bytes = ((num_bytes + 15) % 4294967296) / 16 := by
    unfold bytes_to_eth_words BYTES_TO_ETH_WORD_SHIFT ETH_WORD_SIZE_BYTES U32
    rw [Nat.shiftRight_eq_div_pow, Nat.mod_eq_of_lt h32]
  refine ⟨e1, ?_, ?_, ?_, ?_⟩
  · rw [e1]; omega
  · intro h
    unfold U32 at h
    have e3 : bytes_to_eth_words num_bytes = (num_bytes + 15) / 16 := by
      rw [e2, Nat.mod_eq_of_lt (by omega)]
    refine ⟨?_, by rw [e3]; omega, by rw [e3]; omega⟩
    rcases Nat.eq_zero_or_pos num_bytes with h0 | h0
    · rw [e3, h0]
      simp
    · symm
      rw [Nat.ceil_eq_iff (by rw [e3]; omega), e3]
      constructor
      · rw [lt_div_iff₀ (by norm_num)]
        have : ((num_bytes + 15) / 16 - 1) * 16 < num_bytes := by omega
        exact_mod_cast this
      · rw [div_le_iff₀ (by norm_num)]
        have : num_bytes ≤ (num_bytes + 15) / 16 * 16 := by omega
        exact_mod_cast this
  · intro h
    unfold U32 at h ⊢
    rw [e2]
    omega
  · intro h
    rw [e1, e2]
    omega

/-- Witness of C25: 33 bytes are two whole words and take three words. -/
theorem bytes_to_eth_words_conversion_witness :
    bytes_to_eth_words_truncated 33 = 33 / 16 :=
  (bytes_to_eth_words_conversion 33 (by decide)).1

end EthWords

section UpstreamCredits

/-- C23. Credits are not lost while disconnected: on a channel that is not persistent,
`send_credits_to_upstream_workers` with `num_credits = k` increases the local read counter by
exactly `k` whether or not a connection is established; when connected it then notifies the
worker of the new counter, when not connected it copies the new counter to the
worker-location info.  On a persistent channel it only notifies the persistent connection of
`k` free slots.  No other field of the channel changes. -/
theorem credits_not_lost_while_disconnected (k : Nat) (s : SenderStepState) :
    ((send_credits_to_upstream_workers false k
        s).local_sender_channel_worker_interface.local_read_counter =
      s.local_sender_channel_worker_interface.local_read_counter + k) ∧
    (s.channel_connection_established = true →
      (send_credits_to_upstream_workers false k s).log = s.log ++
        [SenderEvent.send_credits_to_upstream_workers k,
          SenderEvent.notify_worker_of_read_counter_update
            (s.local_sender_channel_worker_interface.local_read_counter + k)]) ∧
    (s.channel_connection_established = false →
      (send_credits_to_upstream_workers false k s).log = s.log ++
        [SenderEvent.send_credits_to_upstream_workers k,
          SenderEvent.copy_read_counter_to_worker_location_info
            (s.local_sender_channel_worker_interface.local_read_counter + k)]) ∧
    ((send_credits_to_upstream_workers false k
        s).local_sender_channel_worker_interface.local_write_counter =
      s.local_sender_channel_worker_interface.local_write_counter ∧
      (send_credits_to_upstream_workers false k s).channel_connection_established =
        s.channel_connection_established ∧
      (send_credits_to_upstream_workers false k s).sender_channel_from_receiver_credits =
        s.sender_channel_from_receiver_credits ∧
      (send_credits_to_upstream_workers false k s).sender_channel_free_slots_stream =
        s.sender_channel_free_slots_stream ∧
      (send_credits_to_upstream_workers false k
        s).outbound_to_receiver_channel_pointers_num_free_slots =
        s.outbound_to_receiver_channel_pointers_num_free_slots) ∧
    (send_credits_to_upstream_workers true k s).log = s.log ++
      [SenderEvent.send_credits_to_upstream_workers k,
        SenderEvent.notify_persistent_connection_of_free_space k] ∧
    (send_credits_to_upstream_workers true k s).local_sender_channel_worker_interface =
      s.local_sender_channel_worker_interface := by
  unfold send_credits_to_upstream_workers
  rcases Bool.eq_false_or_eq_true s.channel_connection_established with h | h <;> simp [h]

end UpstreamCredits

section MeshConsistency

/-- On the axis, every interface forwarded to belongs to a direction of the command other
than the router's own, no interface is forwarded to twice, and a local delivery is issued
only when the router's own direction is in the command. -/
theorem on_axis_forwards (d : eth_chan_directions) (hop_cmd : Nat) (h0 : 0 < hop_cmd)
    (h16 : hop_cmd < 16) (hax : hop_cmd_on_axis d hop_cmd = true) :
    (∀ idx ∈ forwarded_interfaces d hop_cmd,
      space_on_commanded_interfaces d hop_cmd idx = true) ∧
    (forwarded_interfaces d hop_cmd).Nodup ∧
    (ForwardAction.forward_to_local_destination ∈ receiver_forward_packet_2d d hop_cmd →
      hop_cmd_has_direction hop_cmd d = true) := by
  revert hax
  interval_cases hop_cmd <;> cases d <;> decide

/-- Off the axis, the mesh forwarding forwards to an interface the admission did not ask for
space, or forwards twice to one interface, or delivers locally in UDM mode without the relay
having been asked for space. -/
theorem off_axis_forwards (d : eth_chan_directions) (hop_cmd : Nat) (h0 : 0 < hop_cmd)
    (h16 : hop_cmd < 16) (hax : hop_cmd_on_axis d hop_cmd = false) :
    (∃ idx ∈ forwarded_interfaces d hop_cmd,
      can_forward_packet_completely_2d false d hop_cmd
        (space_on_commanded_interfaces d hop_cmd) true = true ∧
      space_on_commanded_interfaces d hop_cmd idx = false) ∨
    ¬(forwarded_interfaces d hop_cmd).Nodup ∨
    (ForwardAction.forward_to_local_destination ∈ receiver_forward_packet_2d d hop_cmd ∧
      can_forward_packet_completely_2d true d hop_cmd
        (space_on_commanded_interfaces d hop_cmd) false = true) := by
  revert hax
  interval_cases hop_cmd <;> cases d <;> decide

end MeshConsistency

section MeshConsistencyClaim

/-- C26 (amended). Admission/forward consistency in mesh mode, for a router direction `d` and
a hop command from 1 to 15.  On the axis the forwarding is specialised on (a single-direction
`FORWARD_x`; `WRITE_AND_FORWARD_EW` on an EAST or WEST router; any other `WRITE_AND_FORWARD`
command on a NORTH or SOUTH router): whenever `can_forward_packet_completely` admits the
command, every downstream interface `receiver_forward_packet` forwards a copy to has reported
free space; no downstream interface receives more than one copy; and in UDM mode a local
delivery is issued only if the local relay reported free space.  Off the axis one of the
three fails. -/
theorem mesh_admission_forward_consistency (d : eth_chan_directions) (hop_cmd : Nat)
    (h0 : 0 < hop_cmd) (h16 : hop_cmd < 16) :
    (hop_cmd_on_axis d hop_cmd = true →
      (∀ (udm_mode : Bool) (hs : Nat → Bool) (relay : Bool),
        can_forward_packet_completely_2d udm_mode d hop_cmd hs relay = true →
        ∀ edm_index, ForwardAction.forward_payload_to_downstream_edm edm_index ∈
          receiver_forward_packet_2d d hop_cmd → hs edm_index = true) ∧
      (forwarded_interfaces d hop_cmd).Nodup ∧
      (ForwardAction.forward_to_local_destination ∈ receiver_forward_packet_2d d hop_cmd →
        ∀ (hs : Nat → Bool) (relay : Bool),
          can_forward_packet_completely_2d true d hop_cmd hs relay = true → relay = true)) ∧
    (hop_cmd_on_axis d hop_cmd = false →
      (∃ edm_index hs, ForwardAction.forward_payload_to_downstream_edm edm_index ∈
          receiver_forward_packet_2d d hop_cmd ∧
        can_forward_packet_completely_2d false d hop_cmd hs true = true ∧
        hs edm_index = false) ∨
      ¬(forwarded_interfaces d hop_cmd).Nodup ∨
      (ForwardAction.forward_to_local_destination ∈ receiver_forward_packet_2d d hop_cmd ∧
        ∃ hs, can_forward_packet_completely_2d true d hop_cmd hs false = true)) := by
  have hmem : ∀ edm_index, ForwardAction.forward_payload_to_downstream_edm edm_index ∈
      receiver_forward_packet_2d d hop_cmd ↔ edm_index ∈ forwarded_interfaces d hop_cmd := by
    intro edm_index
    unfold forwarded_interfaces
    rw [List.mem_filterMap]
    constructor
    · intro h
      exact ⟨_, h, rfl⟩
    · rintro ⟨a, ha, he⟩
      cases a with
      | forward_payload_to_downstream_edm j =>
        simp only [Option.some.injEq] at he
        rw [← he]; exact ha
      | forward_to_local_destination => simp at he
  constructor
  · intro hax
    obtain ⟨p1, p2, p3⟩ := on_axis_forwards d hop_cmd h0 h16 hax
    refine ⟨?_, p2, ?_⟩
    · intro udm_mode hs relay hcan edm_index hin
      have hreq := p1 edm_index ((hmem edm_index).1 hin)
      unfold space_on_commanded_interfaces at hreq
      obtain ⟨x, hx1, hx2, hx3⟩ := of_decide_eq_true hreq
      have := (can_forward_packet_completely_2d_iff udm_mode d hop_cmd hs relay (by omega)
        h16).1 hcan x hx2
      unfold check_downstream_has_space at this
      rw [if_neg hx1, hx3] at this
      exact this
    · intro hloc hs relay hcan
      have := (can_forward_packet_completely_2d_iff true d hop_cmd hs relay (by omega)
        h16).1 hcan d (p3 hloc)
      unfold check_downstream_has_space at this
      simpa using this
  · intro hax
    rcases off_axis_forwards d hop_cmd h0 h16 hax with ⟨idx, h1, h2, h3⟩ | h | ⟨h1, h2⟩
    · exact Or.inl ⟨idx, _, (hmem idx).2 h1, h2, h3⟩
    · exact Or.inr (Or.inl h)
    · exact Or.inr (Or.inr ⟨h1, _, h2⟩)

/-- Witness of C26 (amended): `WRITE_AND_FORWARD_NSEW` on a NORTH router forwards to three
different interfaces. -/
theorem mesh_admission_forward_consistency_witness :
    (forwarded_interfaces eth_chan_directions.NORTH
      LowLatencyMeshRoutingFields.WRITE_AND_FORWARD_NSEW).Nodup :=
  ((mesh_admission_forward_consistency eth_chan_directions.NORTH
    LowLatencyMeshRoutingFields.WRITE_AND_FORWARD_NSEW (by decide) (by decide)).1
    (by decide)).2.1

/-- Counterexample to C26 as stated: on an EAST router the command `WRITE_AND_FORWARD_NSEW`
forwards two copies to downstream interface 0; and the command `WRITE_AND_FORWARD_NE` is
admitted when only the North interface has space, and forwards a copy to interface 0, which
has none. -/
theorem mesh_admission_forward_consistency_counterexample :
    (receiver_forward_packet_2d eth_chan_directions.EAST
      LowLatencyMeshRoutingFields.WRITE_AND_FORWARD_NSEW).count
        (ForwardAction.forward_payload_to_downstream_edm 0) = 2 ∧
    can_forward_packet_completely_2d false eth_chan_directions.EAST
      LowLatencyMeshRoutingFields.WRITE_AND_FORWARD_NE (fun i => decide (i = 1)) true = true ∧
    ForwardAction.forward_payload_to_downstream_edm 0 ∈
      receiver_forward_packet_2d eth_chan_directions.EAST
        LowLatencyMeshRoutingFields.WRITE_AND_FORWARD_NE := by
  decide

end MeshConsistencyClaim

section LinearConsistency

/-- A mask below 2^32 sees only the low 32 bits of a value. -/
theorem and_mask_low (v m : Nat) (hm : m < U32) : (v % U32) &&& m = v &&& m := by
  apply Nat.eq_of_testBit_eq
  intro i
  have hU : U32 = 2 ^ 32 := by decide
  rw [Nat.testBit_and, Nat.testBit_and, hU, Nat.testBit_mod_two_pow]
  by_cases hi : i < 32
  · simp [hi]
  · have hmi : m.testBit i = false := by
      apply Nat.testBit_lt_two_pow
      calc m < 2 ^ 32 := by rw [← hU]; exact hm
        _ ≤ 2 ^ i := Nat.pow_le_pow_right (by decide) (by omega)
    simp [hmi]

/-- C27. Admission/forward consistency in linear mode, as `run_receiver_channel_step<0>`
instantiates the step, for both routing-field encodings: whenever the linear
`receiver_forward_packet` forwards the packet to the downstream router, the packet is not
deliver-locally-only, so `can_forward_packet_completely` can only have returned true because
the downstream interface reported free space; and the interface it forwards to,
`downstream_edm_interfaces_vc0[0]`, is the interface `downstream_edm_interfaces_vc0[receiver_channel]`
the admission asked. -/
theorem linear_admission_forward_consistency (cfg : KernelConfig) (inp : ReceiverStepInput)
    (edm_index : Nat) (hlin : cfg.is_2d_fabric = false) (hm : cfg.FIELD_MASK < U32)
    (hfw : ForwardAction.forward_payload_to_downstream_edm edm_index ∈
      receiver_forward_actions (cfg.for_receiver_channel 0) inp) :
    edm_index = (cfg.for_receiver_channel 0).receiver_channel ∧
    (if cfg.low_latency_routing_fields then
        (inp.cached_routing_fields_value &&& cfg.FIELD_MASK) ≠ cfg.WRITE_ONLY
      else inp.cached_routing_fields_value ≠ cfg.LAST_MCAST_VAL) ∧
    (can_forward_packet_completely_result (cfg.for_receiver_channel 0) inp = true →
      inp.downstream_has_space edm_index = true) ∧
    (can_forward_packet_completely_result (cfg.for_receiver_channel 0) inp = true ↔
      inp.downstream_has_space (cfg.for_receiver_channel 0).receiver_channel = true) := by
  have hlin' : (cfg.for_receiver_channel 0).is_2d_fabric = false := hlin
  have hrc : (cfg.for_receiver_channel 0).receiver_channel = 0 := rfl
  unfold receiver_forward_actions at hfw
  rw [hlin'] at hfw
  simp only [Bool.false_eq_true, if_false] at hfw
  unfold receiver_forward_packet at hfw
  have hll : (cfg.for_receiver_channel 0).low_latency_routing_fields =
      cfg.low_latency_routing_fields := rfl
  have hfm : (cfg.for_receiver_channel 0).FIELD_MASK = cfg.FIELD_MASK := rfl
  have hwo : (cfg.for_receiver_channel 0).WRITE_ONLY = cfg.WRITE_ONLY := rfl
  have hlm : (cfg.for_receiver_channel 0).LAST_MCAST_VAL = cfg.LAST_MCAST_VAL := rfl
  rw [hll, hfm, hwo, hlm] at hfw
  have key : edm_index = 0 ∧
      (if cfg.low_latency_routing_fields then
        (inp.cached_routing_fields_value &&& cfg.FIELD_MASK) ≠ cfg.WRITE_ONLY
      else inp.cached_routing_fields_value ≠ cfg.LAST_MCAST_VAL) := by
    rcases Bool.eq_false_or_eq_true cfg.low_latency_routing_fields with h | h
    · rw [h] at hfw ⊢
      simp only [if_true, and_mask_low _ _ hm] at hfw ⊢
      split_ifs at hfw with h1 h2 h3
      · simp at hfw
      · simp at hfw
        exact ⟨hfw, h1⟩
      · simp at hfw
        exact ⟨hfw, h1⟩
      · simp at hfw
    · rw [h] at hfw ⊢
      simp only [Bool.false_eq_true, if_false, List.mem_append] at hfw ⊢
      rcases hfw with hfw | hfw
      · split_ifs at hfw with h1
        · simp at hfw
          exact ⟨hfw, by simpa using h1⟩
        · simp at hfw
      · split_ifs at hfw <;> simp at hfw
  obtain ⟨k1, k2⟩ := key
  have hres : can_forward_packet_completely_result (cfg.for_receiver_channel 0) inp = true ↔
      inp.downstream_has_space 0 = true := by
    unfold can_forward_packet_completely_result can_forward_packet_completely
    rw [hlin', hll, hfm, hwo, hlm, hrc]
    rcases Bool.eq_false_or_eq_true cfg.low_latency_routing_fields with h | h
    · rw [h] at k2 ⊢
      simp only [if_true] at k2
      simp [k2]
    · rw [h] at k2 ⊢
      simp only [Bool.false_eq_true, if_false] at k2
      simp [k2]
  refine ⟨by rw [hrc, k1], k2, ?_, by rw [hrc]; exact hres⟩
  rw [k1]
  exact hres.1

end LinearConsistency

section LinearConsistencyWitness

/-- Witness of C27: on the sample linear build a forward-only packet is forwarded to
downstream interface 0, the interface of receiver channel 0. -/
theorem linear_admission_forward_consistency_witness :
    KernelConfig.sample_linear.is_2d_fabric = false ∧
    KernelConfig.sample_linear.FIELD_MASK < U32 ∧
    ForwardAction.forward_payload_to_downstream_edm 0 ∈
      receiver_forward_actions (KernelConfig.sample_linear.for_receiver_channel 0)
        ReceiverStepInput.sample_open ∧
    0 = (KernelConfig.sample_linear.for_receiver_channel 0).receiver_channel :=
  ⟨by decide, by decide, by decide,
    (linear_admission_forward_consistency KernelConfig.sample_linear
      ReceiverStepInput.sample_open 0 (by decide) (by decide) (by decide)).1⟩

end LinearConsistencyWitness

section SenderWorkerSemaphoreClaim

/-- C22 (failing input). The address `kernel_main` writes with 0 for sender channel 0 is the
value of runtime argument `arg_idx + 1`; for a channel `i` from 1 to 7 it is the word stored
at the address that runtime argument `arg_idx + i + 1` holds.  With the eight
sender-worker-semaphore arguments at indices 40 to 47, argument `k` holding `1000 + 16 * k`
and the word stored at address `a` being `a + 1`, channel 0 is given the address held by
argument 41, not argument 40, the other channels are given one more than the value of their
argument, and channel 7 uses argument 48, the first argument after the eight skipped by
`arg_idx += 8`. -/
theorem sender_worker_semaphore_arguments_failing_input :
    (∀ (cfg : KernelConfig) (get_arg_val l1_read : Nat → Nat) (arg_idx i a : Nat),
      (i, a) ∈ sender_worker_semaphore_init cfg get_arg_val l1_read arg_idx →
        i ≤ 7 ∧ cfg.is_sender_channel_serviced i = true ∧
        a = (if i = 0 then get_arg_val (arg_idx + 1)
          else l1_read (get_arg_val (arg_idx + i + 1)))) ∧
    sender_worker_semaphore_init KernelConfig.sample (fun k => 1000 + 16 * k)
        (fun a => a + 1) 40 =
      [(0, 1656), (1, 1673), (2, 1689), (3, 1705), (4, 1721), (5, 1737), (6, 1753),
        (7, 1769)] ∧
    (List.range 8).map (fun i => (i, (fun k => 1000 + 16 * k) (40 + i))) =
      [(0, 1640), (1, 1656), (2, 1672), (3, 1688), (4, 1704), (5, 1720), (6, 1736),
        (7, 1752)] ∧
    arg_idx_after_sender_worker_semaphores 40 = 48 ∧
    (fun k => 1000 + 16 * k) 48 + 1 = 1769 := by
  refine ⟨?_, by decide, by decide, by decide, by decide⟩
  intro cfg get_arg_val l1_read arg_idx i a h
  unfold sender_worker_semaphore_init at h
  simp only [List.mem_append] at h
  rcases h with ((h | h) | h) | h
  · split_ifs at h with h0
    · simp at h
      simp [h.1, h.2, h0]
    · simp at h
  · split_ifs at h with h0
    · simp at h
      simp [h.1, h.2, h0]
    · simp at h
  · split_ifs at h with h0
    · simp at h
      simp [h.1, h.2, h0]
    · simp at h
  · by_cases h2d : cfg.is_2d_fabric = true
    · rw [if_pos h2d] at h
      simp only [List.mem_append] at h
      rcases h with (((h | h) | h) | h) | h <;>
      · split_ifs at h with h0
        · simp at h
          simp [h.1, h.2, h0]
        · simp at h
    · rw [if_neg h2d] at h
      simp at h

end SenderWorkerSemaphoreClaim

section DownstreamConnections

/-- The loop on the word 0 visits nothing. -/
theorem downstream_edm_bits_zero (fuel compact_index : Nat) :
    downstream_edm_bits fuel 0 compact_index = [] := by
  cases fuel <;> simp [downstream_edm_bits]

/-- With fuel for three passes or more the loop visits exactly the set bits of a three-bit
word. -/
theorem downstream_edm_bits_low_three (fuel w : Nat) (hf : 3 ≤ fuel) :
    downstream_edm_bits fuel (w &&& 7) 0 = low_three_set_bits w := by
  have h7 : w &&& 7 = w % 8 := Nat.and_pow_two_sub_one_eq_mod w 3
  have hb : ∀ i, i < 3 → w.testBit i = (w % 8).testBit i := by
    intro i hi
    have := Nat.testBit_mod_two_pow w 3 i
    simp only [Nat.reducePow] at this
    rw [this]; simp [hi]
  unfold low_three_set_bits
  have hfil : [0, 1, 2].filter (fun i => w.testBit i) =
      [0, 1, 2].filter (fun i => (w % 8).testBit i) := by
    apply List.filter_congr
    intro i hi
    simp only [List.mem_cons, List.mem_singleton, List.not_mem_nil, or_false] at hi
    exact hb i (by omega)
  rw [hfil, h7]
  obtain ⟨k, rfl⟩ : ∃ k, fuel = k + 3 := ⟨fuel - 3, by omega⟩
  have hlt : w % 8 < 8 := Nat.mod_lt _ (by decide)
  generalize w % 8 = r at hlt
  interval_cases r <;> simp [downstream_edm_bits, downstream_edm_bits_zero] <;> decide

end DownstreamConnections

section DownstreamConnectionsClaim

/-- The set bits among the low three bits only depend on the word modulo 8. -/
theorem low_three_set_bits_mod (w : Nat) : low_three_set_bits w = low_three_set_bits (w % 8) := by
  unfold low_three_set_bits
  apply List.filter_congr
  intro i hi
  simp only [List.mem_cons, List.mem_singleton, List.not_mem_nil, or_false] at hi
  have := Nat.testBit_mod_two_pow w 3 i
  simp only [Nat.reducePow] at this
  rw [this]
  have : i < 3 := by omega
  simp [this]

/-- The interfaces constructed are those of the set bits among the low three bits. -/
theorem constructed_downstream_interfaces_eq (arg : Nat) :
    constructed_downstream_interfaces arg = low_three_set_bits (arg % U32) := by
  unfold constructed_downstream_interfaces
  split_ifs with h
  · exact downstream_edm_bits_low_three 32 _ (by decide)
  · rw [not_not.1 h]; rfl

/-- C29 (amended). Downstream connections opened and constructed, on a core that services
receiver channel 0.  The interfaces constructed during setup are those of the set bits among
the low three bits of `has_downstream_edm_vc0_buffer_connection`.  In mesh mode the
interfaces on which `open` is called are the same, for every value of the argument.  In
linear mode `open` is called on interface 0 exactly when the argument is not zero, which is
the set of constructed interfaces exactly when the argument is zero or its low three bits
are 001 (only bit 0 set, as the host packs it in linear mode). -/
theorem downstream_connections_opened (cfg : KernelConfig) (arg : Nat)
    (hs : cfg.is_receiver_channel_serviced 0 = true) :
    constructed_downstream_interfaces arg = low_three_set_bits (arg % U32) ∧
    (cfg.is_2d_fabric = true →
      opened_downstream_interfaces cfg arg = constructed_downstream_interfaces arg) ∧
    (cfg.is_2d_fabric = false →
      opened_downstream_interfaces cfg arg = (if arg % U32 ≠ 0 then [0] else []) ∧
      (opened_downstream_interfaces cfg arg = constructed_downstream_interfaces arg ↔
        arg % U32 = 0 ∨ (arg % U32) &&& 7 = 1)) := by
  refine ⟨constructed_downstream_interfaces_eq arg, ?_, ?_⟩
  · intro h2d
    rw [constructed_downstream_interfaces_eq]
    unfold opened_downstream_interfaces
    rw [h2d, hs]
    exact downstream_edm_bits_low_three 32 _ (by decide)
  · intro h2d
    have hop : opened_downstream_interfaces cfg arg = (if arg % U32 ≠ 0 then [0] else []) := by
      unfold opened_downstream_interfaces
      rw [h2d, hs]
      rfl
    refine ⟨hop, ?_⟩
    rw [hop, constructed_downstream_interfaces_eq, low_three_set_bits_mod]
    have h7 : (arg % U32) &&& 7 = arg % U32 % 8 := Nat.and_pow_two_sub_one_eq_mod _ 3
    rw [h7]
    by_cases h0 : arg % U32 = 0
    · rw [h0]
      simp [low_three_set_bits]
    · rw [if_pos h0]
      have hlt : arg % U32 % 8 < 8 := Nat.mod_lt _ (by decide)
      generalize arg % U32 % 8 = r at hlt
      simp only [h0, false_or]
      interval_cases r <;> decide

/-- Witness of C29 (amended): on the sample mesh build the argument 5 opens the constructed
interfaces 0 and 2. -/
theorem downstream_connections_opened_witness :
    opened_downstream_interfaces KernelConfig.sample 5 = constructed_downstream_interfaces 5 :=
  (downstream_connections_opened KernelConfig.sample 5 (by decide)).2.1 (by decide)

/-- Counterexample to C29 as stated, in linear mode: for the argument 2 only interface 1 is
constructed, and `open` is called on interface 0, which was not constructed. -/
theorem downstream_connections_opened_counterexample :
    KernelConfig.sample_linear.is_receiver_channel_serviced 0 = true ∧
    KernelConfig.sample_linear.is_2d_fabric = false ∧
    constructed_downstream_interfaces 2 = [1] ∧
    opened_downstream_interfaces KernelConfig.sample_linear 2 = [0] := by
  decide

end DownstreamConnectionsClaim

section ProgressFlagsClaim

set_option maxRecDepth 100000

/-- C28 (failing input). The value a channel step returns is the file-scope flag
`did_something`, which is cleared only at the head of an outer iteration: a sender step
returns true when the flag was already set or it transmits, a receiver step when the flag was
already set or it admits a packet.  On the sample mesh build, in a batch where one packet
arrives at the receiver and every sender queue stays idle, the receiver step of the first
sub-iteration admits the packet and every later step of the batch returns true: `tx_progress`
is set although no sender channel sent a packet, and the receiver step of the second
sub-iteration returns true although it admits nothing. -/
theorem progress_flags_failing_input :
    (∀ (cfg : RouterConfig) (sender_channel_index : Nat) (inp : SenderStepInput)
        (s : SenderStepState),
      run_sender_channel_step_impl_result cfg sender_channel_index inp s =
        (s.did_something || sender_can_send cfg sender_channel_index inp s)) ∧
    (∀ (cfg : RouterConfig) (inp : ReceiverStepInput) (s : ReceiverStepState),
      run_receiver_channel_step_impl_result cfg inp s =
        (s.did_something ||
          (receiver_unwritten_packets cfg s.to_receiver_pkts_sent (receiver_step_ack cfg inp s) &&
            can_send_to_all_local_chip_receivers cfg inp))) ∧
    (main_loop_outer_iteration KernelConfig.sample SubIterationInput.sample_batch
        (MainLoopState.init KernelConfig.sample (fun _ => 0))).trace =
      [MainLoopEvent.set_termination_signal TerminationSignal.KEEP_RUNNING,
        MainLoopEvent.run_sender_channel_step 0 false,
        MainLoopEvent.run_receiver_channel_step 0 true,
        MainLoopEvent.run_sender_channel_step 1 true,
        MainLoopEvent.run_sender_channel_step 2 true,
        MainLoopEvent.run_sender_channel_step 3 true,
        MainLoopEvent.run_sender_channel_step 0 true,
        MainLoopEvent.run_receiver_channel_step 0 true,
        MainLoopEvent.run_sender_channel_step 1 true,
        MainLoopEvent.run_sender_channel_step 2 true,
        MainLoopEvent.run_sender_channel_step 3 true] ∧
    (main_loop_outer_iteration KernelConfig.sample SubIterationInput.sample_batch
        (MainLoopState.init KernelConfig.sample (fun _ => 0))).tx_progress = true ∧
    (main_loop_outer_iteration KernelConfig.sample SubIterationInput.sample_batch
        (MainLoopState.init KernelConfig.sample (fun _ => 0))).sender_side.log.filter
      SenderEvent.is_send_event = [] ∧
    (main_loop_outer_iteration KernelConfig.sample SubIterationInput.sample_batch
        (MainLoopState.init KernelConfig.sample (fun _ => 0))).sender_side.pkts_sent_published
      = 0 ∧
    ((main_loop_outer_iteration KernelConfig.sample SubIterationInput.sample_batch
        (MainLoopState.init KernelConfig.sample (fun _ => 0))).receiver_channel_0.log.filter
      ReceiverEvent.is_forward_event).length = 1 := by
  refine ⟨?_, ?_, ?_, ?_, ?_, ?_, ?_⟩
  · intro cfg i inp s
    exact (sender_step_fields cfg i inp s).2.2.2.2
  · intro cfg inp s
    exact (receiver_step_forwarding cfg inp s).2.2.1
  · decide
  · decide
  · decide
  · decide
  · decide

end ProgressFlagsClaim

end EdmRouter
